import Mathlib

/-!
# Verification of the labnotes entry/asset persistence workflow

Shallow embedding of `app/routes.py` (johnowhitaker/labnotez): the image
store helpers (`_allowed_image`, `_save_uploaded_image`, `_delete_image`),
date normalization (`_normalized_entry_date`), paginated listing
(`_fetch_entries`), and the three admin write workflows (`admin_new`,
`admin_edit`, `admin_delete`) together with the SQLite state they act on.

Modelling conventions:
  * The relational store is a pair of in-memory tables (`DB`); row ids are
    allocated from explicit counters, standing for SQLite rowids, and the
    lists are kept in rowid (insertion) order, matching the scan order an
    unordered `LIMIT 1` query sees.
  * The transaction is modelled by keeping the committed `DB` and building a
    staged copy; `commit` publishes the staged copy, `rollback` keeps the
    committed one.  Filesystem writes are immediate (not transactional),
    exactly as in the code.
  * The upload directory is a set-like state `FS` of relative file paths and
    directories under the upload root.
  * `uuid4().hex` is modelled by a token supply `tok : Nat → String` consumed
    left to right.
  * Python `datetime.strptime(_, "%Y-%m-%d")` and `date(...)` validation are
    embedded from CPython semantics: a four-digit year, a one- or two-digit
    month in 1..12, a one- or two-digit day validated against the month
    length (Gregorian leap rule), full match required, year at least 1.
  * `werkzeug.utils.secure_filename` is embedded from its (posix) source:
    drop non-ASCII code points (NFKD decomposition is not modelled, which is
    exact for ASCII inputs), replace the path separator by a space, join the
    whitespace-split words with underscores, keep only `[A-Za-z0-9_.-]`,
    and strip dots and underscores from both ends.
  * Python `str.strip()` / `.lower()` are modelled on ASCII whitespace and
    ASCII letters, which is exact for ASCII data.
-/

/-! ## Decimal digit strings -/

/-- Little-endian decimal digits of `n` (empty for `0`), with fuel. -/
def natDigitsAux : Nat → Nat → List Nat
  | 0, _ => []
  | _ + 1, 0 => []
  | fuel + 1, n + 1 => ((n + 1) % 10) :: natDigitsAux fuel ((n + 1) / 10)

/-- Value of a little-endian decimal digit list. -/
def parseLE : List Nat → Nat
  | [] => 0
  | d :: ds => d + 10 * parseLE ds

/-- The digit character for `d < 10`. -/
def digitChar (d : Nat) : Char :=
  match d with
  | 0 => '0' | 1 => '1' | 2 => '2' | 3 => '3' | 4 => '4'
  | 5 => '5' | 6 => '6' | 7 => '7' | 8 => '8' | 9 => '9'
  | _ => '*'

/-- Numeric value of a digit character. -/
def charVal (c : Char) : Nat := c.toNat - 48

/-- Decimal rendering of `n` as characters, most significant first;
`natChars 0 = ['0']`, modelling Python `str(n)` / `"%d" % n`. -/
def natChars (n : Nat) : List Char :=
  if n = 0 then ['0'] else ((natDigitsAux n n).map digitChar).reverse

/-- Pad a character list with leading `'0'` up to width `w`,
modelling Python zero-padded formatting such as `f"{m:02d}"`. -/
def padChars (w : Nat) (cs : List Char) : List Char :=
  List.replicate (w - cs.length) '0' ++ cs

/-- Python `str(n)` for a natural number. -/
def natStr (n : Nat) : String := String.mk (natChars n)

/-- Numeric value of a digit character list (most significant first),
modelling Python `int(...)` on a digit string. -/
def charsToNat (cs : List Char) : Nat := parseLE ((cs.map charVal).reverse)

/-! ## Calendar dates and `strptime`  -/

/-- A calendar date as carried by `datetime.date`. -/
structure Date where
  y : Nat
  m : Nat
  d : Nat
deriving DecidableEq

/-- Gregorian leap-year rule used by `datetime`. -/
def isLeap (y : Nat) : Bool := (y % 4 = 0 && y % 100 ≠ 0) || y % 400 = 0

/-- Number of days in a month, as validated by `datetime.date`. -/
def daysInMonth (y m : Nat) : Nat :=
  if m = 2 then (if isLeap y then 29 else 28)
  else if m = 4 ∨ m = 6 ∨ m = 9 ∨ m = 11 then 30
  else 31

/-- The dates `datetime.date` accepts. -/
def ValidDate (dt : Date) : Prop :=
  1 ≤ dt.y ∧ dt.y ≤ 9999 ∧ 1 ≤ dt.m ∧ dt.m ≤ 12 ∧ 1 ≤ dt.d ∧ dt.d ≤ daysInMonth dt.y dt.m

instance (dt : Date) : Decidable (ValidDate dt) := by
  unfold ValidDate; infer_instance

/-- `date.isoformat()`: `f"{y:04d}-{m:02d}-{d:02d}"`. -/
def Date.iso (dt : Date) : String :=
  String.mk (padChars 4 (natChars dt.y) ++ '-' :: padChars 2 (natChars dt.m)
    ++ '-' :: padChars 2 (natChars dt.d))

/-- Split a character list on `'-'` (Python `str.split("-")` shape,
used to mirror the component structure of the `%Y-%m-%d` pattern). -/
def splitDash : List Char → List (List Char)
  | [] => [[]]
  | c :: rest =>
    if c = '-' then [] :: splitDash rest
    else
      match splitDash rest with
      | [] => [[c]]
      | p :: ps => (c :: p) :: ps

/-- `datetime.strptime(s, "%Y-%m-%d").date()`: year of exactly four digits,
month and day of one or two digits, literal dashes, nothing left over, and
the resulting triple accepted by `datetime.date` (CPython `_strptime`
regexes `\d\d\d\d`, `1[0-2]|0[1-9]|[1-9]`, `3[01]|[12]\d|0[1-9]|[1-9]`
are equivalent to the digit/length/value checks below). -/
def strptimeYmd (s : String) : Option Date :=
  match splitDash s.data with
  | [ys, ms, ds] =>
    if ys.length = 4 ∧ ys.all Char.isDigit ∧
        1 ≤ ms.length ∧ ms.length ≤ 2 ∧ ms.all Char.isDigit ∧
        1 ≤ ds.length ∧ ds.length ≤ 2 ∧ ds.all Char.isDigit then
      if ValidDate ⟨charsToNat ys, charsToNat ms, charsToNat ds⟩ then
        some ⟨charsToNat ys, charsToNat ms, charsToNat ds⟩
      else none
    else none
  | _ => none

/-- `_normalized_entry_date` (routes.py:42-46): default to today when the
field is absent or empty, else strict parse (the caller turns the
`ValueError` into its own flash message, so the error carries no payload). -/
def normalized_entry_date (today : Date) (raw : Option String) : Except Unit String :=
  match raw with
  | none => .ok today.iso
  | some s =>
    if s = "" then .ok today.iso
    else
      match strptimeYmd s with
      | none => .error ()
      | some dt => .ok dt.iso

/-! ## Python string helpers -/

/-- The ASCII whitespace recognized by `str.split()` / `str.strip()`. -/
def isPyWs (c : Char) : Bool :=
  c = ' ' || c = '\t' || c = '\n' || c = '\r' || c.toNat = 11 || c.toNat = 12

/-- Python `str.strip()` (ASCII fragment). -/
def pyStrip (s : String) : String :=
  String.mk (((s.data.dropWhile isPyWs).reverse.dropWhile isPyWs).reverse)

/-- ASCII lower-casing of one character (`str.lower()` on ASCII data). -/
def lowerChar (c : Char) : Char :=
  if 'A' ≤ c && c ≤ 'Z' then Char.ofNat (c.toNat + 32) else c

/-- Python `str.lower()` (ASCII fragment). -/
def lowerStr (s : String) : String := String.mk (s.data.map lowerChar)

/-- Python `str.split()`: split on whitespace runs, dropping empty pieces. -/
def pySplitWs (cs : List Char) : List (List Char) :=
  (cs.foldr
    (fun c acc =>
      if isPyWs c then [] :: acc
      else
        match acc with
        | [] => [[c]]
        | g :: gs => (c :: g) :: gs)
    []).filter (· ≠ [])

/-- `"_".join(words)` on character lists. -/
def joinUnderscore : List (List Char) → List Char
  | [] => []
  | [w] => w
  | w :: ws => w ++ '_' :: joinUnderscore ws

/-- The characters kept by werkzeug filename sanitization: `[A-Za-z0-9_.-]`. -/
def isSafeFnChar (c : Char) : Bool :=
  ('A' ≤ c && c ≤ 'Z') || ('a' ≤ c && c ≤ 'z') || ('0' ≤ c && c ≤ '9') ||
    c = '_' || c = '.' || c = '-'

/-- Strip `'.'` and `'_'` from both ends (`str.strip("._")`). -/
def stripDotUnderscore (cs : List Char) : List Char :=
  ((cs.dropWhile (fun c => c = '.' || c = '_')).reverse.dropWhile
    (fun c => c = '.' || c = '_')).reverse

/-- `werkzeug.utils.secure_filename` on posix (see module comment). -/
def secure_filename (s : String) : String :=
  let ascii := s.data.filter (fun c => c.toNat < 128)
  let replaced := ascii.map (fun c => if c = '/' then ' ' else c)
  let joined := joinUnderscore (pySplitWs replaced)
  let cleaned := joined.filter isSafeFnChar
  String.mk (stripDotUnderscore cleaned)

/-! ## Image store -/

/-- `ALLOWED_IMAGE_EXTENSIONS` from the app config (`app/__init__.py:39`). -/
def ALLOWED_IMAGE_EXTENSIONS : List String :=
  ["jpg", "jpeg", "png", "webp", "gif", "heic", "heif"]

/-- Characters after the last `'.'` of a list (whole list when dot-free). -/
def afterLastDot : List Char → List Char
  | [] => []
  | c :: rest =>
    if c = '.' then (if '.' ∈ rest then afterLastDot rest else rest)
    else afterLastDot rest

/-- `_allowed_image` (routes.py:61-65): requires a dot, then compares
`filename.rsplit(".", 1)[1].lower()` against the allow-list. -/
def allowed_image (filename : String) : Bool :=
  if '.' ∈ filename.data then
    ALLOWED_IMAGE_EXTENSIONS.contains (lowerStr (String.mk (afterLastDot filename.data)))
  else false

/-- `pathlib.PurePath(name).suffix` for a separator-free name: the part from
the last dot, provided that dot is neither the first nor the last character. -/
def pathSuffix (s : String) : String :=
  let cs := s.data
  if '.' ∈ cs then
    let post := afterLastDot cs
    if post.length + 1 < cs.length ∧ post ≠ [] then String.mk ('.' :: post) else ""
  else ""

/-- The upload-directory state: relative paths of regular files and of
directories under the upload root. -/
structure FS where
  files : List String
  dirs : List String
deriving DecidableEq

/-- Write a file at a relative path (`FileStorage.save`): set-like insert. -/
def FS.addFile (fs : FS) (p : String) : FS :=
  if p ∈ fs.files then fs else { fs with files := p :: fs.files }

/-- `mkdir(parents=True, exist_ok=True)` for the dated subdirectory. -/
def FS.addDir (fs : FS) (p : String) : FS :=
  if p ∈ fs.dirs then fs else { fs with dirs := p :: fs.dirs }

/-- `_delete_image` (routes.py:91-97): no-op on an empty path; unlink only
when the path exists as a regular file (`exists() and is_file()` collapses
to file membership, since a file always exists). -/
def delete_image (relative_path : String) (fs : FS) : FS :=
  if relative_path = "" then fs
  else if relative_path ∈ fs.files then
    { fs with files := fs.files.filter (· ≠ relative_path) }
  else fs

/-- The compensating / post-commit deletion loops
(`for relative_path in ...: _delete_image(relative_path)`). -/
def deleteAll (paths : List String) (fs : FS) : FS :=
  paths.foldl (fun acc p => delete_image p acc) fs

/-- An uploaded file handle: werkzeug `FileStorage` with its filename
(`""` both for a missing part and an empty name) and whether the physical
`save` succeeds (`false` injects an unexpected I/O failure). -/
structure FileStorage where
  filename : String
  saveOk : Bool
deriving DecidableEq

/-- The two error classes the workflows catch: `ValueError` (validation)
and any other exception. -/
inductive PyErr
  | valueError (msg : String)
  | otherError
deriving DecidableEq

/-- Relative dated directory `f"{year:04d}" / f"{month:02d}" / f"{day:02d}"`. -/
def dateDirChars (dt : Date) : List Char :=
  padChars 4 (natChars dt.y) ++ '/' :: padChars 2 (natChars dt.m)
    ++ '/' :: padChars 2 (natChars dt.d)

/-- Outcome of `_save_uploaded_image`: either an error, or the stored
relative path; both carry the filesystem and token-counter afterwards. -/
inductive SaveResult
  | failed (e : PyErr) (fs : FS) (k : Nat)
  | stored (path : String) (fs : FS) (k : Nat)
deriving DecidableEq

/-- The `(relative_dir / filename).as_posix()` path that `_save_uploaded_image`
returns on success: the dated directory joined with
`f"{role}-{uuid4().hex}{ext}"`, where `ext` is the lower-cased suffix of the
sanitized filename. -/
def savedRelPath (tok : Nat → String) (file : FileStorage) (role : String)
    (dt : Date) (k : Nat) : String :=
  String.mk (dateDirChars dt ++ '/' ::
    (role ++ "-" ++ tok k ++ lowerStr (pathSuffix (secure_filename file.filename))).data)

/-- `_save_uploaded_image` (routes.py:68-88): sanitize the name, validate
presence and extension, derive the dated directory from `entry_date`, make
the directory, write the file, and return the forward-slash relative path
`savedRelPath`. -/
def save_uploaded_image (tok : Nat → String) (file : FileStorage)
    (entry_date role : String) (fs : FS) (k : Nat) : SaveResult :=
  if secure_filename file.filename = "" then
    .failed (.valueError "Image filename is missing.") fs k
  else if !allowed_image (secure_filename file.filename) then
    .failed (.valueError ("Unsupported image format for "
      ++ secure_filename file.filename
      ++ ". Use jpg, png, webp, gif, heic, or heif.")) fs k
  else
    match strptimeYmd entry_date with
    | none => .failed (.valueError "time data does not match format") fs k
    | some dt =>
      if file.saveOk then
        .stored (savedRelPath tok file role dt k)
          ((fs.addDir (String.mk (dateDirChars dt))).addFile (savedRelPath tok file role dt k))
          (k + 1)
      else .failed .otherError (fs.addDir (String.mk (dateDirChars dt))) (k + 1)


/-! ## Relational store -/

/-- The two asset kinds. -/
inductive AssetKind
  | notebook_page
  | photo
deriving DecidableEq

/-- A row of the `entries` table. -/
structure EntryRow where
  id : Nat
  entry_date : String
  title : String
  body_markdown : String
  created_at : String
  updated_at : String
deriving DecidableEq

/-- A row of the `assets` table. -/
structure AssetRow where
  id : Nat
  entry_id : Nat
  kind : AssetKind
  file_path : String
  caption : String
  sort_index : Nat
  created_at : String
deriving DecidableEq

/-- The SQLite database: both tables in rowid order plus rowid counters. -/
structure DB where
  entries : List EntryRow
  assets : List AssetRow
  nextEntryId : Nat
  nextAssetId : Nat
deriving DecidableEq

/-- `INSERT INTO entries ... VALUES (?, ?, ?, ?, ?)` with
`created_at = updated_at = timestamp`; returns `cursor.lastrowid`. -/
def insertEntryRow (db : DB) (entry_date title body timestamp : String) : DB × Nat :=
  let eid := db.nextEntryId
  ({ db with
      entries := db.entries ++
        [{ id := eid, entry_date := entry_date, title := title,
           body_markdown := body, created_at := timestamp, updated_at := timestamp }],
      nextEntryId := eid + 1 }, eid)

/-- `INSERT INTO assets (entry_id, kind, file_path, caption, sort_index, created_at)`. -/
def insertAssetRow (db : DB) (eid : Nat) (kind : AssetKind)
    (path caption : String) (sort : Nat) (timestamp : String) : DB :=
  { db with
      assets := db.assets ++
        [{ id := db.nextAssetId, entry_id := eid, kind := kind, file_path := path,
           caption := caption, sort_index := sort, created_at := timestamp }],
      nextAssetId := db.nextAssetId + 1 }

/-- `UPDATE entries SET entry_date = ?, title = ?, body_markdown = ?, updated_at = ? WHERE id = ?`. -/
def updateEntryRow (db : DB) (eid : Nat) (entry_date title body timestamp : String) : DB :=
  { db with
      entries := db.entries.map (fun e =>
        if e.id = eid then
          { e with entry_date := entry_date, title := title,
                   body_markdown := body, updated_at := timestamp }
        else e) }

/-- `UPDATE assets SET file_path = ?, caption = ?, created_at = ? WHERE id = ?`
(notebook replacement, routes.py:462-469). -/
def updateNotebookRow (db : DB) (aid : Nat) (path caption timestamp : String) : DB :=
  { db with
      assets := db.assets.map (fun a =>
        if a.id = aid then
          { a with file_path := path, caption := caption, created_at := timestamp }
        else a) }

/-- `UPDATE assets SET caption = ? WHERE id = ?` (routes.py:480-483). -/
def updateAssetCaption (db : DB) (aid : Nat) (caption : String) : DB :=
  { db with
      assets := db.assets.map (fun a =>
        if a.id = aid then { a with caption := caption } else a) }

/-- `UPDATE assets SET caption = ?, sort_index = ? WHERE id = ? AND entry_id = ? AND kind = 'photo'`. -/
def updatePhotoRow (db : DB) (aid eid : Nat) (caption : String) (sort : Nat) : DB :=
  { db with
      assets := db.assets.map (fun a =>
        if a.id = aid ∧ a.entry_id = eid ∧ a.kind = AssetKind.photo then
          { a with caption := caption, sort_index := sort }
        else a) }

/-- `DELETE FROM assets WHERE id = ? AND entry_id = ? AND kind = 'photo'`. -/
def deletePhotoRow (db : DB) (aid eid : Nat) : DB :=
  { db with
      assets := db.assets.filter (fun a =>
        decide (¬(a.id = aid ∧ a.entry_id = eid ∧ a.kind = AssetKind.photo))) }

/-- `ORDER BY sort_index ASC, id ASC` on photo rows. -/
def photoLe (a b : AssetRow) : Prop :=
  a.sort_index < b.sort_index ∨ (a.sort_index = b.sort_index ∧ a.id ≤ b.id)

instance : DecidableRel photoLe := fun a b => by unfold photoLe; infer_instance

/-- Is `a` a photo row of entry `eid`? -/
def isPhotoOf (eid : Nat) (a : AssetRow) : Bool :=
  decide (a.entry_id = eid ∧ a.kind = AssetKind.photo)

/-- `SELECT id, file_path FROM assets WHERE entry_id = ? AND kind = 'photo'
ORDER BY sort_index ASC, id ASC` (routes.py:437-445). -/
def selectPhotos (db : DB) (eid : Nat) : List AssetRow :=
  List.insertionSort photoLe (db.assets.filter (isPhotoOf eid))

/-- `SELECT id, file_path FROM assets WHERE entry_id = ? AND kind =
'notebook_page' LIMIT 1` (routes.py:427-435): first row in rowid order. -/
def selectNotebook (db : DB) (eid : Nat) : Option AssetRow :=
  (db.assets.filter (fun a =>
    decide (a.entry_id = eid ∧ a.kind = AssetKind.notebook_page))).head?

/-! ## Write workflows -/

/-- What a workflow run reports back through the view layer. -/
inductive RouteResult
  | published (entry_id : Nat)
  | updated
  | deleted
  | notFound
  | validationError (msg : String)
  | genericError
deriving DecidableEq

/-- Did the run end in one of the two caught error classes? -/
def RouteResult.isErr : RouteResult → Bool
  | .validationError _ => true
  | .genericError => true
  | _ => false

/-- Observable end state of one workflow request: the reported result, the
committed database, the filesystem, the flashed messages, and (for the
failure-policy claims) the `saved_files` list the attempt accumulated. -/
structure Outcome where
  result : RouteResult
  db : DB
  fs : FS
  flashes : List String
  saved_attempt : List String
deriving DecidableEq

/-- Mutable state threaded through an attempt: staged database, filesystem,
`saved_files`, and the uuid counter. -/
structure AttemptSt where
  db : DB
  fs : FS
  saved : List String
  k : Nat
deriving DecidableEq

/-- `_store_new_photos` (routes.py:216-243): skip nameless parts, pair the
caption by position (missing caption = empty string), save the image, record
the saved path, insert the asset row, and advance `sort_index`. -/
def store_new_photos (tok : Nat → String) (entryId : Nat) (entryDate : String)
    (captions : List String) (timestamp : String) :
    List FileStorage → Nat → Nat → AttemptSt → Option PyErr × Nat × AttemptSt
  | [], _, si, st => (none, si, st)
  | f :: rest, idx, si, st =>
    if f.filename = "" then
      store_new_photos tok entryId entryDate captions timestamp rest (idx + 1) si st
    else
      let caption := pyStrip (captions.getD idx "")
      match save_uploaded_image tok f entryDate "photo" st.fs st.k with
      | .failed e fs1 k1 => (some e, si, { st with fs := fs1, k := k1 })
      | .stored path fs1 k1 =>
        store_new_photos tok entryId entryDate captions timestamp rest (idx + 1) (si + 1)
          { db := insertAssetRow st.db entryId .photo path caption si timestamp,
            fs := fs1, saved := st.saved ++ [path], k := k1 }

/-- Notebook handling inside `admin_new` (routes.py:351-360). -/
def create_notebook_step (tok : Nat → String) (entryId : Nat)
    (entryDate nbCaption : String) (nbFile : Option FileStorage)
    (timestamp : String) (db : DB) (fs : FS) (k : Nat) :
    Option PyErr × DB × FS × List String × Nat :=
  match nbFile with
  | none => (none, db, fs, [], k)
  | some f =>
    if f.filename = "" then (none, db, fs, [], k)
    else
      match save_uploaded_image tok f entryDate "notebook" fs k with
      | .failed e fs1 k1 => (some e, db, fs1, [], k1)
      | .stored path fs1 k1 =>
        (none, insertAssetRow db entryId .notebook_page path nbCaption 0 timestamp,
          fs1, [path], k1)

/-- The `try:` body of `admin_new` (routes.py:341-372): insert the entry,
store the optional notebook page, store the photos.  Returns the staged
database, the filesystem, `saved_files`, and the error if one was raised. -/
def create_attempt (tok : Nat → String) (entryDate title body nbCaption : String)
    (nbFile : Option FileStorage) (photos : List FileStorage)
    (photoCaptions : List String) (timestamp : String)
    (db : DB) (fs : FS) (k : Nat) :
    Option PyErr × Nat × DB × FS × List String × Nat :=
  let (db1, entryId) := insertEntryRow db entryDate title body timestamp
  match create_notebook_step tok entryId entryDate nbCaption nbFile timestamp db1 fs k with
  | (some e, db2, fs2, saved, k2) => (some e, entryId, db2, fs2, saved, k2)
  | (none, db2, fs2, saved, k2) =>
    let r := store_new_photos tok entryId entryDate photoCaptions timestamp photos 0 0
      { db := db2, fs := fs2, saved := saved, k := k2 }
    (r.1, entryId, r.2.2.db, r.2.2.fs, r.2.2.saved, r.2.2.k)

/-- The parsed form of a create request (external routing layer). -/
structure CreateForm where
  entry_date : Option String
  title : String
  body_markdown : String
  notebook_caption : String
  notebook_page : Option FileStorage
  photos : List FileStorage
  photo_caption : List String
deriving DecidableEq

/-- `admin_new` POST (routes.py:312-387): normalize the date — on a
malformed value flash the date error and fall back to today — trim the
texts, run the attempt, and either commit, or roll back and delete every
file saved during the attempt. -/
def admin_new (tok : Nat → String) (today : Date) (timestamp : String)
    (form : CreateForm) (db : DB) (fs : FS) : Outcome :=
  let dateRes := normalized_entry_date today form.entry_date
  let entryDate := match dateRes with | .ok d => d | .error _ => today.iso
  let dateFlash : List String :=
    match dateRes with
    | .ok _ => []
    | .error _ => ["Entry date must be in YYYY-MM-DD format."]
  let r := create_attempt tok entryDate (pyStrip form.title)
    (pyStrip form.body_markdown) (pyStrip form.notebook_caption)
    form.notebook_page form.photos form.photo_caption timestamp db fs 0
  match r with
  | (none, entryId, db1, fs1, saved, _) =>
    { result := .published entryId, db := db1, fs := fs1,
      flashes := dateFlash ++ ["Entry published."], saved_attempt := saved }
  | (some (.valueError m), _, _, fs1, saved, _) =>
    { result := .validationError m, db := db, fs := deleteAll saved fs1,
      flashes := dateFlash ++ [m], saved_attempt := saved }
  | (some .otherError, _, _, fs1, saved, _) =>
    { result := .genericError, db := db, fs := deleteAll saved fs1,
      flashes := dateFlash ++ ["Could not publish entry. Please try again."],
      saved_attempt := saved }

/-- The `elif existing_notebook is not None:` caption-only update
(routes.py:479-483), shared by both no-replacement branches. -/
def edit_nb_fallback (existing_nb : Option AssetRow) (nbCaption : String)
    (db : DB) (fs : FS) (k : Nat) :
    Option PyErr × DB × FS × List String × List String × Nat :=
  match existing_nb with
  | some nb => (none, updateAssetCaption db nb.id nbCaption, fs, [], [], k)
  | none => (none, db, fs, [], [], k)

/-- Notebook handling inside `admin_edit` (routes.py:458-483): a submitted
replacement is saved and either overwrites the existing notebook row
(queueing the old file for post-commit removal) or becomes a fresh row;
without a replacement only the caption of an existing row is updated. -/
def edit_notebook_step (tok : Nat → String) (entryId : Nat)
    (entryDate nbCaption : String) (nbFile : Option FileStorage)
    (existing_nb : Option AssetRow) (timestamp : String)
    (db : DB) (fs : FS) (k : Nat) :
    Option PyErr × DB × FS × List String × List String × Nat :=
  match nbFile with
  | none => edit_nb_fallback existing_nb nbCaption db fs k
  | some f =>
    if f.filename = "" then edit_nb_fallback existing_nb nbCaption db fs k
    else
      match save_uploaded_image tok f entryDate "notebook" fs k with
      | .failed e fs1 k1 => (some e, db, fs1, [], [], k1)
      | .stored path fs1 k1 =>
        match existing_nb with
        | some nb =>
          (none, updateNotebookRow db nb.id path nbCaption timestamp, fs1,
            [path], [nb.file_path], k1)
        | none =>
          (none, insertAssetRow db entryId .notebook_page path nbCaption 0 timestamp,
            fs1, [path], [], k1)

/-- The existing-photo loop of `admin_edit` (routes.py:489-514): walk the
submitted id list; ids absent from the pre-captured `existing_photo_paths`
snapshot are skipped; flagged ids are deleted (file queued for post-commit
removal); the rest get the submitted caption and the next dense sort index. -/
def photo_loop (entryId : Nat) (snap : List AssetRow) (deleteIds captions : List String) :
    List String → Nat → Nat → DB → List String → Nat × DB × List String
  | [], _, si, db, toRemove => (si, db, toRemove)
  | raw :: rest, idx, si, db, toRemove =>
    match snap.find? (fun r => decide (natStr r.id = raw)) with
    | none => photo_loop entryId snap deleteIds captions rest (idx + 1) si db toRemove
    | some r =>
      if raw ∈ deleteIds then
        photo_loop entryId snap deleteIds captions rest (idx + 1) si
          (deletePhotoRow db r.id entryId) (toRemove ++ [r.file_path])
      else
        photo_loop entryId snap deleteIds captions rest (idx + 1) (si + 1)
          (updatePhotoRow db r.id entryId (pyStrip (captions.getD idx "")) si) toRemove

/-- The `try:` body of `admin_edit` (routes.py:448-527): update the entry
row, handle the notebook, renumber the surviving submitted photos, and store
the new photos continuing the sequence. -/
def edit_attempt (tok : Nat → String) (entryId : Nat)
    (entryDate title body nbCaption : String) (nbFile : Option FileStorage)
    (existing_nb : Option AssetRow) (snap : List AssetRow)
    (deleteIds raws exCaptions : List String)
    (newPhotos : List FileStorage) (newCaptions : List String)
    (timestamp : String) (db : DB) (fs : FS) (k : Nat) :
    Option PyErr × DB × FS × List String × List String × Nat :=
  let db1 := updateEntryRow db entryId entryDate title body timestamp
  match edit_notebook_step tok entryId entryDate nbCaption nbFile existing_nb
      timestamp db1 fs k with
  | (some e, db2, fs2, saved, toRemove, k2) => (some e, db2, fs2, saved, toRemove, k2)
  | (none, db2, fs2, saved, toRemove, k2) =>
    let lp := photo_loop entryId snap deleteIds exCaptions raws 0 0 db2 toRemove
    let r := store_new_photos tok entryId entryDate newCaptions timestamp newPhotos 0 lp.1
      { db := lp.2.1, fs := fs2, saved := saved, k := k2 }
    (r.1, r.2.2.db, r.2.2.fs, r.2.2.saved, lp.2.2, r.2.2.k)

/-- The parsed form of an update request (external routing layer). -/
structure EditForm where
  entry_date : Option String
  title : String
  body_markdown : String
  notebook_caption : String
  notebook_page : Option FileStorage
  existing_photo_delete : List String
  existing_photo_id : List String
  existing_photo_caption : List String
  new_photos : List FileStorage
  new_photo_caption : List String
deriving DecidableEq

/-- `admin_edit` POST (routes.py:402-545): 404 on a missing entry; abort on
a malformed date before any write; snapshot the notebook row and the photo
rows; run the attempt; on success commit and apply the queued post-commit
deletions, on failure roll back and delete the files saved this attempt. -/
def admin_edit (tok : Nat → String) (today : Date) (timestamp : String)
    (entryId : Nat) (form : EditForm) (db : DB) (fs : FS) : Outcome :=
  if (db.entries.find? (fun e => decide (e.id = entryId))).isNone then
    { result := .notFound, db := db, fs := fs, flashes := [], saved_attempt := [] }
  else
    match normalized_entry_date today form.entry_date with
    | .error _ =>
      { result := .validationError "Entry date must be in YYYY-MM-DD format.",
        db := db, fs := fs,
        flashes := ["Entry date must be in YYYY-MM-DD format."], saved_attempt := [] }
    | .ok entryDate =>
      let existing_nb := selectNotebook db entryId
      let snap := selectPhotos db entryId
      let r := edit_attempt tok entryId entryDate (pyStrip form.title)
        (pyStrip form.body_markdown) (pyStrip form.notebook_caption)
        form.notebook_page existing_nb snap form.existing_photo_delete
        form.existing_photo_id form.existing_photo_caption
        form.new_photos form.new_photo_caption timestamp db fs 0
      match r with
      | (none, db1, fs1, saved, toRemove, _) =>
        { result := .updated, db := db1, fs := deleteAll toRemove fs1,
          flashes := ["Entry updated."], saved_attempt := saved }
      | (some (.valueError m), _, fs1, saved, _, _) =>
        { result := .validationError m, db := db, fs := deleteAll saved fs1,
          flashes := [m], saved_attempt := saved }
      | (some .otherError, _, fs1, saved, _, _) =>
        { result := .genericError, db := db, fs := deleteAll saved fs1,
          flashes := ["Could not update entry. Please try again."],
          saved_attempt := saved }

/-- `admin_delete` (routes.py:550-570): 404 on a missing entry; collect the
owned asset paths; delete the entry row — the `assets.entry_id` foreign key
cascade, declared in `schema.sql` (not under src/), is modelled from the
spec: deleting an entry removes its asset rows — commit, then delete the
collected files. -/
def admin_delete (entryId : Nat) (db : DB) (fs : FS) : Outcome :=
  if (db.entries.find? (fun e => decide (e.id = entryId))).isNone then
    { result := .notFound, db := db, fs := fs, flashes := [], saved_attempt := [] }
  else
    let paths := (db.assets.filter (fun a => decide (a.entry_id = entryId))).map
      (fun a => a.file_path)
    let db1 : DB :=
      { db with
          entries := db.entries.filter (fun e => decide (¬ e.id = entryId)),
          assets := db.assets.filter (fun a => decide (¬ a.entry_id = entryId)) }
    { result := .deleted, db := db1, fs := deleteAll paths fs,
      flashes := ["Entry deleted."], saved_attempt := [] }

/-! ## Paginated listing -/

/-- Byte-wise text comparison: SQLite orders TEXT under the default BINARY
collation (memcmp on the UTF-8 bytes; identical to code-point order on the
ASCII dates stored here). -/
def charsLtb : List Char → List Char → Bool
  | [], [] => false
  | [], _ :: _ => true
  | _ :: _, [] => false
  | a :: as, b :: bs => if a < b then true else if b < a then false else charsLtb as bs

/-- `s` sorts strictly before `t` under SQLite BINARY collation. -/
def strLt (s t : String) : Prop := charsLtb s.data t.data = true

instance : DecidableRel strLt := fun s t => by unfold strLt; infer_instance

/-- `ORDER BY entry_date DESC, id DESC`. -/
def entryLe (a b : EntryRow) : Prop :=
  strLt b.entry_date a.entry_date ∨ (b.entry_date = a.entry_date ∧ b.id ≤ a.id)

instance : DecidableRel entryLe := fun a b => by unfold entryLe; infer_instance

/-- The entries in feed order. -/
def sortedEntries (db : DB) : List EntryRow := List.insertionSort entryLe db.entries

/-- `_fetch_entries` (routes.py:167-194), the row-level core of
`list_page`: empty on an empty table, else ceiling-divide for the page
count, clamp the requested page, and return the page slice of the feed
order (`LIMIT per_page OFFSET (safe_page - 1) * per_page`). -/
def fetch_entries (db : DB) (page : Int) (perPage : Nat) : List EntryRow × Nat :=
  let total := db.entries.length
  if total = 0 then ([], 0)
  else
    let totalPages := (total + perPage - 1) / perPage
    let safePage : Int := max 1 (min page (totalPages : Int))
    let offset := (safePage - 1).toNat * perPage
    (((sortedEntries db).drop offset).take perPage, totalPages)

/-! ## Predicates used by the claims -/

/-- Did `_save_uploaded_image` raise a `ValueError`? -/
def SaveResult.isValidationFailure : SaveResult → Bool
  | .failed (.valueError _) _ _ => true
  | _ => false

/-- The photo rows of one entry, in table order. -/
def photosOf (db : DB) (eid : Nat) : List AssetRow := db.assets.filter (isPhotoOf eid)

/-- Number of `notebook_page` rows of one entry. -/
def notebookCount (db : DB) (eid : Nat) : Nat :=
  (db.assets.filter (fun a =>
    decide (a.entry_id = eid ∧ a.kind = AssetKind.notebook_page))).length

/-- The data-model invariant: at most one notebook page per entry. -/
def NotebookInvariant (db : DB) : Prop := ∀ eid, notebookCount db eid ≤ 1

/-- Well-formedness of the store: row ids are unique and below the rowid
counters (true of every SQLite table with rowid allocation). -/
def DBWellFormed (db : DB) : Prop :=
  (db.entries.map (fun e => e.id)).Nodup ∧
  (∀ e ∈ db.entries, e.id < db.nextEntryId) ∧
  (db.assets.map (fun a => a.id)).Nodup ∧
  (∀ a ∈ db.assets, a.id < db.nextAssetId) ∧
  (∀ a ∈ db.assets, a.entry_id < db.nextEntryId)

/-- Every field of an asset row except the caption (the caption is the one
field an edit may change on rows it does not otherwise touch). -/
def assetShape (a : AssetRow) : Nat × Nat × AssetKind × String × Nat × String :=
  (a.id, a.entry_id, a.kind, a.file_path, a.sort_index, a.created_at)

/-! ## Decimal rendering round-trip lemmas -/

theorem parseLE_zeros (j : Nat) : parseLE (List.replicate j 0) = 0 := by
  induction j with
  | zero => rfl
  | succ j ih => simp [List.replicate_succ, parseLE, ih]

theorem parseLE_append_zeros (ds : List Nat) (j : Nat) :
    parseLE (ds ++ List.replicate j 0) = parseLE ds := by
  induction ds with
  | nil => simpa [parseLE] using parseLE_zeros j
  | cons d ds ih => simp [parseLE, ih]

theorem charsToNat_padChars (w : Nat) (cs : List Char) :
    charsToNat (padChars w cs) = charsToNat cs := by
  unfold charsToNat padChars
  rw [List.map_append, List.reverse_append]
  have hz : (List.replicate (w - cs.length) '0').map charVal
      = List.replicate (w - cs.length) 0 := by
    simp [List.map_replicate]
    exact Or.inr (by decide)
  rw [hz, List.reverse_replicate]
  exact parseLE_append_zeros _ _

theorem parseLE_natDigitsAux : ∀ fuel n, n ≤ fuel → parseLE (natDigitsAux fuel n) = n := by
  intro fuel
  induction fuel with
  | zero =>
    intro n h
    interval_cases n
    rfl
  | succ fuel ih =>
    intro n h
    match n with
    | 0 => rfl
    | n + 1 =>
      have hdiv : (n + 1) / 10 < n + 1 := Nat.div_lt_self (by omega) (by omega)
      have : parseLE (((n + 1) % 10) :: natDigitsAux fuel ((n + 1) / 10)) = n + 1 := by
        rw [parseLE, ih ((n + 1) / 10) (by omega)]
        exact Nat.mod_add_div (n + 1) 10
      simpa [natDigitsAux] using this

theorem natDigitsAux_lt_ten : ∀ fuel n d, d ∈ natDigitsAux fuel n → d < 10 := by
  intro fuel
  induction fuel with
  | zero =>
    intro n d h
    simp [natDigitsAux] at h
  | succ fuel ih =>
    intro n d h
    match n with
    | 0 => simp [natDigitsAux] at h
    | n + 1 =>
      simp only [natDigitsAux, List.mem_cons] at h
      rcases h with h | h
      · subst h
        exact Nat.mod_lt _ (by omega)
      · exact ih _ _ h

theorem charVal_digitChar (d : Nat) (h : d < 10) : charVal (digitChar d) = d := by
  interval_cases d <;> decide

theorem isDigit_digitChar (d : Nat) (h : d < 10) : (digitChar d).isDigit = true := by
  interval_cases d <;> decide

theorem charsToNat_natChars (n : Nat) : charsToNat (natChars n) = n := by
  unfold natChars
  by_cases h : n = 0
  · subst h
    decide
  · rw [if_neg h]
    unfold charsToNat
    rw [List.map_reverse, List.reverse_reverse, List.map_map]
    have hmap : (natDigitsAux n n).map (charVal ∘ digitChar) = (natDigitsAux n n).map id := by
      refine List.map_congr_left ?_
      intro d hd
      simpa using charVal_digitChar d (natDigitsAux_lt_ten _ _ _ hd)
    rw [hmap, List.map_id]
    exact parseLE_natDigitsAux n n le_rfl

theorem natStr_injective : Function.Injective natStr := by
  intro a b hab
  have : natChars a = natChars b := by
    have := congrArg String.data hab
    simpa [natStr] using this
  calc a = charsToNat (natChars a) := (charsToNat_natChars a).symm
    _ = charsToNat (natChars b) := by rw [this]
    _ = b := charsToNat_natChars b

theorem length_natDigitsAux : ∀ fuel n k, n ≤ fuel → n < 10 ^ k →
    (natDigitsAux fuel n).length ≤ k := by
  intro fuel
  induction fuel with
  | zero =>
    intro n k h hk
    interval_cases n
    simp [natDigitsAux]
  | succ fuel ih =>
    intro n k h hk
    match n with
    | 0 => simp [natDigitsAux]
    | n + 1 =>
      have hkpos : k ≠ 0 := by
        intro hk0
        subst hk0
        rw [pow_zero] at hk
        omega
      obtain ⟨k0, rfl⟩ : ∃ k0, k = k0 + 1 := ⟨k - 1, by omega⟩
      have hdiv : (n + 1) / 10 < n + 1 := Nat.div_lt_self (by omega) (by omega)
      have hdivlt : (n + 1) / 10 < 10 ^ k0 := by
        rw [Nat.div_lt_iff_lt_mul (by omega)]
        calc n + 1 < 10 ^ (k0 + 1) := hk
          _ = 10 ^ k0 * 10 := by rw [pow_succ]
      have := ih ((n + 1) / 10) k0 (by omega) hdivlt
      simp only [natDigitsAux, List.length_cons]
      omega

theorem natChars_length_le (n k : Nat) (hk : 1 ≤ k) (h : n < 10 ^ k) :
    (natChars n).length ≤ k := by
  unfold natChars
  by_cases h0 : n = 0
  · simp [h0]
    omega
  · rw [if_neg h0]
    simpa using length_natDigitsAux n n k le_rfl h

theorem padChars_length (w : Nat) (cs : List Char) (h : cs.length ≤ w) :
    (padChars w cs).length = w := by
  simp [padChars]
  omega

theorem natChars_all_digits (n : Nat) : ∀ c ∈ natChars n, c.isDigit = true := by
  intro c hc
  unfold natChars at hc
  by_cases h0 : n = 0
  · simp [h0] at hc
    simp [hc]
  · rw [if_neg h0] at hc
    simp only [List.mem_reverse, List.mem_map] at hc
    obtain ⟨d, hd, rfl⟩ := hc
    exact isDigit_digitChar d (natDigitsAux_lt_ten _ _ _ hd)

theorem padChars_all_digits (w : Nat) (cs : List Char)
    (h : ∀ c ∈ cs, c.isDigit = true) : ∀ c ∈ padChars w cs, c.isDigit = true := by
  intro c hc
  rcases List.mem_append.mp hc with hc | hc
  · have : c = '0' := List.eq_of_mem_replicate hc
    subst this
    decide
  · exact h c hc

theorem ne_dash_of_isDigit (c : Char) (h : c.isDigit = true) : c ≠ '-' := by
  intro hc
  subst hc
  exact absurd h (by decide)

/-! ## splitDash lemmas -/

theorem splitDash_ne_nil (l : List Char) : splitDash l ≠ [] := by
  induction l with
  | nil => simp [splitDash]
  | cons c rest ih =>
    simp only [splitDash]
    split
    · simp
    · cases h : splitDash rest with
      | nil => simp
      | cons p ps => simp

theorem splitDash_append (a : List Char) (ha : ∀ c ∈ a, c ≠ '-') (l : List Char) :
    splitDash (a ++ l) = (a ++ (splitDash l).headD []) :: (splitDash l).tail := by
  induction a with
  | nil =>
    simp only [List.nil_append]
    cases h : splitDash l with
    | nil => exact absurd h (splitDash_ne_nil l)
    | cons p ps => simp [h]
  | cons c a0 ih =>
    have hc : c ≠ '-' := ha c (by simp)
    have ha0 : ∀ x ∈ a0, x ≠ '-' := fun x hx => ha x (by simp [hx])
    simp only [List.cons_append, splitDash, if_neg hc]
    rw [List.append_eq, ih ha0]

theorem splitDash_cons_dash (l : List Char) : splitDash ('-' :: l) = [] :: splitDash l := by
  simp [splitDash]

theorem splitDash_three (ys ms ds : List Char)
    (hy : ∀ c ∈ ys, c ≠ '-') (hm : ∀ c ∈ ms, c ≠ '-') (hd : ∀ c ∈ ds, c ≠ '-') :
    splitDash (ys ++ '-' :: (ms ++ '-' :: ds)) = [ys, ms, ds] := by
  have h3 : splitDash ds = [ds] := by
    simpa [splitDash] using splitDash_append ds hd []
  have h2 : splitDash (ms ++ '-' :: ds) = [ms, ds] := by
    rw [splitDash_append ms hm, splitDash_cons_dash, h3]
    simp
  rw [splitDash_append ys hy, splitDash_cons_dash, h2]
  simp

/-! ## strptime and isoformat -/

theorem strptimeYmd_valid (s : String) (dt : Date) (h : strptimeYmd s = some dt) :
    ValidDate dt := by
  unfold strptimeYmd at h
  split at h
  · split at h
    · split at h
      · cases h
        assumption
      · cases h
    · cases h
  · cases h

theorem daysInMonth_le (y m : Nat) : daysInMonth y m ≤ 31 := by
  unfold daysInMonth
  split
  · split <;> omega
  · split <;> omega

theorem iso_data (dt : Date) : (Date.iso dt).data =
    padChars 4 (natChars dt.y) ++ '-' ::
      (padChars 2 (natChars dt.m) ++ '-' :: padChars 2 (natChars dt.d)) := by
  show (padChars 4 (natChars dt.y) ++ '-' :: padChars 2 (natChars dt.m))
      ++ '-' :: padChars 2 (natChars dt.d) = _
  rw [List.append_assoc]
  rfl

theorem strptimeYmd_iso (dt : Date) (h : ValidDate dt) : strptimeYmd dt.iso = some dt := by
  obtain ⟨h1, h2, h3, h4, h5, h6⟩ := h
  have hy4 : (natChars dt.y).length ≤ 4 := by
    refine natChars_length_le _ 4 (by omega) ?_
    have : (10 : Nat) ^ 4 = 10000 := by norm_num
    omega
  have hm2 : (natChars dt.m).length ≤ 2 := by
    refine natChars_length_le _ 2 (by omega) ?_
    have : (10 : Nat) ^ 2 = 100 := by norm_num
    omega
  have hd2 : (natChars dt.d).length ≤ 2 := by
    refine natChars_length_le _ 2 (by omega) ?_
    have h31 := daysInMonth_le dt.y dt.m
    have : (10 : Nat) ^ 2 = 100 := by norm_num
    omega
  have hyd := padChars_all_digits 4 _ (natChars_all_digits dt.y)
  have hmd := padChars_all_digits 2 _ (natChars_all_digits dt.m)
  have hdd := padChars_all_digits 2 _ (natChars_all_digits dt.d)
  unfold strptimeYmd
  rw [iso_data, splitDash_three _ _ _
    (fun c hc => ne_dash_of_isDigit c (hyd c hc))
    (fun c hc => ne_dash_of_isDigit c (hmd c hc))
    (fun c hc => ne_dash_of_isDigit c (hdd c hc))]
  have hvy : charsToNat (padChars 4 (natChars dt.y)) = dt.y := by
    rw [charsToNat_padChars, charsToNat_natChars]
  have hvm : charsToNat (padChars 2 (natChars dt.m)) = dt.m := by
    rw [charsToNat_padChars, charsToNat_natChars]
  have hvd : charsToNat (padChars 2 (natChars dt.d)) = dt.d := by
    rw [charsToNat_padChars, charsToNat_natChars]
  have hcond : (padChars 4 (natChars dt.y)).length = 4 ∧
      (padChars 4 (natChars dt.y)).all Char.isDigit = true ∧
      1 ≤ (padChars 2 (natChars dt.m)).length ∧ (padChars 2 (natChars dt.m)).length ≤ 2 ∧
      (padChars 2 (natChars dt.m)).all Char.isDigit = true ∧
      1 ≤ (padChars 2 (natChars dt.d)).length ∧ (padChars 2 (natChars dt.d)).length ≤ 2 ∧
      (padChars 2 (natChars dt.d)).all Char.isDigit = true := by
    refine ⟨padChars_length _ _ hy4, List.all_eq_true.mpr hyd, ?_, ?_, List.all_eq_true.mpr hmd,
      ?_, ?_, List.all_eq_true.mpr hdd⟩ <;> rw [padChars_length] <;> omega
  simp only [hvy, hvm, hvd]
  rw [if_pos hcond]
  rw [if_pos (show ValidDate ⟨dt.y, dt.m, dt.d⟩ from ⟨h1, h2, h3, h4, h5, h6⟩)]

theorem iso_length (dt : Date) (h : ValidDate dt) : (Date.iso dt).length = 10 := by
  obtain ⟨h1, h2, h3, h4, h5, h6⟩ := h
  have hy4 : (natChars dt.y).length ≤ 4 := by
    refine natChars_length_le _ 4 (by omega) ?_
    have : (10 : Nat) ^ 4 = 10000 := by norm_num
    omega
  have hm2 : (natChars dt.m).length ≤ 2 := by
    refine natChars_length_le _ 2 (by omega) ?_
    have : (10 : Nat) ^ 2 = 100 := by norm_num
    omega
  have hd2 : (natChars dt.d).length ≤ 2 := by
    refine natChars_length_le _ 2 (by omega) ?_
    have h31 := daysInMonth_le dt.y dt.m
    have : (10 : Nat) ^ 2 = 100 := by norm_num
    omega
  show (Date.iso dt).data.length = 10
  rw [iso_data]
  simp only [List.length_append, List.length_cons,
    padChars_length 4 _ hy4, padChars_length 2 _ hm2, padChars_length 2 _ hd2]

/-- C10: date normalization is canonicalizing — absent or empty input yields
today's ISO date; any input `strptime` accepts (including non-zero-padded
forms such as "2024-3-5") yields the zero-padded canonical `YYYY-MM-DD`
form, which is a fixed point of parse-then-render and has length 10. -/
theorem normalized_entry_date_canonical (today : Date) (raw : Option String)
    (s : String) (dt : Date) (htoday : ValidDate today) :
    ((raw = none ∨ raw = some "") →
      normalized_entry_date today raw = .ok today.iso ∧
        strptimeYmd today.iso = some today ∧ today.iso.length = 10) ∧
    (raw = some s → strptimeYmd s = some dt →
      normalized_entry_date today raw = .ok dt.iso ∧
        strptimeYmd dt.iso = some dt ∧ dt.iso.length = 10) := by
  constructor
  · rintro (rfl | rfl)
    · exact ⟨rfl, strptimeYmd_iso today htoday, iso_length today htoday⟩
    · exact ⟨rfl, strptimeYmd_iso today htoday, iso_length today htoday⟩
  · rintro rfl hparse
    have hv := strptimeYmd_valid s dt hparse
    have hne : s ≠ "" := by
      intro h0
      rw [h0] at hparse
      rw [show strptimeYmd "" = none from by decide] at hparse
      cases hparse
    refine ⟨?_, strptimeYmd_iso dt hv, iso_length dt hv⟩
    simp [normalized_entry_date, hne, hparse]

/-- Witness for C10 at the non-padded input "2024-3-5". -/
theorem normalized_entry_date_canonical_witness :
    normalized_entry_date ⟨2026, 10, 12⟩ (some "2024-3-5") = .ok "2024-03-05" ∧
      strptimeYmd "2024-03-05" = some ⟨2024, 3, 5⟩ ∧
      normalized_entry_date ⟨2026, 10, 12⟩ none = .ok "2026-10-12" := by
  have h := normalized_entry_date_canonical ⟨2026, 10, 12⟩ (some "2024-3-5")
    "2024-3-5" ⟨2024, 3, 5⟩ (by decide)
  have h2 := (h.2 rfl (by decide)).1
  have hiso : (⟨2024, 3, 5⟩ : Date).iso = "2024-03-05" := by decide
  have h3 := normalized_entry_date_canonical ⟨2026, 10, 12⟩ none
    "x" ⟨2024, 3, 5⟩ (by decide)
  have h4 := (h3.1 (Or.inl rfl)).1
  have hiso2 : (⟨2026, 10, 12⟩ : Date).iso = "2026-10-12" := by decide
  refine ⟨?_, ?_, ?_⟩
  · rw [← hiso]
    exact h2
  · rw [← hiso]
    exact (h.2 rfl (by decide)).2.1
  · rw [← hiso2]
    exact h4

/-! ## Image deletion -/

theorem mem_delete_image (q : String) (fs : FS) (p : String) :
    p ∈ (delete_image q fs).files ↔ p ∈ fs.files ∧ (p = "" ∨ p ≠ q) := by
  unfold delete_image
  by_cases he : q = ""
  · subst he
    simp only [if_pos rfl]
    constructor
    · intro h
      refine ⟨h, ?_⟩
      by_cases hp : p = ""
      · exact Or.inl hp
      · exact Or.inr hp
    · exact fun h => h.1
  · rw [if_neg he]
    by_cases hm : q ∈ fs.files
    · rw [if_pos hm]
      simp only [List.mem_filter, decide_eq_true_eq]
      constructor
      · rintro ⟨h1, h2⟩
        exact ⟨h1, Or.inr h2⟩
      · rintro ⟨h1, h2 | h2⟩
        · refine ⟨h1, ?_⟩
          intro hpq
          rw [h2] at hpq
          exact he hpq.symm
        · exact ⟨h1, h2⟩
    · rw [if_neg hm]
      constructor
      · intro h
        refine ⟨h, ?_⟩
        by_cases hpq : p = q
        · subst hpq
          exact absurd h hm
        · exact Or.inr hpq
      · exact fun h => h.1

theorem deleteAll_cons (q : String) (L : List String) (fs : FS) :
    deleteAll (q :: L) fs = deleteAll L (delete_image q fs) := rfl

theorem mem_deleteAll (L : List String) (fs : FS) (p : String) :
    p ∈ (deleteAll L fs).files ↔ p ∈ fs.files ∧ (p = "" ∨ p ∉ L) := by
  induction L generalizing fs with
  | nil => simp [deleteAll]
  | cons q L ih =>
    rw [deleteAll_cons, ih, mem_delete_image]
    simp only [List.mem_cons]
    constructor
    · rintro ⟨⟨h1, h2⟩, h3⟩
      refine ⟨h1, ?_⟩
      rcases h2 with h2 | h2
      · exact Or.inl h2
      · rcases h3 with h3 | h3
        · exact Or.inl h3
        · exact Or.inr (fun hc => hc.elim (fun hq => h2 hq) h3)
    · rintro ⟨h1, h2 | h2⟩
      · exact ⟨⟨h1, Or.inl h2⟩, Or.inl h2⟩
      · exact ⟨⟨h1, Or.inr (fun hq => h2 (Or.inl hq))⟩,
          Or.inr (fun hl => h2 (Or.inr hl))⟩

theorem dirs_delete_image (q : String) (fs : FS) : (delete_image q fs).dirs = fs.dirs := by
  unfold delete_image
  split
  · rfl
  · split <;> rfl

/-- C8: `_delete_image` is total (it never raises): it is a no-op on an
empty path and on a path with no regular file behind it — in particular it
is idempotent, so calling it on an already-deleted path succeeds — and when
the path names an existing regular file it removes exactly that file and
touches nothing else. -/
theorem delete_image_spec (p : String) (fs : FS) :
    (p = "" → delete_image p fs = fs) ∧
    (p ∉ fs.files → delete_image p fs = fs) ∧
    (p ∈ fs.files → p ≠ "" →
      p ∉ (delete_image p fs).files ∧
      (delete_image p fs).files = fs.files.filter (· ≠ p)) ∧
    delete_image p (delete_image p fs) = delete_image p fs ∧
    (delete_image p fs).dirs = fs.dirs := by
  refine ⟨?_, ?_, ?_, ?_, dirs_delete_image p fs⟩
  · intro h
    simp [delete_image, h]
  · intro h
    unfold delete_image
    split_ifs with h1
    · rfl
    · rfl
  · intro hm hne
    have heq : delete_image p fs = { fs with files := fs.files.filter (· ≠ p) } := by
      unfold delete_image
      rw [if_neg hne, if_pos hm]
    constructor
    · rw [heq]
      simp
    · rw [heq]
  · by_cases he : p = ""
    · simp [delete_image, he]
    · by_cases hm : p ∈ fs.files
      · have heq : delete_image p fs = { fs with files := fs.files.filter (· ≠ p) } := by
          unfold delete_image
          rw [if_neg he, if_pos hm]
        rw [heq]
        have hnm : p ∉ (fs.files.filter (· ≠ p)) := by simp
        unfold delete_image
        rw [if_neg he, if_neg hnm]
      · have heq : delete_image p fs = fs := by
          unfold delete_image
          rw [if_neg he, if_neg hm]
        rw [heq, heq]

/-- Witness for C8: a no-op delete of a missing path and an effective
delete of an existing file, at concrete inputs. -/
theorem delete_image_spec_witness :
    delete_image "a.jpg" ⟨["b.jpg"], ["2024"]⟩ = ⟨["b.jpg"], ["2024"]⟩ ∧
    "x.jpg" ∉ (delete_image "x.jpg" ⟨["x.jpg"], []⟩).files := by
  refine ⟨(delete_image_spec "a.jpg" ⟨["b.jpg"], ["2024"]⟩).2.1 (by decide),
    ((delete_image_spec "x.jpg" ⟨["x.jpg"], []⟩).2.2.1 (by decide) (by decide)).1⟩

/-! ## Image saving -/

theorem addDir_files (fs : FS) (p : String) : (FS.addDir fs p).files = fs.files := by
  unfold FS.addDir
  split <;> rfl

theorem mem_addFile (fs : FS) (q p : String) :
    p ∈ (FS.addFile fs q).files ↔ p ∈ fs.files ∨ p = q := by
  unfold FS.addFile
  split
  · rename_i hq
    constructor
    · intro h
      exact Or.inl h
    · rintro (h | rfl)
      · exact h
      · exact hq
  · simp only [List.mem_cons]
    tauto

theorem natChars_ne_nil (n : Nat) : natChars n ≠ [] := by
  unfold natChars
  by_cases h : n = 0
  · simp [h]
  · rw [if_neg h]
    obtain ⟨m, rfl⟩ : ∃ m, n = m + 1 := ⟨n - 1, by omega⟩
    simp [natDigitsAux]

theorem dateDirChars_ne_nil (dt : Date) : dateDirChars dt ≠ [] := by
  unfold dateDirChars
  intro h
  rcases List.append_eq_nil.mp h with ⟨h1, _⟩
  rcases List.append_eq_nil.mp h1 with ⟨_, h3⟩
  cases h3

theorem savedRelPath_data (tok : Nat → String) (file : FileStorage) (role : String)
    (dt : Date) (k : Nat) :
    (savedRelPath tok file role dt k).data = dateDirChars dt ++ '/' ::
      (role ++ "-" ++ tok k ++ lowerStr (pathSuffix (secure_filename file.filename))).data := rfl

theorem savedRelPath_ne_empty (tok : Nat → String) (file : FileStorage) (role : String)
    (dt : Date) (k : Nat) : (savedRelPath tok file role dt k).data ≠ [] := by
  rw [savedRelPath_data]
  intro h
  rcases List.append_eq_nil.mp h with ⟨_, h2⟩
  cases h2

theorem save_uploaded_image_failed (tok : Nat → String) (file : FileStorage)
    (d role : String) (fs : FS) (k : Nat) (e : PyErr) (fs1 : FS) (k1 : Nat)
    (h : save_uploaded_image tok file d role fs k = .failed e fs1 k1) :
    fs1.files = fs.files := by
  unfold save_uploaded_image at h
  split at h
  · injection h with _ h _
    rw [← h]
  · split at h
    · injection h with _ h _
      rw [← h]
    · split at h
      · injection h with _ h _
        rw [← h]
      · split at h
        · simp at h
        · injection h with _ h _
          rw [← h, addDir_files]

theorem save_uploaded_image_stored (tok : Nat → String) (file : FileStorage)
    (d role : String) (fs : FS) (k : Nat) (path : String) (fs1 : FS) (k1 : Nat)
    (h : save_uploaded_image tok file d role fs k = .stored path fs1 k1) :
    (∀ p, p ∈ fs1.files ↔ p ∈ fs.files ∨ p = path) ∧ path.data ≠ [] ∧ k1 = k + 1 ∧
      ∃ dt, strptimeYmd d = some dt ∧ path = savedRelPath tok file role dt k := by
  unfold save_uploaded_image at h
  split at h
  · simp at h
  · split at h
    · simp at h
    · split at h
      · simp at h
      · rename_i dt hdt
        split at h
        · injection h with hp hf hk
          subst hp
          subst hf
          refine ⟨?_, savedRelPath_ne_empty tok file role dt k, hk.symm, dt, hdt, rfl⟩
          intro p
          rw [mem_addFile, addDir_files]
        · simp at h

/-- C6 (amended): the Image Store save fails with a `ValidationError` iff
the *sanitized* filename — `secure_filename` applied to the supplied name,
which drops non-`[A-Za-z0-9_.-]` characters and strips leading/trailing
dots and underscores, so a name like ".jpg" becomes "jpg" and is rejected
despite its allow-listed extension — is empty or fails the case-insensitive
extension allow-list; on success (with the physical write succeeding) it
returns the relative path `YYYY/MM/DD/<role>-<token><ext>` whose directory
is zero-padded from the given entry date and whose extension is the
lower-cased suffix of the sanitized name. -/
theorem save_uploaded_image_spec (tok : Nat → String) (file : FileStorage)
    (entry_date role : String) (fs : FS) (k : Nat) (dt : Date)
    (hdate : strptimeYmd entry_date = some dt) :
    ((save_uploaded_image tok file entry_date role fs k).isValidationFailure = true ↔
      (secure_filename file.filename = "" ∨
        allowed_image (secure_filename file.filename) = false)) ∧
    (file.saveOk = true → secure_filename file.filename ≠ "" →
      allowed_image (secure_filename file.filename) = true →
      save_uploaded_image tok file entry_date role fs k =
        .stored (savedRelPath tok file role dt k)
          ((fs.addDir (String.mk (dateDirChars dt))).addFile (savedRelPath tok file role dt k))
          (k + 1) ∧
      (savedRelPath tok file role dt k).data = dateDirChars dt ++ '/' ::
        (role ++ "-" ++ tok k ++ lowerStr (pathSuffix (secure_filename file.filename))).data) := by
  constructor
  · by_cases h1 : secure_filename file.filename = ""
    · simp [save_uploaded_image, h1, SaveResult.isValidationFailure]
    · by_cases h2 : allowed_image (secure_filename file.filename)
      · rw [save_uploaded_image, if_neg h1, if_neg (by simp [h2]), hdate]
        cases hsk : file.saveOk <;>
          simp [SaveResult.isValidationFailure, h1, h2]
      · rw [save_uploaded_image, if_neg h1,
          if_pos (by simp [Bool.eq_false_iff.mpr h2])]
        simp [SaveResult.isValidationFailure, h1, Bool.eq_false_iff.mpr h2]
  · intro hsk h1 h2
    rw [save_uploaded_image, if_neg h1, if_neg (by simp [h2]), hdate]
    simp [hsk, savedRelPath_data]

/-- Counterexample to C6 as stated: the supplied filename ".jpg" is
non-empty and its extension "jpg" passes the (case-insensitive) allow-list,
yet the save fails with a `ValidationError`, because sanitization first
strips the leading dot. -/
theorem save_uploaded_image_counterexample :
    (save_uploaded_image (fun _ => "cafe0000") ⟨".jpg", true⟩ "2024-03-05" "photo"
        ⟨[], []⟩ 0).isValidationFailure = true ∧
      ¬((".jpg" : String) = "" ∨ allowed_image ".jpg" = false) := by decide

/-- Witness for C6 at a concrete accepted upload: date "2024-03-05" yields
a path under `2024/03/05/` and the `.JPG` suffix is lower-cased. -/
theorem save_uploaded_image_spec_witness :
    save_uploaded_image (fun _ => "cafe0000") ⟨"Lab Note.JPG", true⟩ "2024-03-05" "photo"
        ⟨[], []⟩ 0
      = .stored "2024/03/05/photo-cafe0000.jpg"
          ⟨["2024/03/05/photo-cafe0000.jpg"], ["2024/03/05"]⟩ 1 := by
  have h := ((save_uploaded_image_spec (fun _ => "cafe0000") ⟨"Lab Note.JPG", true⟩
      "2024-03-05" "photo" ⟨[], []⟩ 0 ⟨2024, 3, 5⟩ (by decide)).2 rfl (by decide) (by decide)).1
  rw [h]
  decide

/-! ## store_new_photos: staged effect -/

theorem store_new_photos_spec (tok : Nat → String) (eid : Nat) (d : String)
    (caps : List String) (ts : String) :
    ∀ (files : List FileStorage) (idx si : Nat) (st : AttemptSt),
      ((store_new_photos tok eid d caps ts files idx si st).2.2.db.entries
          = st.db.entries) ∧
      ((store_new_photos tok eid d caps ts files idx si st).2.2.db.nextEntryId
          = st.db.nextEntryId) ∧
      (∃ newRows : List AssetRow,
        (store_new_photos tok eid d caps ts files idx si st).2.2.db.assets
            = st.db.assets ++ newRows ∧
        (∀ r ∈ newRows, r.entry_id = eid ∧ r.kind = AssetKind.photo) ∧
        newRows.map (fun r => r.sort_index)
            = List.range' si ((store_new_photos tok eid d caps ts files idx si st).2.1 - si) ∧
        si ≤ (store_new_photos tok eid d caps ts files idx si st).2.1 ∧
        ((store_new_photos tok eid d caps ts files idx si st).2.2.saved
            = st.saved ++ newRows.map (fun r => r.file_path)) ∧
        (∀ p, p ∈ (store_new_photos tok eid d caps ts files idx si st).2.2.fs.files ↔
          p ∈ st.fs.files ∨ p ∈ newRows.map (fun r => r.file_path)) ∧
        (∀ r ∈ newRows, r.file_path.data ≠ [])) := by
  intro files
  induction files with
  | nil =>
    intro idx si st
    refine ⟨rfl, rfl, [], by simp [store_new_photos], by simp, ?_, ?_, by simp [store_new_photos], ?_, by simp⟩
    · simp [store_new_photos]
    · simp [store_new_photos]
    · intro p
      simp [store_new_photos]
  | cons f rest ih =>
    intro idx si st
    by_cases hf : f.filename = ""
    · have heq : store_new_photos tok eid d caps ts (f :: rest) idx si st
          = store_new_photos tok eid d caps ts rest (idx + 1) si st := by
        simp [store_new_photos, hf]
      rw [heq]
      exact ih (idx + 1) si st
    · cases hsv : save_uploaded_image tok f d "photo" st.fs st.k with
      | failed e fs1 k1 =>
        have heq : store_new_photos tok eid d caps ts (f :: rest) idx si st
            = (some e, si, { st with fs := fs1, k := k1 }) := by
          simp [store_new_photos, hf, hsv]
        rw [heq]
        have hff := save_uploaded_image_failed tok f d "photo" st.fs st.k e fs1 k1 hsv
        refine ⟨rfl, rfl, [], by simp, by simp, by simp, le_rfl, by simp, ?_, by simp⟩
        intro p
        simp [hff]
      | stored path fs1 k1 =>
        have heq : store_new_photos tok eid d caps ts (f :: rest) idx si st
            = store_new_photos tok eid d caps ts rest (idx + 1) (si + 1)
              ⟨insertAssetRow st.db eid .photo path (pyStrip (caps.getD idx "")) si ts,
                fs1, st.saved ++ [path], k1⟩ := by
          simp [store_new_photos, hf, hsv]
        rw [heq]
        obtain ⟨ih1, ih2, newRows, iha, ihk, ihs, ihle, ihsv, ihfs, ihne⟩ :=
          ih (idx + 1) (si + 1)
            ⟨insertAssetRow st.db eid .photo path (pyStrip (caps.getD idx "")) si ts,
              fs1, st.saved ++ [path], k1⟩
        obtain ⟨hstf, hstne, hstk, _⟩ :=
          save_uploaded_image_stored tok f d "photo" st.fs st.k path fs1 k1 hsv
        refine ⟨by rw [ih1]; rfl, by rw [ih2]; rfl,
          ⟨st.db.nextAssetId, eid, .photo, path, pyStrip (caps.getD idx ""), si, ts⟩ :: newRows,
          ?_, ?_, ?_, by omega, ?_, ?_, ?_⟩
        · rw [iha]
          simp [insertAssetRow]
        · intro r hr
          rcases List.mem_cons.mp hr with rfl | hr
          · exact ⟨rfl, rfl⟩
          · exact ihk r hr
        · simp only [List.map_cons, ihs]
          have harith : (store_new_photos tok eid d caps ts rest (idx + 1) (si + 1)
              ⟨insertAssetRow st.db eid .photo path (pyStrip (caps.getD idx "")) si ts,
                fs1, st.saved ++ [path], k1⟩).2.1 - si
              = ((store_new_photos tok eid d caps ts rest (idx + 1) (si + 1)
                  ⟨insertAssetRow st.db eid .photo path (pyStrip (caps.getD idx "")) si ts,
                    fs1, st.saved ++ [path], k1⟩).2.1 - (si + 1)) + 1 := by omega
        
          rw [harith, List.range'_succ]
        · rw [ihsv]
          simp
        · intro p
          rw [ihfs]
          simp only [List.map_cons, List.mem_cons]
          constructor
          · rintro (hp | hp)
            · rcases (hstf p).mp hp with hp | hp
              · exact Or.inl hp
              · exact Or.inr (Or.inl hp)
            · exact Or.inr (Or.inr hp)
          · rintro (hp | hp | hp)
            · exact Or.inl ((hstf p).mpr (Or.inl hp))
            · exact Or.inl ((hstf p).mpr (Or.inr hp))
            · exact Or.inr hp
        · intro r hr
          rcases List.mem_cons.mp hr with rfl | hr
          · exact hstne
          · exact ihne r hr

/-! ## Notebook step and create attempt: staged effect -/

theorem create_notebook_step_spec (tok : Nat → String) (eid : Nat)
    (d nbCap : String) (nbFile : Option FileStorage) (ts : String)
    (db : DB) (fs : FS) (k : Nat) :
    ((create_notebook_step tok eid d nbCap nbFile ts db fs k).2.1.entries = db.entries) ∧
    ((create_notebook_step tok eid d nbCap nbFile ts db fs k).2.1.nextEntryId
        = db.nextEntryId) ∧
    (∃ nbRows : List AssetRow,
      (create_notebook_step tok eid d nbCap nbFile ts db fs k).2.1.assets
          = db.assets ++ nbRows ∧
      (∀ r ∈ nbRows, r.entry_id = eid ∧ r.kind = AssetKind.notebook_page ∧
        r.sort_index = 0) ∧
      nbRows.length ≤ 1 ∧
      (create_notebook_step tok eid d nbCap nbFile ts db fs k).2.2.2.1
          = nbRows.map (fun r => r.file_path)) ∧
    (∀ p, p ∈ (create_notebook_step tok eid d nbCap nbFile ts db fs k).2.2.1.files ↔
      p ∈ fs.files ∨
        p ∈ (create_notebook_step tok eid d nbCap nbFile ts db fs k).2.2.2.1) ∧
    (∀ p ∈ (create_notebook_step tok eid d nbCap nbFile ts db fs k).2.2.2.1,
      p.data ≠ []) := by
  match nbFile with
  | none =>
    refine ⟨rfl, rfl, ⟨[], by simp [create_notebook_step], by simp, by simp,
      by simp [create_notebook_step]⟩, ?_, by simp [create_notebook_step]⟩
    intro p
    simp [create_notebook_step]
  | some f =>
    by_cases hf : f.filename = ""
    · have heq : create_notebook_step tok eid d nbCap (some f) ts db fs k
          = (none, db, fs, [], k) := by
        simp [create_notebook_step, hf]
      rw [heq]
      refine ⟨rfl, rfl, ⟨[], by simp, by simp, by simp, rfl⟩, ?_, by simp⟩
      intro p
      simp
    · cases hsv : save_uploaded_image tok f d "notebook" fs k with
      | failed e fs1 k1 =>
        have heq : create_notebook_step tok eid d nbCap (some f) ts db fs k
            = (some e, db, fs1, [], k1) := by
          simp [create_notebook_step, hf, hsv]
        rw [heq]
        have hff := save_uploaded_image_failed tok f d "notebook" fs k e fs1 k1 hsv
        refine ⟨rfl, rfl, ⟨[], by simp, by simp, by simp, rfl⟩, ?_, by simp⟩
        intro p
        simp [hff]
      | stored path fs1 k1 =>
        have heq : create_notebook_step tok eid d nbCap (some f) ts db fs k
            = (none, insertAssetRow db eid .notebook_page path nbCap 0 ts, fs1, [path], k1) := by
          simp [create_notebook_step, hf, hsv]
        rw [heq]
        obtain ⟨hstf, hstne, _, _⟩ :=
          save_uploaded_image_stored tok f d "notebook" fs k path fs1 k1 hsv
        refine ⟨rfl, rfl,
          ⟨[⟨db.nextAssetId, eid, .notebook_page, path, nbCap, 0, ts⟩], ?_, ?_, by simp, ?_⟩,
          ?_, ?_⟩
        · simp [insertAssetRow]
        · intro r hr
          rcases List.mem_cons.mp hr with rfl | hr
          · exact ⟨rfl, rfl, rfl⟩
          · cases hr
        · rfl
        · intro p
          rw [hstf]
          simp
        · intro p hp
          rcases List.mem_cons.mp hp with rfl | hp
          · exact hstne
          · cases hp

theorem create_attempt_spec (tok : Nat → String)
    (ED T B NC : String) (nbFile : Option FileStorage)
    (photos : List FileStorage) (caps : List String) (ts : String)
    (db : DB) (fs : FS) (k : Nat) :
    ((create_attempt tok ED T B NC nbFile photos caps ts db fs k).2.1 = db.nextEntryId) ∧
    ((create_attempt tok ED T B NC nbFile photos caps ts db fs k).2.2.1.entries
        = db.entries ++
          [⟨db.nextEntryId, ED, T, B, ts, ts⟩]) ∧
    (∃ nbRows photoRows : List AssetRow,
      (create_attempt tok ED T B NC nbFile photos caps ts db fs k).2.2.1.assets
          = db.assets ++ nbRows ++ photoRows ∧
      (∀ r ∈ nbRows, r.entry_id = db.nextEntryId ∧ r.kind = AssetKind.notebook_page ∧
        r.sort_index = 0) ∧
      nbRows.length ≤ 1 ∧
      (∀ r ∈ photoRows, r.entry_id = db.nextEntryId ∧ r.kind = AssetKind.photo) ∧
      photoRows.map (fun r => r.sort_index) = List.range photoRows.length) ∧
    (∀ p, p ∈ (create_attempt tok ED T B NC nbFile photos caps ts db fs k).2.2.2.1.files ↔
      p ∈ fs.files ∨
        p ∈ (create_attempt tok ED T B NC nbFile photos caps ts db fs k).2.2.2.2.1) ∧
    (∀ p ∈ (create_attempt tok ED T B NC nbFile photos caps ts db fs k).2.2.2.2.1,
      p.data ≠ []) := by
  have hins : insertEntryRow db ED T B ts =
      ({ db with
          entries := db.entries ++ [⟨db.nextEntryId, ED, T, B, ts, ts⟩],
          nextEntryId := db.nextEntryId + 1 }, db.nextEntryId) := rfl
  rcases hcns : create_notebook_step tok db.nextEntryId ED NC nbFile ts
      { db with
        entries := db.entries ++ [⟨db.nextEntryId, ED, T, B, ts, ts⟩],
        nextEntryId := db.nextEntryId + 1 } fs k with ⟨err2, db2, fs2, saved2, k2⟩
  obtain ⟨hcn1, hcn2, ⟨nbRows, hcnA, hcnK, hcnL, hcnS⟩, hcnF, hcnNE⟩ :=
    create_notebook_step_spec tok db.nextEntryId ED NC nbFile ts
      { db with
        entries := db.entries ++ [⟨db.nextEntryId, ED, T, B, ts, ts⟩],
        nextEntryId := db.nextEntryId + 1 } fs k
  rw [hcns] at hcn1 hcn2 hcnA hcnS hcnF hcnNE
  simp only at hcn1 hcn2 hcnA hcnS hcnF hcnNE
  cases err2 with
  | some e =>
    have hmain : create_attempt tok ED T B NC nbFile photos caps ts db fs k
        = (some e, db.nextEntryId, db2, fs2, saved2, k2) := by
      unfold create_attempt
      rw [hins]
      simp only [hcns]
    rw [hmain]
    refine ⟨rfl, by rw [hcn1], ⟨nbRows, [], ?_, ?_, hcnL, by simp, by simp⟩, ?_, ?_⟩
    · rw [hcnA]
      simp
    · intro r hr
      exact hcnK r hr
    · intro p
      rw [hcnF p, hcnS]
    · intro p hp
      exact hcnNE p hp
  | none =>
    have hmain : create_attempt tok ED T B NC nbFile photos caps ts db fs k
        = ((store_new_photos tok db.nextEntryId ED caps ts photos 0 0
              ⟨db2, fs2, saved2, k2⟩).1,
           db.nextEntryId,
           (store_new_photos tok db.nextEntryId ED caps ts photos 0 0
              ⟨db2, fs2, saved2, k2⟩).2.2.db,
           (store_new_photos tok db.nextEntryId ED caps ts photos 0 0
              ⟨db2, fs2, saved2, k2⟩).2.2.fs,
           (store_new_photos tok db.nextEntryId ED caps ts photos 0 0
              ⟨db2, fs2, saved2, k2⟩).2.2.saved,
           (store_new_photos tok db.nextEntryId ED caps ts photos 0 0
              ⟨db2, fs2, saved2, k2⟩).2.2.k) := by
      unfold create_attempt
      rw [hins]
      simp only [hcns]
    rw [hmain]
    obtain ⟨hs1, hs2, photoRows, hsA, hsK, hsSort, hsLe, hsSaved, hsFs, hsNE⟩ :=
      store_new_photos_spec tok db.nextEntryId ED caps ts photos 0 0 ⟨db2, fs2, saved2, k2⟩
    have hlen : photoRows.length
        = (store_new_photos tok db.nextEntryId ED caps ts photos 0 0
            ⟨db2, fs2, saved2, k2⟩).2.1 := by
      have := congrArg List.length hsSort
      simpa using this
    refine ⟨rfl, by rw [hs1]; exact hcn1, ⟨nbRows, photoRows, ?_, ?_, hcnL, hsK, ?_⟩, ?_, ?_⟩
    · rw [hsA]
      rw [hcnA, List.append_assoc]
    · intro r hr
      exact hcnK r hr
    · rw [hsSort, ← hlen]
      simp [List.range_eq_range']
    · intro p
      dsimp only
      rw [hsFs p, hsSaved]
      dsimp only
      rw [hcnF p, hcnS]
      simp only [List.mem_append]
      tauto
    · intro p hp
      dsimp only at hp
      rw [hsSaved] at hp
      dsimp only at hp
      rcases List.mem_append.mp hp with hp | hp
      · exact hcnNE p hp
      · rcases List.mem_map.mp hp with ⟨r, hr, rfl⟩
        exact hsNE r hr

/-! ## Create workflow: C2 and C1 -/

/-- C2: whenever the create workflow reports a caught error (a validation
failure such as an unsupported photo extension, or an unexpected error),
the committed database is exactly the pre-request one — no Entry row and no
Asset row from the attempt exists — every file saved during the attempt has
been deleted again, and no file beyond the pre-request ones remains. -/
theorem admin_new_failure_rollback (tok : Nat → String) (today : Date) (ts : String)
    (form : CreateForm) (db : DB) (fs : FS)
    (h : (admin_new tok today ts form db fs).result.isErr = true) :
    (admin_new tok today ts form db fs).db = db ∧
    (∀ p ∈ (admin_new tok today ts form db fs).saved_attempt,
      p ∉ (admin_new tok today ts form db fs).fs.files) ∧
    (∀ p, p ∈ (admin_new tok today ts form db fs).fs.files → p ∈ fs.files) := by
  have core : ∀ ED : String, ∀ err : Option PyErr, ∀ eid : Nat, ∀ db1 : DB, ∀ fs1 : FS,
      ∀ saved : List String, ∀ k1 : Nat,
      create_attempt tok ED (pyStrip form.title) (pyStrip form.body_markdown)
        (pyStrip form.notebook_caption) form.notebook_page form.photos
        form.photo_caption ts db fs 0 = (err, eid, db1, fs1, saved, k1) →
      (∀ p ∈ saved, p ∉ (deleteAll saved fs1).files) ∧
      (∀ p, p ∈ (deleteAll saved fs1).files → p ∈ fs.files) := by
    intro ED err eid db1 fs1 saved k1 hca
    obtain ⟨_, _, _, hFs, hNE⟩ := create_attempt_spec tok ED (pyStrip form.title)
      (pyStrip form.body_markdown) (pyStrip form.notebook_caption) form.notebook_page
      form.photos form.photo_caption ts db fs 0
    rw [hca] at hFs hNE
    dsimp only at hFs hNE
    constructor
    · intro p hp hmem
      rw [mem_deleteAll] at hmem
      rcases hmem with ⟨_, h0 | hnotin⟩
      · subst h0
        exact hNE _ hp rfl
      · exact hnotin hp
    · intro p hpmem
      rw [mem_deleteAll] at hpmem
      obtain ⟨hp1, hp2⟩ := hpmem
      rcases (hFs p).mp hp1 with hp | hp
      · exact hp
      · rcases hp2 with h0 | hnotin
        · subst h0
          exact absurd rfl (hNE _ hp)
        · exact absurd hp hnotin
  rcases hnd : normalized_entry_date today form.entry_date with u | ed
  · rcases her : create_attempt tok today.iso (pyStrip form.title)
        (pyStrip form.body_markdown) (pyStrip form.notebook_caption) form.notebook_page
        form.photos form.photo_caption ts db fs 0 with ⟨err, eid, db1, fs1, saved, k1⟩
    cases err with
    | none =>
      have hres : (admin_new tok today ts form db fs).result = .published eid := by
        simp [admin_new, hnd, her]
      rw [hres] at h
      simp [RouteResult.isErr] at h
    | some pe =>
      have hdb : (admin_new tok today ts form db fs).db = db := by
        cases pe <;> simp [admin_new, hnd, her]
      have hfs : (admin_new tok today ts form db fs).fs = deleteAll saved fs1 := by
        cases pe <;> simp [admin_new, hnd, her]
      have hsv : (admin_new tok today ts form db fs).saved_attempt = saved := by
        cases pe <;> simp [admin_new, hnd, her]
      rw [hdb, hfs, hsv]
      exact ⟨rfl, (core _ _ _ _ _ _ _ her).1, (core _ _ _ _ _ _ _ her).2⟩
  · rcases her : create_attempt tok ed (pyStrip form.title)
        (pyStrip form.body_markdown) (pyStrip form.notebook_caption) form.notebook_page
        form.photos form.photo_caption ts db fs 0 with ⟨err, eid, db1, fs1, saved, k1⟩
    cases err with
    | none =>
      have hres : (admin_new tok today ts form db fs).result = .published eid := by
        simp [admin_new, hnd, her]
      rw [hres] at h
      simp [RouteResult.isErr] at h
    | some pe =>
      have hdb : (admin_new tok today ts form db fs).db = db := by
        cases pe <;> simp [admin_new, hnd, her]
      have hfs : (admin_new tok today ts form db fs).fs = deleteAll saved fs1 := by
        cases pe <;> simp [admin_new, hnd, her]
      have hsv : (admin_new tok today ts form db fs).saved_attempt = saved := by
        cases pe <;> simp [admin_new, hnd, her]
      rw [hdb, hfs, hsv]
      exact ⟨rfl, (core _ _ _ _ _ _ _ her).1, (core _ _ _ _ _ _ _ her).2⟩

/-- Witness for C2, at the spec's own example: one valid photo and one
photo with an unsupported extension; the committed database afterwards is
exactly the pre-request (empty) one. -/
theorem admin_new_failure_rollback_witness :
    (admin_new (fun n => natStr n) ⟨2026, 10, 12⟩ "T0"
        { entry_date := some "2024-03-05", title := "T", body_markdown := "B",
          notebook_caption := "", notebook_page := none,
          photos := [⟨"ok.jpg", true⟩, ⟨"bad.txt", true⟩],
          photo_caption := ["a", "b"] }
        ⟨[], [], 1, 1⟩ ⟨[], []⟩).db = ⟨[], [], 1, 1⟩ := by
  exact (admin_new_failure_rollback (fun n => natStr n) ⟨2026, 10, 12⟩ "T0"
    { entry_date := some "2024-03-05", title := "T", body_markdown := "B",
      notebook_caption := "", notebook_page := none,
      photos := [⟨"ok.jpg", true⟩, ⟨"bad.txt", true⟩],
      photo_caption := ["a", "b"] }
    ⟨[], [], 1, 1⟩ ⟨[], []⟩ (by decide)).1

/-- Counterexample to C1 as stated: a create request with the malformed
date "2024-13-01" does not fail — it publishes the entry (inserting one
Entry row, dated with the server's today) and reports no error result. -/
theorem admin_new_malformed_date_counterexample :
    (admin_new (fun n => natStr n) ⟨2026, 10, 12⟩ "T0"
        { entry_date := some "2024-13-01", title := "T", body_markdown := "B",
          notebook_caption := "", notebook_page := none, photos := [],
          photo_caption := [] }
        ⟨[], [], 1, 1⟩ ⟨[], []⟩).result = .published 1 ∧
    (admin_new (fun n => natStr n) ⟨2026, 10, 12⟩ "T0"
        { entry_date := some "2024-13-01", title := "T", body_markdown := "B",
          notebook_caption := "", notebook_page := none, photos := [],
          photo_caption := [] }
        ⟨[], [], 1, 1⟩ ⟨[], []⟩).db.entries.length = 1 ∧
    (admin_new (fun n => natStr n) ⟨2026, 10, 12⟩ "T0"
        { entry_date := some "2024-13-01", title := "T", body_markdown := "B",
          notebook_caption := "", notebook_page := none, photos := [],
          photo_caption := [] }
        ⟨[], [], 1, 1⟩ ⟨[], []⟩).result.isErr = false := by decide

/-- C1 (amended): on a create request whose submitted entry date is present
but not a valid `YYYY-MM-DD` date, the workflow does *not* abort: it
flashes the date-format error message, substitutes today's date, and
proceeds — so if the request then publishes, the inserted Entry row carries
today's ISO date rather than the submitted value. -/
theorem admin_new_malformed_date (tok : Nat → String) (today : Date) (ts : String)
    (form : CreateForm) (db : DB) (fs : FS) (s : String)
    (hs : form.entry_date = some s) (hne : s ≠ "") (hbad : strptimeYmd s = none) :
    "Entry date must be in YYYY-MM-DD format." ∈
      (admin_new tok today ts form db fs).flashes ∧
    (∀ i, (admin_new tok today ts form db fs).result = .published i →
      ∃ e ∈ (admin_new tok today ts form db fs).db.entries,
        e.id = i ∧ e.entry_date = today.iso) := by
  have hnd : normalized_entry_date today form.entry_date = .error () := by
    simp [normalized_entry_date, hs, hne, hbad]
  rcases her : create_attempt tok today.iso (pyStrip form.title)
      (pyStrip form.body_markdown) (pyStrip form.notebook_caption) form.notebook_page
      form.photos form.photo_caption ts db fs 0 with ⟨err, eid, db1, fs1, saved, k1⟩
  obtain ⟨hid, hentries, _, _, _⟩ := create_attempt_spec tok today.iso
    (pyStrip form.title) (pyStrip form.body_markdown) (pyStrip form.notebook_caption)
    form.notebook_page form.photos form.photo_caption ts db fs 0
  rw [her] at hid hentries
  dsimp only at hid hentries
  cases err with
  | none =>
    constructor
    · have hfl : (admin_new tok today ts form db fs).flashes
          = ["Entry date must be in YYYY-MM-DD format."] ++ ["Entry published."] := by
        simp [admin_new, hnd, her]
      rw [hfl]
      simp
    · intro i hres
      have hres2 : (admin_new tok today ts form db fs).result = .published eid := by
        simp [admin_new, hnd, her]
      rw [hres2] at hres
      injection hres with hieq
      have hdbout : (admin_new tok today ts form db fs).db = db1 := by
        simp [admin_new, hnd, her]
      rw [hdbout, hentries]
      refine ⟨⟨db.nextEntryId, today.iso, pyStrip form.title,
        pyStrip form.body_markdown, ts, ts⟩, ?_, ?_, rfl⟩
      · simp
      · rw [← hieq, hid]
  | some pe =>
    constructor
    · cases pe with
      | valueError m =>
        have hfl : (admin_new tok today ts form db fs).flashes
            = ["Entry date must be in YYYY-MM-DD format."] ++ [m] := by
          simp [admin_new, hnd, her]
        rw [hfl]
        simp
      | otherError =>
        have hfl : (admin_new tok today ts form db fs).flashes
            = ["Entry date must be in YYYY-MM-DD format."]
              ++ ["Could not publish entry. Please try again."] := by
          simp [admin_new, hnd, her]
        rw [hfl]
        simp
    · intro i hres
      have : (admin_new tok today ts form db fs).result.isErr = true := by
        cases pe <;> simp [admin_new, hnd, her, RouteResult.isErr]
      rw [hres] at this
      simp [RouteResult.isErr] at this

/-- Witness for C1 at the malformed input "2024-13-01". -/
theorem admin_new_malformed_date_witness :
    "Entry date must be in YYYY-MM-DD format." ∈
      (admin_new (fun n => natStr n) ⟨2026, 10, 12⟩ "T0"
        { entry_date := some "2024-13-01", title := "T", body_markdown := "B",
          notebook_caption := "", notebook_page := none, photos := [],
          photo_caption := [] }
        ⟨[], [], 1, 1⟩ ⟨[], []⟩).flashes := by
  exact (admin_new_malformed_date (fun n => natStr n) ⟨2026, 10, 12⟩ "T0"
    { entry_date := some "2024-13-01", title := "T", body_markdown := "B",
      notebook_caption := "", notebook_page := none, photos := [],
      photo_caption := [] }
    ⟨[], [], 1, 1⟩ ⟨[], []⟩ "2024-13-01" rfl (by decide) (by decide)).1

/-! ## Pagination: C7 -/

theorem charsLtb_trans : ∀ as bs cs, charsLtb as bs = true → charsLtb bs cs = true →
    charsLtb as cs = true := by
  intro as
  induction as with
  | nil =>
    intro bs cs h1 h2
    cases bs with
    | nil => exact h2
    | cons b bs =>
      cases cs with
      | nil => simp [charsLtb] at h2
      | cons c cs => simp [charsLtb]
  | cons a as ih =>
    intro bs cs h1 h2
    cases bs with
    | nil => simp [charsLtb] at h1
    | cons b bs =>
      cases cs with
      | nil => simp [charsLtb] at h2
      | cons c cs =>
        simp only [charsLtb] at h1 h2 ⊢
        by_cases hab : a < b
        · simp only [if_pos hab] at h1
          by_cases hbc : b < c
          · simp [lt_trans hab hbc]
          · simp only [if_neg hbc] at h2
            by_cases hcb : c < b
            · simp [if_pos hcb] at h2
            · have hbceq : b = c := le_antisymm (not_lt.mp hcb) (not_lt.mp hbc)
              simp [hbceq ▸ hab]
        · simp only [if_neg hab] at h1
          by_cases hba : b < a
          · simp [if_pos hba] at h1
          · simp only [if_neg hba] at h1
            have habeq : a = b := le_antisymm (not_lt.mp hba) (not_lt.mp hab)
            by_cases hbc : b < c
            · simp [habeq ▸ hbc]
            · simp only [if_neg hbc] at h2
              by_cases hcb : c < b
              · simp [if_pos hcb] at h2
              · simp only [if_neg hcb] at h2
                have hac : ¬ a < c := by
                  rw [habeq]
                  exact hbc
                have hca : ¬ c < a := by
                  rw [habeq]
                  exact hcb
                simp only [if_neg hac, if_neg hca]
                exact ih bs cs h1 h2

theorem charsLtb_eq_of_not : ∀ as bs, charsLtb as bs = false → charsLtb bs as = false →
    as = bs := by
  intro as
  induction as with
  | nil =>
    intro bs h1 h2
    cases bs with
    | nil => rfl
    | cons b bs => simp [charsLtb] at h1
  | cons a as ih =>
    intro bs h1 h2
    cases bs with
    | nil => simp [charsLtb] at h2
    | cons b bs =>
      simp only [charsLtb] at h1 h2
      by_cases hab : a < b
      · simp [if_pos hab] at h1
      · by_cases hba : b < a
        · simp [if_pos hba] at h2
        · have habeq : a = b := le_antisymm (not_lt.mp hba) (not_lt.mp hab)
          simp only [if_neg hab, if_neg hba] at h1
          simp only [if_neg hba, if_neg hab] at h2
          rw [habeq, ih bs h1 h2]

theorem string_eq_of_data (s t : String) (h : s.data = t.data) : s = t :=
  congrArg String.mk h

instance : IsTrans EntryRow entryLe where
  trans a b c hab hbc := by
    rcases hab with h1 | ⟨h1, h2⟩ <;> rcases hbc with h3 | ⟨h3, h4⟩
    · exact Or.inl (charsLtb_trans _ _ _ h3 h1)
    · exact Or.inl (by rw [h3]; exact h1)
    · exact Or.inl (by rw [← h1]; exact h3)
    · exact Or.inr ⟨h3.trans h1, le_trans h4 h2⟩

instance : IsTotal EntryRow entryLe where
  total a b := by
    by_cases h1 : strLt b.entry_date a.entry_date
    · exact Or.inl (Or.inl h1)
    · by_cases h2 : strLt a.entry_date b.entry_date
      · exact Or.inr (Or.inl h2)
      · have hf1 : charsLtb b.entry_date.data a.entry_date.data = false :=
          Bool.eq_false_iff.mpr h1
        have hf2 : charsLtb a.entry_date.data b.entry_date.data = false :=
          Bool.eq_false_iff.mpr h2
        have heq : b.entry_date = a.entry_date :=
          string_eq_of_data _ _ (charsLtb_eq_of_not _ _ hf1 hf2)
        rcases le_total a.id b.id with h3 | h3
        · exact Or.inr (Or.inr ⟨heq.symm, h3⟩)
        · exact Or.inl (Or.inr ⟨heq, h3⟩)

instance : IsTrans AssetRow photoLe where
  trans a b c hab hbc := by
    rcases hab with h1 | ⟨h1, h2⟩ <;> rcases hbc with h3 | ⟨h3, h4⟩
    · exact Or.inl (lt_trans h1 h3)
    · exact Or.inl (by rw [← h3]; exact h1)
    · exact Or.inl (by rw [h1]; exact h3)
    · exact Or.inr ⟨h1.trans h3, le_trans h2 h4⟩

instance : IsTotal AssetRow photoLe where
  total a b := by
    rcases lt_trichotomy a.sort_index b.sort_index with h | h | h
    · exact Or.inl (Or.inl h)
    · rcases le_total a.id b.id with h2 | h2
      · exact Or.inl (Or.inr ⟨h, h2⟩)
      · exact Or.inr (Or.inr ⟨h.symm, h2⟩)
    · exact Or.inr (Or.inl h)

/-- C7: `list_page` with a positive page size returns nothing on an empty
table; otherwise the page count is the ceiling of `total / per_page` (the
two inequalities pin the ceiling), the requested page is clamped into
`[1, total_pages]` (and left alone when already in range), and the returned
rows are the clamped page's contiguous slice of the entries sorted by
entry_date descending then id descending, with the expected length. -/
theorem fetch_entries_spec (db : DB) (page : Int) (perPage : Nat) (hpp : 0 < perPage) :
    (db.entries.length = 0 → fetch_entries db page perPage = ([], 0)) ∧
    (0 < db.entries.length →
      (fetch_entries db page perPage).2 = (db.entries.length + perPage - 1) / perPage ∧
      db.entries.length ≤ perPage * (fetch_entries db page perPage).2 ∧
      perPage * ((fetch_entries db page perPage).2 - 1) < db.entries.length ∧
      1 ≤ max 1 (min page ((fetch_entries db page perPage).2 : Int)) ∧
      max 1 (min page ((fetch_entries db page perPage).2 : Int))
          ≤ ((fetch_entries db page perPage).2 : Int) ∧
      (1 ≤ page → page ≤ ((fetch_entries db page perPage).2 : Int) →
        max 1 (min page ((fetch_entries db page perPage).2 : Int)) = page) ∧
      (fetch_entries db page perPage).1
          = ((sortedEntries db).drop
              ((max 1 (min page ((fetch_entries db page perPage).2 : Int)) - 1).toNat
                * perPage)).take perPage ∧
      List.Sorted entryLe (fetch_entries db page perPage).1 ∧
      (sortedEntries db).Perm db.entries ∧
      List.Sorted entryLe (sortedEntries db) ∧
      (fetch_entries db page perPage).1.length
          = min perPage (db.entries.length
              - (max 1 (min page ((fetch_entries db page perPage).2 : Int)) - 1).toNat
                * perPage)) := by
  constructor
  · intro h0
    simp [fetch_entries, h0]
  · intro hpos
    have h0 : db.entries.length ≠ 0 := by omega
    have heq : fetch_entries db page perPage
        = (((sortedEntries db).drop
              ((max 1 (min page (((db.entries.length + perPage - 1) / perPage : Nat) : Int))
                - 1).toNat * perPage)).take perPage,
           (db.entries.length + perPage - 1) / perPage) := by
      simp [fetch_entries, h0]
    have hceil1 : db.entries.length ≤ perPage * ((db.entries.length + perPage - 1) / perPage) := by
      have hdm := Nat.div_add_mod (db.entries.length + perPage - 1) perPage
      have hlt := Nat.mod_lt (db.entries.length + perPage - 1) hpp
      omega
    have hq1 : 1 ≤ (db.entries.length + perPage - 1) / perPage :=
      (Nat.one_le_div_iff hpp).mpr (by omega)
    have hceil2 : perPage * ((db.entries.length + perPage - 1) / perPage - 1)
        < db.entries.length := by
      have hdm := Nat.div_add_mod (db.entries.length + perPage - 1) perPage
      have hlt := Nat.mod_lt (db.entries.length + perPage - 1) hpp
      obtain ⟨q0, hq0⟩ : ∃ q0, (db.entries.length + perPage - 1) / perPage = q0 + 1 :=
        ⟨(db.entries.length + perPage - 1) / perPage - 1, by omega⟩
      rw [hq0] at hdm ⊢
      simp only [Nat.add_sub_cancel]
      have : perPage * (q0 + 1) = perPage * q0 + perPage := by ring
      omega
    have hsorted : List.Sorted entryLe (sortedEntries db) :=
      List.sorted_insertionSort entryLe db.entries
    have hperm : (sortedEntries db).Perm db.entries :=
      List.perm_insertionSort entryLe db.entries
    have hlen : (sortedEntries db).length = db.entries.length := hperm.length_eq
    rw [heq]
    refine ⟨rfl, hceil1, hceil2, le_max_left _ _, ?_, ?_, rfl, ?_, hperm, hsorted, ?_⟩
    · refine max_le ?_ (min_le_right _ _)
      exact_mod_cast hq1
    · intro hp1 hp2
      rw [min_eq_left hp2, max_eq_right hp1]
    · exact List.Pairwise.sublist
        ((List.take_sublist _ _).trans (List.drop_sublist _ _)) hsorted
    · rw [List.length_take, List.length_drop, hlen]

/-- Witness for C7: with 45 entries and per_page = 20, page 1 returns 20
rows, page 3 returns 5, and a request for page 99 is clamped to page 3 with
total_pages = 3. -/
theorem fetch_entries_spec_witness :
    (fetch_entries
        ⟨(List.range 45).map (fun i => ⟨i + 1, "2024-01-01", "t", "b", "c", "u"⟩),
          [], 46, 1⟩ 99 20).2 = 3 ∧
    (fetch_entries
        ⟨(List.range 45).map (fun i => ⟨i + 1, "2024-01-01", "t", "b", "c", "u"⟩),
          [], 46, 1⟩ 1 20).1.length = 20 ∧
    (fetch_entries
        ⟨(List.range 45).map (fun i => ⟨i + 1, "2024-01-01", "t", "b", "c", "u"⟩),
          [], 46, 1⟩ 3 20).1.length = 5 ∧
    (fetch_entries
        ⟨(List.range 45).map (fun i => ⟨i + 1, "2024-01-01", "t", "b", "c", "u"⟩),
          [], 46, 1⟩ 99 20).1
      = (fetch_entries
        ⟨(List.range 45).map (fun i => ⟨i + 1, "2024-01-01", "t", "b", "c", "u"⟩),
          [], 46, 1⟩ 3 20).1 := by
  have h := ((fetch_entries_spec
      ⟨(List.range 45).map (fun i => ⟨i + 1, "2024-01-01", "t", "b", "c", "u"⟩),
        [], 46, 1⟩ 99 20 (by decide)).2 (by decide)).1
  refine ⟨?_, by decide, by decide, by decide⟩
  rw [h]
  decide

/-! ## Photo loop: frame properties -/

theorem filter_sub_filter {α : Type} (p q : α → Bool) (h : ∀ a, p a = true → q a = true)
    (l : List α) : (l.filter q).filter p = l.filter p := by
  induction l with
  | nil => rfl
  | cons a l ih =>
    cases hq : q a with
    | true =>
      simp only [List.filter_cons, hq, if_true]
      cases hp : p a with
      | true => simp only [if_true, ih]
      | false => simpa [hp] using ih
    | false =>
      have hp : p a = false := by
        cases hpa : p a
        · rfl
        · rw [h a hpa] at hq
          cases hq
      simp only [List.filter_cons, hq, hp]
      simpa using ih

theorem filter_map_fixed {α : Type} (p : α → Bool) (f : α → α)
    (h1 : ∀ a, p a = true → f a = a) (h2 : ∀ a, p (f a) = p a) (l : List α) :
    (l.map f).filter p = l.filter p := by
  induction l with
  | nil => rfl
  | cons a l ih =>
    simp only [List.map_cons, List.filter_cons]
    rw [h2 a]
    cases hpa : p a with
    | false => simpa using ih
    | true =>
      simp only [if_true]
      rw [h1 a hpa, ih]

theorem mem_map_of_fixed {α : Type} (f : α → α) (l : List α) (a : α)
    (ha : a ∈ l) (hfa : f a = a) : a ∈ l.map f :=
  List.mem_map.mpr ⟨a, ha, hfa⟩

theorem photo_loop_frame (E : Nat) (snap : List AssetRow) (del caps : List String) :
    ∀ (raws : List String) (idx si : Nat) (db : DB) (toRemove : List String),
      ((photo_loop E snap del caps raws idx si db toRemove).2.1).entries = db.entries ∧
      ((photo_loop E snap del caps raws idx si db toRemove).2.1).nextEntryId
          = db.nextEntryId ∧
      ((photo_loop E snap del caps raws idx si db toRemove).2.1).nextAssetId
          = db.nextAssetId ∧
      (((photo_loop E snap del caps raws idx si db toRemove).2.1).assets.filter
          (fun a => !isPhotoOf E a)
        = db.assets.filter (fun a => !isPhotoOf E a)) ∧
      (∀ a ∈ db.assets, isPhotoOf E a = true → natStr a.id ∉ raws →
        a ∈ ((photo_loop E snap del caps raws idx si db toRemove).2.1).assets) := by
  intro raws
  induction raws with
  | nil =>
    intro idx si db toRemove
    exact ⟨rfl, rfl, rfl, rfl, fun a ha _ _ => ha⟩
  | cons raw rest ih =>
    intro idx si db toRemove
    cases hfind : snap.find? (fun r => decide (natStr r.id = raw)) with
    | none =>
      have heq : photo_loop E snap del caps (raw :: rest) idx si db toRemove
          = photo_loop E snap del caps rest (idx + 1) si db toRemove := by
        simp [photo_loop, hfind]
      rw [heq]
      obtain ⟨ih1, ih2, ih3, ih4, ih5⟩ := ih (idx + 1) si db toRemove
      exact ⟨ih1, ih2, ih3, ih4, fun a ha hp hn =>
        ih5 a ha hp (fun hc => hn (List.mem_cons_of_mem _ hc))⟩
    | some r =>
      have hraw : natStr r.id = raw := by
        have := List.find?_some hfind
        simpa using this
      by_cases hdel : raw ∈ del
      · have heq : photo_loop E snap del caps (raw :: rest) idx si db toRemove
            = photo_loop E snap del caps rest (idx + 1) si
                (deletePhotoRow db r.id E) (toRemove ++ [r.file_path]) := by
          simp [photo_loop, hfind, hdel]
        rw [heq]
        obtain ⟨ih1, ih2, ih3, ih4, ih5⟩ :=
          ih (idx + 1) si (deletePhotoRow db r.id E) (toRemove ++ [r.file_path])
        refine ⟨ih1, ih2, ih3, ?_, ?_⟩
        · rw [ih4]
          show (db.assets.filter _).filter _ = _
          refine filter_sub_filter _ _ ?_ db.assets
          intro a hpa
          simp only [isPhotoOf, Bool.not_eq_true', decide_eq_false_iff_not] at hpa
          simp only [decide_eq_true_eq]
          intro hc
          exact hpa ⟨hc.2.1, hc.2.2⟩
        · intro a ha hp hn
          have hne : a.id ≠ r.id := by
            intro hid
            exact hn (by rw [← hraw, hid]; exact List.mem_cons_self _ _)
          refine ih5 a ?_ hp (fun hc => hn (List.mem_cons_of_mem _ hc))
          show a ∈ db.assets.filter _
          rw [List.mem_filter]
          refine ⟨ha, ?_⟩
          rw [decide_eq_true_eq]
          intro hc
          exact hne hc.1
      · have heq : photo_loop E snap del caps (raw :: rest) idx si db toRemove
            = photo_loop E snap del caps rest (idx + 1) (si + 1)
                (updatePhotoRow db r.id E (pyStrip (caps.getD idx "")) si) toRemove := by
          simp [photo_loop, hfind, hdel]
        rw [heq]
        obtain ⟨ih1, ih2, ih3, ih4, ih5⟩ :=
          ih (idx + 1) (si + 1)
            (updatePhotoRow db r.id E (pyStrip (caps.getD idx "")) si) toRemove
        refine ⟨ih1, ih2, ih3, ?_, ?_⟩
        · rw [ih4]
          show (db.assets.map _).filter _ = _
          refine filter_map_fixed _ _ ?_ ?_ db.assets
          · intro a hpa
            simp only [isPhotoOf, Bool.not_eq_true', decide_eq_false_iff_not] at hpa
            exact if_neg (fun hc => hpa ⟨hc.2.1, hc.2.2⟩)
          · intro a
            by_cases hc : a.id = r.id ∧ a.entry_id = E ∧ a.kind = AssetKind.photo
            · rw [if_pos hc]
              exact rfl
            · rw [if_neg hc]
        · intro a ha hp hn
          have hne : a.id ≠ r.id := by
            intro hid
            exact hn (by rw [← hraw, hid]; exact List.mem_cons_self _ _)
          refine ih5 a ?_ hp (fun hc => hn (List.mem_cons_of_mem _ hc))
          show a ∈ db.assets.map _
          refine mem_map_of_fixed _ _ _ ha ?_
          exact if_neg (fun hc => hne hc.1)

/-! ## Edit attempt plumbing -/

theorem filter_frame_mono {α : Type} (p q : α → Bool) (h : ∀ a, p a = true → q a = true)
    (l l2 : List α) (hf : l2.filter q = l.filter q) : l2.filter p = l.filter p := by
  rw [← filter_sub_filter p q h l2, hf, filter_sub_filter p q h l]

theorem filter_map_fixed_mem {α : Type} (p : α → Bool) (f : α → α) (l : List α)
    (h1 : ∀ a ∈ l, p a = true → f a = a) (h2 : ∀ a ∈ l, p (f a) = p a) :
    (l.map f).filter p = l.filter p := by
  induction l with
  | nil => rfl
  | cons a l ih =>
    simp only [List.map_cons, List.filter_cons]
    rw [h2 a (List.mem_cons_self a l)]
    cases hpa : p a with
    | false =>
      simpa using ih (fun x hx hp => h1 x (List.mem_cons_of_mem a hx) hp)
        (fun x hx => h2 x (List.mem_cons_of_mem a hx))
    | true =>
      simp only [if_true]
      rw [h1 a (List.mem_cons_self a l) hpa,
        ih (fun x hx hp => h1 x (List.mem_cons_of_mem a hx) hp)
          (fun x hx => h2 x (List.mem_cons_of_mem a hx))]

theorem filter_map_shape_mem {α β : Type} (p : α → Bool) (f : α → α) (g : α → β)
    (l : List α) (h1 : ∀ a ∈ l, p (f a) = p a) (h2 : ∀ a ∈ l, g (f a) = g a) :
    ((l.map f).filter p).map g = (l.filter p).map g := by
  induction l with
  | nil => rfl
  | cons a l ih =>
    simp only [List.map_cons, List.filter_cons]
    rw [h1 a (List.mem_cons_self a l)]
    cases hpa : p a with
    | false =>
      simpa using ih (fun x hx => h1 x (List.mem_cons_of_mem a hx))
        (fun x hx => h2 x (List.mem_cons_of_mem a hx))
    | true =>
      simp only [if_true, List.map_cons]
      rw [h2 a (List.mem_cons_self a l),
        ih (fun x hx => h1 x (List.mem_cons_of_mem a hx))
          (fun x hx => h2 x (List.mem_cons_of_mem a hx))]

theorem filter_append_right_nil {α : Type} (p : α → Bool) (l new : List α)
    (h : ∀ a ∈ new, p a = false) : (l ++ new).filter p = l.filter p := by
  rw [List.filter_append]
  have hnil : new.filter p = [] := by
    rw [List.filter_eq_nil_iff]
    intro a ha
    simp [h a ha]
  rw [hnil, List.append_nil]

theorem id_ne_of_nodup (l : List AssetRow) (hw : (l.map (fun a => a.id)).Nodup)
    (a b : AssetRow) (ha : a ∈ l) (hb : b ∈ l) (hne : a ≠ b) : a.id ≠ b.id := by
  intro hid
  exact hne (List.inj_on_of_nodup_map hw ha hb hid)

theorem selectNotebook_mem (db : DB) (E : Nat) (nb : AssetRow)
    (h : selectNotebook db E = some nb) :
    nb ∈ db.assets ∧ nb.entry_id = E ∧ nb.kind = AssetKind.notebook_page := by
  unfold selectNotebook at h
  have hmem : nb ∈ db.assets.filter (fun a =>
      decide (a.entry_id = E ∧ a.kind = AssetKind.notebook_page)) := by
    cases hl : db.assets.filter (fun a =>
        decide (a.entry_id = E ∧ a.kind = AssetKind.notebook_page)) with
    | nil =>
      rw [hl] at h
      cases h
    | cons x xs =>
      rw [hl] at h
      injection h with hx
      rw [← hx]
      exact List.mem_cons_self x xs
  rw [List.mem_filter, decide_eq_true_eq] at hmem
  exact ⟨hmem.1, hmem.2.1, hmem.2.2⟩

theorem selectNotebook_none (db : DB) (E : Nat) (h : selectNotebook db E = none) :
    db.assets.filter (fun a =>
      decide (a.entry_id = E ∧ a.kind = AssetKind.notebook_page)) = [] := by
  unfold selectNotebook at h
  cases hl : db.assets.filter (fun a =>
      decide (a.entry_id = E ∧ a.kind = AssetKind.notebook_page)) with
  | nil => rfl
  | cons x xs =>
    rw [hl] at h
    cases h

theorem edit_notebook_step_cases (tok : Nat → String) (E : Nat) (ED NC : String)
    (nbFile : Option FileStorage) (exNb : Option AssetRow) (ts : String)
    (db : DB) (fs : FS) (k : Nat) :
    (∃ e fs1 k1, edit_notebook_step tok E ED NC nbFile exNb ts db fs k
        = (some e, db, fs1, [], [], k1) ∧ fs1.files = fs.files) ∨
    (∃ nb, exNb = some nb ∧
      edit_notebook_step tok E ED NC nbFile exNb ts db fs k
        = (none, updateAssetCaption db nb.id NC, fs, [], [], k) ∧
      (nbFile = none ∨ ∃ f, nbFile = some f ∧ f.filename = "")) ∨
    (exNb = none ∧
      edit_notebook_step tok E ED NC nbFile exNb ts db fs k = (none, db, fs, [], [], k) ∧
      (nbFile = none ∨ ∃ f, nbFile = some f ∧ f.filename = "")) ∨
    (∃ nb path fs1 k1 f, exNb = some nb ∧ nbFile = some f ∧ f.filename ≠ "" ∧
      edit_notebook_step tok E ED NC nbFile exNb ts db fs k
        = (none, updateNotebookRow db nb.id path NC ts, fs1, [path], [nb.file_path], k1) ∧
      (∀ p, p ∈ fs1.files ↔ p ∈ fs.files ∨ p = path) ∧ path.data ≠ []) ∨
    (∃ path fs1 k1 f, exNb = none ∧ nbFile = some f ∧ f.filename ≠ "" ∧
      edit_notebook_step tok E ED NC nbFile exNb ts db fs k
        = (none, insertAssetRow db E .notebook_page path NC 0 ts, fs1, [path], [], k1) ∧
      (∀ p, p ∈ fs1.files ↔ p ∈ fs.files ∨ p = path) ∧ path.data ≠ []) := by
  cases nbFile with
  | none =>
    cases exNb with
    | some nb =>
      refine Or.inr (Or.inl ⟨nb, rfl, ?_, Or.inl rfl⟩)
      simp [edit_notebook_step, edit_nb_fallback]
    | none =>
      refine Or.inr (Or.inr (Or.inl ⟨rfl, ?_, Or.inl rfl⟩))
      simp [edit_notebook_step, edit_nb_fallback]
  | some f =>
    by_cases hf : f.filename = ""
    · cases exNb with
      | some nb =>
        refine Or.inr (Or.inl ⟨nb, rfl, ?_, Or.inr ⟨f, rfl, hf⟩⟩)
        simp [edit_notebook_step, edit_nb_fallback, hf]
      | none =>
        refine Or.inr (Or.inr (Or.inl ⟨rfl, ?_, Or.inr ⟨f, rfl, hf⟩⟩))
        simp [edit_notebook_step, edit_nb_fallback, hf]
    · cases hsv : save_uploaded_image tok f ED "notebook" fs k with
      | failed e fs1 k1 =>
        refine Or.inl ⟨e, fs1, k1, ?_, save_uploaded_image_failed tok f ED "notebook" fs k e fs1 k1 hsv⟩
        simp [edit_notebook_step, hf, hsv]
      | stored path fs1 k1 =>
        obtain ⟨hstf, hstne, _, _⟩ :=
          save_uploaded_image_stored tok f ED "notebook" fs k path fs1 k1 hsv
        cases exNb with
        | some nb =>
          refine Or.inr (Or.inr (Or.inr (Or.inl
            ⟨nb, path, fs1, k1, f, rfl, rfl, hf, ?_, hstf, hstne⟩)))
          simp [edit_notebook_step, hf, hsv]
        | none =>
          refine Or.inr (Or.inr (Or.inr (Or.inr
            ⟨path, fs1, k1, f, rfl, rfl, hf, ?_, hstf, hstne⟩)))
          simp [edit_notebook_step, hf, hsv]

theorem edit_tail_spec (tok : Nat → String) (E : Nat) (ED : String)
    (snap : List AssetRow) (delIds raws exCaps : List String)
    (newPhotos : List FileStorage) (newCaps : List String) (ts : String)
    (db2 : DB) (fs2 : FS) (saved2 toR0 : List String) (k2 : Nat) :
    ∃ newPaths : List String,
      ((store_new_photos tok E ED newCaps ts newPhotos 0
          (photo_loop E snap delIds exCaps raws 0 0 db2 toR0).1
          ⟨(photo_loop E snap delIds exCaps raws 0 0 db2 toR0).2.1,
            fs2, saved2, k2⟩).2.2.db.entries = db2.entries) ∧
      ((store_new_photos tok E ED newCaps ts newPhotos 0
          (photo_loop E snap delIds exCaps raws 0 0 db2 toR0).1
          ⟨(photo_loop E snap delIds exCaps raws 0 0 db2 toR0).2.1,
            fs2, saved2, k2⟩).2.2.db.assets.filter (fun a => !decide (a.entry_id = E))
        = db2.assets.filter (fun a => !decide (a.entry_id = E))) ∧
      (((store_new_photos tok E ED newCaps ts newPhotos 0
          (photo_loop E snap delIds exCaps raws 0 0 db2 toR0).1
          ⟨(photo_loop E snap delIds exCaps raws 0 0 db2 toR0).2.1,
            fs2, saved2, k2⟩).2.2.db.assets.filter (fun a =>
              decide (a.entry_id = E ∧ a.kind = AssetKind.notebook_page))).map assetShape
        = (db2.assets.filter (fun a =>
            decide (a.entry_id = E ∧ a.kind = AssetKind.notebook_page))).map assetShape) ∧
      ((store_new_photos tok E ED newCaps ts newPhotos 0
          (photo_loop E snap delIds exCaps raws 0 0 db2 toR0).1
          ⟨(photo_loop E snap delIds exCaps raws 0 0 db2 toR0).2.1,
            fs2, saved2, k2⟩).2.2.saved = saved2 ++ newPaths) ∧
      (∀ p, p ∈ (store_new_photos tok E ED newCaps ts newPhotos 0
          (photo_loop E snap delIds exCaps raws 0 0 db2 toR0).1
          ⟨(photo_loop E snap delIds exCaps raws 0 0 db2 toR0).2.1,
            fs2, saved2, k2⟩).2.2.fs.files ↔ p ∈ fs2.files ∨ p ∈ newPaths) ∧
      (∀ p ∈ newPaths, p.data ≠ []) ∧
      (∀ a ∈ db2.assets, isPhotoOf E a = true → natStr a.id ∉ raws →
        a ∈ (store_new_photos tok E ED newCaps ts newPhotos 0
          (photo_loop E snap delIds exCaps raws 0 0 db2 toR0).1
          ⟨(photo_loop E snap delIds exCaps raws 0 0 db2 toR0).2.1,
            fs2, saved2, k2⟩).2.2.db.assets) := by
  obtain ⟨lp1, lp2, lp3, lp4, lp5⟩ := photo_loop_frame E snap delIds exCaps raws 0 0 db2 toR0
  obtain ⟨s1, s2, newRows, sA, sK, sSort, sLe, sSaved, sFs, sNE⟩ :=
    store_new_photos_spec tok E ED newCaps ts newPhotos 0
      (photo_loop E snap delIds exCaps raws 0 0 db2 toR0).1
      ⟨(photo_loop E snap delIds exCaps raws 0 0 db2 toR0).2.1, fs2, saved2, k2⟩
  refine ⟨newRows.map (fun r => r.file_path), ?_, ?_, ?_, ?_, ?_, ?_, ?_⟩
  · rw [s1]
    exact lp1
  · rw [sA]
    have happ : (((photo_loop E snap delIds exCaps raws 0 0 db2 toR0).2.1).assets
        ++ newRows).filter (fun a => !decide (a.entry_id = E))
        = ((photo_loop E snap delIds exCaps raws 0 0 db2 toR0).2.1).assets.filter
          (fun a => !decide (a.entry_id = E)) := by
      refine filter_append_right_nil _ _ _ ?_
      intro a ha
      have := (sK a ha).1
      simp [this]
    rw [happ]
    refine filter_frame_mono _ (fun a => !isPhotoOf E a) ?_ _ _ lp4
    intro a hpa
    simp only [Bool.not_eq_true', decide_eq_false_iff_not] at hpa
    simp only [isPhotoOf, Bool.not_eq_true', decide_eq_false_iff_not]
    intro hc
    exact hpa hc.1
  · rw [sA]
    have happ : (((photo_loop E snap delIds exCaps raws 0 0 db2 toR0).2.1).assets
        ++ newRows).filter (fun a =>
          decide (a.entry_id = E ∧ a.kind = AssetKind.notebook_page))
        = ((photo_loop E snap delIds exCaps raws 0 0 db2 toR0).2.1).assets.filter
          (fun a => decide (a.entry_id = E ∧ a.kind = AssetKind.notebook_page)) := by
      refine filter_append_right_nil _ _ _ ?_
      intro a ha
      have hk := (sK a ha).2
      simp only [decide_eq_false_iff_not]
      intro hc
      rw [hc.2] at hk
      cases hk
    rw [happ]
    have hfr : ((photo_loop E snap delIds exCaps raws 0 0 db2 toR0).2.1).assets.filter
        (fun a => decide (a.entry_id = E ∧ a.kind = AssetKind.notebook_page))
        = db2.assets.filter (fun a =>
          decide (a.entry_id = E ∧ a.kind = AssetKind.notebook_page)) := by
      refine filter_frame_mono _ (fun a => !isPhotoOf E a) ?_ _ _ lp4
      intro a hpa
      simp only [decide_eq_true_eq] at hpa
      simp only [isPhotoOf, Bool.not_eq_true', decide_eq_false_iff_not]
      intro hc
      rw [hpa.2] at hc
      cases hc.2
    rw [hfr]
  · exact sSaved
  · exact sFs
  · intro p hp
    rcases List.mem_map.mp hp with ⟨r, hr, rfl⟩
    exact sNE r hr
  · intro a ha hp hn
    rw [sA]
    exact List.mem_append_left _ (lp5 a ha hp hn)

theorem edit_attempt_spec (tok : Nat → String) (E : Nat) (ED T B NC : String)
    (nbFile : Option FileStorage) (snap : List AssetRow)
    (delIds raws exCaps : List String) (newPhotos : List FileStorage)
    (newCaps : List String) (ts : String) (db : DB) (fs : FS) (k : Nat)
    (hwf : (db.assets.map (fun a => a.id)).Nodup) :
    (∀ p, p ∈ (edit_attempt tok E ED T B NC nbFile (selectNotebook db E) snap delIds raws
        exCaps newPhotos newCaps ts db fs k).2.2.1.files ↔
      p ∈ fs.files ∨ p ∈ (edit_attempt tok E ED T B NC nbFile (selectNotebook db E) snap
        delIds raws exCaps newPhotos newCaps ts db fs k).2.2.2.1) ∧
    (∀ p ∈ (edit_attempt tok E ED T B NC nbFile (selectNotebook db E) snap delIds raws
        exCaps newPhotos newCaps ts db fs k).2.2.2.1, p.data ≠ []) ∧
    ((edit_attempt tok E ED T B NC nbFile (selectNotebook db E) snap delIds raws
        exCaps newPhotos newCaps ts db fs k).2.1.entries
      = db.entries.map (fun e =>
          if e.id = E then
            { e with entry_date := ED, title := T, body_markdown := B, updated_at := ts }
          else e)) ∧
    ((edit_attempt tok E ED T B NC nbFile (selectNotebook db E) snap delIds raws
        exCaps newPhotos newCaps ts db fs k).2.1.assets.filter
          (fun a => !decide (a.entry_id = E))
      = db.assets.filter (fun a => !decide (a.entry_id = E))) ∧
    ((nbFile = none ∨ (∃ f, nbFile = some f ∧ f.filename = "")) →
      ((edit_attempt tok E ED T B NC nbFile (selectNotebook db E) snap delIds raws
          exCaps newPhotos newCaps ts db fs k).2.1.assets.filter (fun a =>
            decide (a.entry_id = E ∧ a.kind = AssetKind.notebook_page))).map assetShape
        = (db.assets.filter (fun a =>
            decide (a.entry_id = E ∧ a.kind = AssetKind.notebook_page))).map assetShape) ∧
    (∀ a ∈ db.assets, isPhotoOf E a = true → natStr a.id ∉ raws →
      a ∈ (edit_attempt tok E ED T B NC nbFile (selectNotebook db E) snap delIds raws
        exCaps newPhotos newCaps ts db fs k).2.1.assets) := by
  have hdb1e : (updateEntryRow db E ED T B ts).entries
      = db.entries.map (fun e =>
          if e.id = E then
            { e with entry_date := ED, title := T, body_markdown := B, updated_at := ts }
          else e) := rfl
  have hdb1a : (updateEntryRow db E ED T B ts).assets = db.assets := rfl
  rcases edit_notebook_step_cases tok E ED NC nbFile (selectNotebook db E) ts
      (updateEntryRow db E ED T B ts) fs k with
    ⟨e, fs1, k1, hstep, hfiles⟩ | ⟨nb, hnb, hstep, hno⟩ | ⟨hnb, hstep, hno⟩ |
    ⟨nb, path, fs1, k1, f, hnb, hfarg, hfne, hstep, hfsiff, hpne⟩ |
    ⟨path, fs1, k1, f, hnb, hfarg, hfne, hstep, hfsiff, hpne⟩
  · -- notebook save failed: the attempt stops with nothing saved
    have hmain : edit_attempt tok E ED T B NC nbFile (selectNotebook db E) snap delIds raws
        exCaps newPhotos newCaps ts db fs k
        = (some e, updateEntryRow db E ED T B ts, fs1, [], [], k1) := by
      unfold edit_attempt
      simp only [hstep]
    rw [hmain]
    refine ⟨?_, by simp, hdb1e, by rw [hdb1a], fun _ => by rw [hdb1a], ?_⟩
    · intro p
      simp [hfiles]
    · intro a ha hp hn
      rw [hdb1a]
      exact ha
  · -- caption-only notebook update, then the photo loop and new photos
    have hnbm := selectNotebook_mem db E nb hnb
    have hmain : edit_attempt tok E ED T B NC nbFile (selectNotebook db E) snap delIds raws
        exCaps newPhotos newCaps ts db fs k
        = ((store_new_photos tok E ED newCaps ts newPhotos 0
              (photo_loop E snap delIds exCaps raws 0 0
                (updateAssetCaption (updateEntryRow db E ED T B ts) nb.id NC) []).1
              ⟨(photo_loop E snap delIds exCaps raws 0 0
                (updateAssetCaption (updateEntryRow db E ED T B ts) nb.id NC) []).2.1,
                fs, [], k⟩).1,
           (store_new_photos tok E ED newCaps ts newPhotos 0
              (photo_loop E snap delIds exCaps raws 0 0
                (updateAssetCaption (updateEntryRow db E ED T B ts) nb.id NC) []).1
              ⟨(photo_loop E snap delIds exCaps raws 0 0
                (updateAssetCaption (updateEntryRow db E ED T B ts) nb.id NC) []).2.1,
                fs, [], k⟩).2.2.db,
           (store_new_photos tok E ED newCaps ts newPhotos 0
              (photo_loop E snap delIds exCaps raws 0 0
                (updateAssetCaption (updateEntryRow db E ED T B ts) nb.id NC) []).1
              ⟨(photo_loop E snap delIds exCaps raws 0 0
                (updateAssetCaption (updateEntryRow db E ED T B ts) nb.id NC) []).2.1,
                fs, [], k⟩).2.2.fs,
           (store_new_photos tok E ED newCaps ts newPhotos 0
              (photo_loop E snap delIds exCaps raws 0 0
                (updateAssetCaption (updateEntryRow db E ED T B ts) nb.id NC) []).1
              ⟨(photo_loop E snap delIds exCaps raws 0 0
                (updateAssetCaption (updateEntryRow db E ED T B ts) nb.id NC) []).2.1,
                fs, [], k⟩).2.2.saved,
           (photo_loop E snap delIds exCaps raws 0 0
              (updateAssetCaption (updateEntryRow db E ED T B ts) nb.id NC) []).2.2,
           (store_new_photos tok E ED newCaps ts newPhotos 0
              (photo_loop E snap delIds exCaps raws 0 0
                (updateAssetCaption (updateEntryRow db E ED T B ts) nb.id NC) []).1
              ⟨(photo_loop E snap delIds exCaps raws 0 0
                (updateAssetCaption (updateEntryRow db E ED T B ts) nb.id NC) []).2.1,
                fs, [], k⟩).2.2.k) := by
      unfold edit_attempt
      simp only [hstep]
    obtain ⟨newPaths, t1, t2, t3, t4, t5, t6, t7⟩ := edit_tail_spec tok E ED snap delIds
      raws exCaps newPhotos newCaps ts
      (updateAssetCaption (updateEntryRow db E ED T B ts) nb.id NC) fs [] [] k
    have hb_ne : ∀ a ∈ db.assets, a.id = nb.id → a = nb := by
      intro a ha hid
      by_contra hne
      exact id_ne_of_nodup db.assets hwf a nb ha hnbm.1 hne hid
    have hbridge_a : (updateAssetCaption (updateEntryRow db E ED T B ts) nb.id NC).assets.filter
        (fun a => !decide (a.entry_id = E))
        = db.assets.filter (fun a => !decide (a.entry_id = E)) := by
      show (db.assets.map _).filter _ = _
      refine filter_map_fixed_mem _ _ _ ?_ ?_
      · intro a ha hpa
        simp only [Bool.not_eq_true', decide_eq_false_iff_not] at hpa
        refine if_neg ?_
        intro hid
        rw [hb_ne a ha hid] at hpa
        exact hpa hnbm.2.1
      · intro a _
        by_cases hid : a.id = nb.id
        · rw [if_pos hid]
        · rw [if_neg hid]
    have hbridge_nb : ((updateAssetCaption (updateEntryRow db E ED T B ts) nb.id NC).assets.filter
        (fun a => decide (a.entry_id = E ∧ a.kind = AssetKind.notebook_page))).map assetShape
        = (db.assets.filter (fun a =>
            decide (a.entry_id = E ∧ a.kind = AssetKind.notebook_page))).map assetShape := by
      show ((db.assets.map _).filter _).map _ = _
      refine filter_map_shape_mem _ _ _ _ ?_ ?_
      · intro a _
        by_cases hid : a.id = nb.id
        · rw [if_pos hid]
        · rw [if_neg hid]
      · intro a _
        by_cases hid : a.id = nb.id
        · rw [if_pos hid]
          exact rfl
        · rw [if_neg hid]
    have hbridge_mem : ∀ a ∈ db.assets, isPhotoOf E a = true →
        a ∈ (updateAssetCaption (updateEntryRow db E ED T B ts) nb.id NC).assets := by
      intro a ha hp
      show a ∈ db.assets.map _
      refine mem_map_of_fixed _ _ _ ha ?_
      refine if_neg ?_
      intro hid
      have := hb_ne a ha hid
      rw [this] at hp
      simp only [isPhotoOf, decide_eq_true_eq] at hp
      rw [hnbm.2.2] at hp
      cases hp.2
    rw [hmain]
    refine ⟨?_, ?_, ?_, ?_, fun _ => ?_, ?_⟩
    · intro p
      dsimp only
      rw [t5 p, t4]
      simp
    · intro p hp
      dsimp only at hp
      rw [t4] at hp
      simp only [List.nil_append] at hp
      exact t6 p hp
    · dsimp only
      rw [t1]
      exact rfl
    · dsimp only
      rw [t2, hbridge_a]
    · dsimp only
      rw [t3, hbridge_nb]
    · intro a ha hp hn
      dsimp only
      exact t7 a (hbridge_mem a ha hp) hp hn
  · -- no notebook row and no replacement
    have hmain : edit_attempt tok E ED T B NC nbFile (selectNotebook db E) snap delIds raws
        exCaps newPhotos newCaps ts db fs k
        = ((store_new_photos tok E ED newCaps ts newPhotos 0
              (photo_loop E snap delIds exCaps raws 0 0 (updateEntryRow db E ED T B ts) []).1
              ⟨(photo_loop E snap delIds exCaps raws 0 0 (updateEntryRow db E ED T B ts) []).2.1,
                fs, [], k⟩).1,
           (store_new_photos tok E ED newCaps ts newPhotos 0
              (photo_loop E snap delIds exCaps raws 0 0 (updateEntryRow db E ED T B ts) []).1
              ⟨(photo_loop E snap delIds exCaps raws 0 0 (updateEntryRow db E ED T B ts) []).2.1,
                fs, [], k⟩).2.2.db,
           (store_new_photos tok E ED newCaps ts newPhotos 0
              (photo_loop E snap delIds exCaps raws 0 0 (updateEntryRow db E ED T B ts) []).1
              ⟨(photo_loop E snap delIds exCaps raws 0 0 (updateEntryRow db E ED T B ts) []).2.1,
                fs, [], k⟩).2.2.fs,
           (store_new_photos tok E ED newCaps ts newPhotos 0
              (photo_loop E snap delIds exCaps raws 0 0 (updateEntryRow db E ED T B ts) []).1
              ⟨(photo_loop E snap delIds exCaps raws 0 0 (updateEntryRow db E ED T B ts) []).2.1,
                fs, [], k⟩).2.2.saved,
           (photo_loop E snap delIds exCaps raws 0 0 (updateEntryRow db E ED T B ts) []).2.2,
           (store_new_photos tok E ED newCaps ts newPhotos 0
              (photo_loop E snap delIds exCaps raws 0 0 (updateEntryRow db E ED T B ts) []).1
              ⟨(photo_loop E snap delIds exCaps raws 0 0 (updateEntryRow db E ED T B ts) []).2.1,
                fs, [], k⟩).2.2.k) := by
      unfold edit_attempt
      simp only [hstep]
    obtain ⟨newPaths, t1, t2, t3, t4, t5, t6, t7⟩ := edit_tail_spec tok E ED snap delIds
      raws exCaps newPhotos newCaps ts (updateEntryRow db E ED T B ts) fs [] [] k
    rw [hmain]
    refine ⟨?_, ?_, ?_, ?_, fun _ => ?_, ?_⟩
    · intro p
      dsimp only
      rw [t5 p, t4]
      simp
    · intro p hp
      dsimp only at hp
      rw [t4] at hp
      simp only [List.nil_append] at hp
      exact t6 p hp
    · dsimp only
      rw [t1]
      exact rfl
    · dsimp only
      rw [t2]
      exact rfl
    · dsimp only
      rw [t3]
      exact rfl
    · intro a ha hp hn
      dsimp only
      refine t7 a ?_ hp hn
      rw [hdb1a]
      exact ha
  · -- notebook replacement over an existing row
    have hnbm := selectNotebook_mem db E nb hnb
    have hmain : edit_attempt tok E ED T B NC nbFile (selectNotebook db E) snap delIds raws
        exCaps newPhotos newCaps ts db fs k
        = ((store_new_photos tok E ED newCaps ts newPhotos 0
              (photo_loop E snap delIds exCaps raws 0 0
                (updateNotebookRow (updateEntryRow db E ED T B ts) nb.id path NC ts)
                [nb.file_path]).1
              ⟨(photo_loop E snap delIds exCaps raws 0 0
                (updateNotebookRow (updateEntryRow db E ED T B ts) nb.id path NC ts)
                [nb.file_path]).2.1, fs1, [path], k1⟩).1,
           (store_new_photos tok E ED newCaps ts newPhotos 0
              (photo_loop E snap delIds exCaps raws 0 0
                (updateNotebookRow (updateEntryRow db E ED T B ts) nb.id path NC ts)
                [nb.file_path]).1
              ⟨(photo_loop E snap delIds exCaps raws 0 0
                (updateNotebookRow (updateEntryRow db E ED T B ts) nb.id path NC ts)
                [nb.file_path]).2.1, fs1, [path], k1⟩).2.2.db,
           (store_new_photos tok E ED newCaps ts newPhotos 0
              (photo_loop E snap delIds exCaps raws 0 0
                (updateNotebookRow (updateEntryRow db E ED T B ts) nb.id path NC ts)
                [nb.file_path]).1
              ⟨(photo_loop E snap delIds exCaps raws 0 0
                (updateNotebookRow (updateEntryRow db E ED T B ts) nb.id path NC ts)
                [nb.file_path]).2.1, fs1, [path], k1⟩).2.2.fs,
           (store_new_photos tok E ED newCaps ts newPhotos 0
              (photo_loop E snap delIds exCaps raws 0 0
                (updateNotebookRow (updateEntryRow db E ED T B ts) nb.id path NC ts)
                [nb.file_path]).1
              ⟨(photo_loop E snap delIds exCaps raws 0 0
                (updateNotebookRow (updateEntryRow db E ED T B ts) nb.id path NC ts)
                [nb.file_path]).2.1, fs1, [path], k1⟩).2.2.saved,
           (photo_loop E snap delIds exCaps raws 0 0
              (updateNotebookRow (updateEntryRow db E ED T B ts) nb.id path NC ts)
              [nb.file_path]).2.2,
           (store_new_photos tok E ED newCaps ts newPhotos 0
              (photo_loop E snap delIds exCaps raws 0 0
                (updateNotebookRow (updateEntryRow db E ED T B ts) nb.id path NC ts)
                [nb.file_path]).1
              ⟨(photo_loop E snap delIds exCaps raws 0 0
                (updateNotebookRow (updateEntryRow db E ED T B ts) nb.id path NC ts)
                [nb.file_path]).2.1, fs1, [path], k1⟩).2.2.k) := by
      unfold edit_attempt
      simp only [hstep]
    obtain ⟨newPaths, t1, t2, t3, t4, t5, t6, t7⟩ := edit_tail_spec tok E ED snap delIds
      raws exCaps newPhotos newCaps ts
      (updateNotebookRow (updateEntryRow db E ED T B ts) nb.id path NC ts)
      fs1 [path] [nb.file_path] k1
    have hb_ne : ∀ a ∈ db.assets, a.id = nb.id → a = nb := by
      intro a ha hid
      by_contra hne
      exact id_ne_of_nodup db.assets hwf a nb ha hnbm.1 hne hid
    have hbridge_a : (updateNotebookRow (updateEntryRow db E ED T B ts) nb.id path NC ts).assets.filter
        (fun a => !decide (a.entry_id = E))
        = db.assets.filter (fun a => !decide (a.entry_id = E)) := by
      show (db.assets.map _).filter _ = _
      refine filter_map_fixed_mem _ _ _ ?_ ?_
      · intro a ha hpa
        simp only [Bool.not_eq_true', decide_eq_false_iff_not] at hpa
        refine if_neg ?_
        intro hid
        rw [hb_ne a ha hid] at hpa
        exact hpa hnbm.2.1
      · intro a _
        by_cases hid : a.id = nb.id
        · rw [if_pos hid]
        · rw [if_neg hid]
    have hbridge_mem : ∀ a ∈ db.assets, isPhotoOf E a = true →
        a ∈ (updateNotebookRow (updateEntryRow db E ED T B ts) nb.id path NC ts).assets := by
      intro a ha hp
      show a ∈ db.assets.map _
      refine mem_map_of_fixed _ _ _ ha ?_
      refine if_neg ?_
      intro hid
      have := hb_ne a ha hid
      rw [this] at hp
      simp only [isPhotoOf, decide_eq_true_eq] at hp
      rw [hnbm.2.2] at hp
      cases hp.2
    rw [hmain]
    refine ⟨?_, ?_, ?_, ?_, ?_, ?_⟩
    · intro p
      dsimp only
      rw [t5 p, t4, hfsiff p]
      simp only [List.cons_append, List.nil_append, List.mem_cons]
      tauto
    · intro p hp
      dsimp only at hp
      rw [t4] at hp
      simp only [List.cons_append, List.nil_append, List.mem_cons] at hp
      rcases hp with rfl | hp
      · exact hpne
      · exact t6 p hp
    · dsimp only
      rw [t1]
      exact rfl
    · dsimp only
      rw [t2, hbridge_a]
    · intro hno
      exfalso
      rcases hno with hno | ⟨f2, hf2, hf2e⟩
      · rw [hfarg] at hno
        cases hno
      · rw [hfarg] at hf2
        injection hf2 with hf2i
        rw [← hf2i] at hf2e
        exact hfne hf2e
    · intro a ha hp hn
      dsimp only
      exact t7 a (hbridge_mem a ha hp) hp hn
  · -- fresh notebook row inserted
    have hmain : edit_attempt tok E ED T B NC nbFile (selectNotebook db E) snap delIds raws
        exCaps newPhotos newCaps ts db fs k
        = ((store_new_photos tok E ED newCaps ts newPhotos 0
              (photo_loop E snap delIds exCaps raws 0 0
                (insertAssetRow (updateEntryRow db E ED T B ts) E .notebook_page path NC 0 ts)
                []).1
              ⟨(photo_loop E snap delIds exCaps raws 0 0
                (insertAssetRow (updateEntryRow db E ED T B ts) E .notebook_page path NC 0 ts)
                []).2.1, fs1, [path], k1⟩).1,
           (store_new_photos tok E ED newCaps ts newPhotos 0
              (photo_loop E snap delIds exCaps raws 0 0
                (insertAssetRow (updateEntryRow db E ED T B ts) E .notebook_page path NC 0 ts)
                []).1
              ⟨(photo_loop E snap delIds exCaps raws 0 0
                (insertAssetRow (updateEntryRow db E ED T B ts) E .notebook_page path NC 0 ts)
                []).2.1, fs1, [path], k1⟩).2.2.db,
           (store_new_photos tok E ED newCaps ts newPhotos 0
              (photo_loop E snap delIds exCaps raws 0 0
                (insertAssetRow (updateEntryRow db E ED T B ts) E .notebook_page path NC 0 ts)
                []).1
              ⟨(photo_loop E snap delIds exCaps raws 0 0
                (insertAssetRow (updateEntryRow db E ED T B ts) E .notebook_page path NC 0 ts)
                []).2.1, fs1, [path], k1⟩).2.2.fs,
           (store_new_photos tok E ED newCaps ts newPhotos 0
              (photo_loop E snap delIds exCaps raws 0 0
                (insertAssetRow (updateEntryRow db E ED T B ts) E .notebook_page path NC 0 ts)
                []).1
              ⟨(photo_loop E snap delIds exCaps raws 0 0
                (insertAssetRow (updateEntryRow db E ED T B ts) E .notebook_page path NC 0 ts)
                []).2.1, fs1, [path], k1⟩).2.2.saved,
           (photo_loop E snap delIds exCaps raws 0 0
              (insertAssetRow (updateEntryRow db E ED T B ts) E .notebook_page path NC 0 ts)
              []).2.2,
           (store_new_photos tok E ED newCaps ts newPhotos 0
              (photo_loop E snap delIds exCaps raws 0 0
                (insertAssetRow (updateEntryRow db E ED T B ts) E .notebook_page path NC 0 ts)
                []).1
              ⟨(photo_loop E snap delIds exCaps raws 0 0
                (insertAssetRow (updateEntryRow db E ED T B ts) E .notebook_page path NC 0 ts)
                []).2.1, fs1, [path], k1⟩).2.2.k) := by
      unfold edit_attempt
      simp only [hstep]
    obtain ⟨newPaths, t1, t2, t3, t4, t5, t6, t7⟩ := edit_tail_spec tok E ED snap delIds
      raws exCaps newPhotos newCaps ts
      (insertAssetRow (updateEntryRow db E ED T B ts) E .notebook_page path NC 0 ts)
      fs1 [path] [] k1
    have hbridge_a : (insertAssetRow (updateEntryRow db E ED T B ts) E .notebook_page path NC 0 ts).assets.filter
        (fun a => !decide (a.entry_id = E))
        = db.assets.filter (fun a => !decide (a.entry_id = E)) := by
      show (db.assets ++ _).filter _ = _
      refine filter_append_right_nil _ _ _ ?_
      intro a ha
      rcases List.mem_singleton.mp ha with rfl
      simp
    rw [hmain]
    refine ⟨?_, ?_, ?_, ?_, ?_, ?_⟩
    · intro p
      dsimp only
      rw [t5 p, t4, hfsiff p]
      simp only [List.cons_append, List.nil_append, List.mem_cons]
      tauto
    · intro p hp
      dsimp only at hp
      rw [t4] at hp
      simp only [List.cons_append, List.nil_append, List.mem_cons] at hp
      rcases hp with rfl | hp
      · exact hpne
      · exact t6 p hp
    · dsimp only
      rw [t1]
      exact rfl
    · dsimp only
      rw [t2, hbridge_a]
    · intro hno
      exfalso
      rcases hno with hno | ⟨f2, hf2, hf2e⟩
      · rw [hfarg] at hno
        cases hno
      · rw [hfarg] at hf2
        injection hf2 with hf2i
        rw [← hf2i] at hf2e
        exact hfne hf2e
    · intro a ha hp hn
      dsimp only
      refine t7 a ?_ hp hn
      show a ∈ db.assets ++ _
      exact List.mem_append_left _ ha

theorem edit_attempt_fs_mono (tok : Nat → String) (E : Nat) (ED T B NC : String)
    (nbFile : Option FileStorage) (exNb : Option AssetRow) (snap : List AssetRow)
    (delIds raws exCaps : List String) (newPhotos : List FileStorage)
    (newCaps : List String) (ts : String) (db : DB) (fs : FS) (k : Nat) :
    (∀ p ∈ fs.files, p ∈ (edit_attempt tok E ED T B NC nbFile exNb snap delIds raws
        exCaps newPhotos newCaps ts db fs k).2.2.1.files) ∧
    (∀ p ∈ (edit_attempt tok E ED T B NC nbFile exNb snap delIds raws
        exCaps newPhotos newCaps ts db fs k).2.2.2.1, p.data ≠ []) := by
  rcases edit_notebook_step_cases tok E ED NC nbFile exNb ts
      (updateEntryRow db E ED T B ts) fs k with
    ⟨e, fs1, k1, hstep, hfiles⟩ | ⟨nb, hnb, hstep, hno⟩ | ⟨hnb, hstep, hno⟩ |
    ⟨nb, path, fs1, k1, f, hnb, hfarg, hfne, hstep, hfsiff, hpne⟩ |
    ⟨path, fs1, k1, f, hnb, hfarg, hfne, hstep, hfsiff, hpne⟩
  · unfold edit_attempt
    dsimp only
    rw [hstep]
    dsimp only
    constructor
    · intro p hp
      rw [hfiles]
      exact hp
    · intro p hp
      cases hp
  · unfold edit_attempt
    dsimp only
    rw [hstep]
    dsimp only
    obtain ⟨s1, s2, newRows, sA, sK, sSort, sLe, sSaved, sFs, sNE⟩ :=
      store_new_photos_spec tok E ED newCaps ts newPhotos 0
        (photo_loop E snap delIds exCaps raws 0 0
          (updateAssetCaption (updateEntryRow db E ED T B ts) nb.id NC) []).1
        ⟨(photo_loop E snap delIds exCaps raws 0 0
          (updateAssetCaption (updateEntryRow db E ED T B ts) nb.id NC) []).2.1, fs, [], k⟩
    constructor
    · intro p hp
      rw [sFs p]
      exact Or.inl hp
    · intro p hp
      rw [sSaved] at hp
      simp only [List.nil_append] at hp
      rcases List.mem_map.mp hp with ⟨r, hr, rfl⟩
      exact sNE r hr
  · unfold edit_attempt
    dsimp only
    rw [hstep]
    dsimp only
    obtain ⟨s1, s2, newRows, sA, sK, sSort, sLe, sSaved, sFs, sNE⟩ :=
      store_new_photos_spec tok E ED newCaps ts newPhotos 0
        (photo_loop E snap delIds exCaps raws 0 0 (updateEntryRow db E ED T B ts) []).1
        ⟨(photo_loop E snap delIds exCaps raws 0 0
          (updateEntryRow db E ED T B ts) []).2.1, fs, [], k⟩
    constructor
    · intro p hp
      rw [sFs p]
      exact Or.inl hp
    · intro p hp
      rw [sSaved] at hp
      simp only [List.nil_append] at hp
      rcases List.mem_map.mp hp with ⟨r, hr, rfl⟩
      exact sNE r hr
  · unfold edit_attempt
    dsimp only
    rw [hstep]
    dsimp only
    obtain ⟨s1, s2, newRows, sA, sK, sSort, sLe, sSaved, sFs, sNE⟩ :=
      store_new_photos_spec tok E ED newCaps ts newPhotos 0
        (photo_loop E snap delIds exCaps raws 0 0
          (updateNotebookRow (updateEntryRow db E ED T B ts) nb.id path NC ts)
          [nb.file_path]).1
        ⟨(photo_loop E snap delIds exCaps raws 0 0
          (updateNotebookRow (updateEntryRow db E ED T B ts) nb.id path NC ts)
          [nb.file_path]).2.1, fs1, [path], k1⟩
    constructor
    · intro p hp
      rw [sFs p]
      exact Or.inl ((hfsiff p).mpr (Or.inl hp))
    · intro p hp
      rw [sSaved] at hp
      rcases List.mem_append.mp hp with hp | hp
      · rcases List.mem_singleton.mp hp with rfl
        exact hpne
      · rcases List.mem_map.mp hp with ⟨r, hr, rfl⟩
        exact sNE r hr
  · unfold edit_attempt
    dsimp only
    rw [hstep]
    dsimp only
    obtain ⟨s1, s2, newRows, sA, sK, sSort, sLe, sSaved, sFs, sNE⟩ :=
      store_new_photos_spec tok E ED newCaps ts newPhotos 0
        (photo_loop E snap delIds exCaps raws 0 0
          (insertAssetRow (updateEntryRow db E ED T B ts) E .notebook_page path NC 0 ts)
          []).1
        ⟨(photo_loop E snap delIds exCaps raws 0 0
          (insertAssetRow (updateEntryRow db E ED T B ts) E .notebook_page path NC 0 ts)
          []).2.1, fs1, [path], k1⟩
    constructor
    · intro p hp
      rw [sFs p]
      exact Or.inl ((hfsiff p).mpr (Or.inl hp))
    · intro p hp
      rw [sSaved] at hp
      rcases List.mem_append.mp hp with hp | hp
      · rcases List.mem_singleton.mp hp with rfl
        exact hpne
      · rcases List.mem_map.mp hp with ⟨r, hr, rfl⟩
        exact sNE r hr

/-- C3: whenever `admin_edit` fails with a caught error (validation or
unexpected), the committed database is unchanged — the entry keeps its prior
persisted rows — and the only files removed from the pre-request filesystem
are ones saved during this very attempt; every file saved during the attempt
is deleted. Pre-existing files, including those merely queued for post-commit
removal, survive. -/
theorem admin_edit_failure_rollback (tok : Nat → String) (today : Date) (ts : String)
    (E : Nat) (form : EditForm) (db : DB) (fs : FS)
    (h : (admin_edit tok today ts E form db fs).result.isErr = true) :
    (admin_edit tok today ts E form db fs).db = db ∧
    (∀ p ∈ (admin_edit tok today ts E form db fs).saved_attempt,
      p ∉ (admin_edit tok today ts E form db fs).fs.files) ∧
    (∀ p ∈ fs.files, p ∉ (admin_edit tok today ts E form db fs).fs.files →
      p ∈ (admin_edit tok today ts E form db fs).saved_attempt) := by
  by_cases hif : (db.entries.find? (fun e => decide (e.id = E))).isNone = true
  · have hout : admin_edit tok today ts E form db fs =
        ⟨.notFound, db, fs, [], []⟩ := by
      simp [admin_edit, hif]
    rw [hout]
    refine ⟨rfl, ?_, ?_⟩
    · intro p hp
      simp at hp
    · intro p hp hnp
      exact absurd hp hnp
  · rcases hnd : normalized_entry_date today form.entry_date with u | ed
    · have hout : admin_edit tok today ts E form db fs =
          ⟨.validationError "Entry date must be in YYYY-MM-DD format.", db, fs,
            ["Entry date must be in YYYY-MM-DD format."], []⟩ := by
        simp [admin_edit, hif, hnd]
      rw [hout]
      refine ⟨rfl, ?_, ?_⟩
      · intro p hp
        simp at hp
      · intro p hp hnp
        exact absurd hp hnp
    · rcases her : edit_attempt tok E ed (pyStrip form.title) (pyStrip form.body_markdown)
          (pyStrip form.notebook_caption) form.notebook_page (selectNotebook db E)
          (selectPhotos db E) form.existing_photo_delete form.existing_photo_id
          form.existing_photo_caption form.new_photos form.new_photo_caption ts db fs 0
        with ⟨err, db1, fs1, saved, toRemove, k1⟩
      obtain ⟨hmono, hne⟩ := edit_attempt_fs_mono tok E ed (pyStrip form.title)
        (pyStrip form.body_markdown) (pyStrip form.notebook_caption) form.notebook_page
        (selectNotebook db E) (selectPhotos db E) form.existing_photo_delete
        form.existing_photo_id form.existing_photo_caption form.new_photos
        form.new_photo_caption ts db fs 0
      rw [her] at hmono hne
      dsimp only at hmono hne
      cases err with
      | none =>
        have hres : (admin_edit tok today ts E form db fs).result = .updated := by
          simp [admin_edit, hif, hnd, her]
        rw [hres] at h
        simp [RouteResult.isErr] at h
      | some pe =>
        have hdb : (admin_edit tok today ts E form db fs).db = db := by
          cases pe <;> simp [admin_edit, hif, hnd, her]
        have hfs : (admin_edit tok today ts E form db fs).fs = deleteAll saved fs1 := by
          cases pe <;> simp [admin_edit, hif, hnd, her]
        have hsv : (admin_edit tok today ts E form db fs).saved_attempt = saved := by
          cases pe <;> simp [admin_edit, hif, hnd, her]
        refine ⟨hdb, ?_, ?_⟩
        · intro p hp
          rw [hsv] at hp
          rw [hfs, mem_deleteAll]
          rintro ⟨hp1, hp2 | hp2⟩
          · exact hne p hp (by rw [hp2])
          · exact hp2 hp
        · intro p hp hnp
          rw [hsv]
          rw [hfs, mem_deleteAll] at hnp
          by_contra hns
          exact hnp ⟨hmono p hp, Or.inr hns⟩

/-- Witness for C3: editing entry 1 — whose photo is on disk and is marked
for deletion — with one invalid new upload fails validation; the theorem
gives the untouched database, and the queued-for-removal photo file is
still on disk. -/
theorem admin_edit_failure_rollback_witness :
    (admin_edit (fun n => natStr n) ⟨2026, 10, 12⟩ "T1" 1
        { entry_date := some "2024-03-05", title := "T", body_markdown := "B",
          notebook_caption := "", notebook_page := none,
          existing_photo_delete := ["1"], existing_photo_id := ["1"],
          existing_photo_caption := [], new_photos := [⟨"bad.txt", true⟩],
          new_photo_caption := [] }
        ⟨[⟨1, "2024-03-05", "T", "B", "c", "u"⟩],
         [⟨1, 1, .photo, "2024/03/05/photo-x.jpg", "cap", 0, "c"⟩], 2, 2⟩
        ⟨["2024/03/05/photo-x.jpg"], ["2024/03/05"]⟩).db =
      ⟨[⟨1, "2024-03-05", "T", "B", "c", "u"⟩],
       [⟨1, 1, .photo, "2024/03/05/photo-x.jpg", "cap", 0, "c"⟩], 2, 2⟩ ∧
    "2024/03/05/photo-x.jpg" ∈
      (admin_edit (fun n => natStr n) ⟨2026, 10, 12⟩ "T1" 1
        { entry_date := some "2024-03-05", title := "T", body_markdown := "B",
          notebook_caption := "", notebook_page := none,
          existing_photo_delete := ["1"], existing_photo_id := ["1"],
          existing_photo_caption := [], new_photos := [⟨"bad.txt", true⟩],
          new_photo_caption := [] }
        ⟨[⟨1, "2024-03-05", "T", "B", "c", "u"⟩],
         [⟨1, 1, .photo, "2024/03/05/photo-x.jpg", "cap", 0, "c"⟩], 2, 2⟩
        ⟨["2024/03/05/photo-x.jpg"], ["2024/03/05"]⟩).fs.files :=
  ⟨(admin_edit_failure_rollback (fun n => natStr n) ⟨2026, 10, 12⟩ "T1" 1
      { entry_date := some "2024-03-05", title := "T", body_markdown := "B",
        notebook_caption := "", notebook_page := none,
        existing_photo_delete := ["1"], existing_photo_id := ["1"],
        existing_photo_caption := [], new_photos := [⟨"bad.txt", true⟩],
        new_photo_caption := [] }
      ⟨[⟨1, "2024-03-05", "T", "B", "c", "u"⟩],
       [⟨1, 1, .photo, "2024/03/05/photo-x.jpg", "cap", 0, "c"⟩], 2, 2⟩
      ⟨["2024/03/05/photo-x.jpg"], ["2024/03/05"]⟩ (by decide)).1,
   by decide⟩

/-- C9: an update of entry E never modifies or deletes rows of any other
entry — the entries and assets outside E are frame-invariant — and never
touches E's notebook row through the photo list (when no replacement page is
uploaded, the notebook rows for E keep every field but the caption); an E
photo whose id is not among the submitted `existing_photo_id` values survives
unchanged, whatever ids the client submits. -/
theorem admin_edit_foreign_frame (tok : Nat → String) (today : Date) (ts : String)
    (E : Nat) (form : EditForm) (db : DB) (fs : FS)
    (hwf : (db.assets.map (fun a => a.id)).Nodup) :
    ((admin_edit tok today ts E form db fs).db.entries.filter
        (fun e => !decide (e.id = E))
      = db.entries.filter (fun e => !decide (e.id = E))) ∧
    ((admin_edit tok today ts E form db fs).db.assets.filter
        (fun a => !decide (a.entry_id = E))
      = db.assets.filter (fun a => !decide (a.entry_id = E))) ∧
    ((form.notebook_page = none ∨
        (∃ f, form.notebook_page = some f ∧ f.filename = "")) →
      ((admin_edit tok today ts E form db fs).db.assets.filter (fun a =>
          decide (a.entry_id = E ∧ a.kind = AssetKind.notebook_page))).map assetShape
        = (db.assets.filter (fun a =>
          decide (a.entry_id = E ∧ a.kind = AssetKind.notebook_page))).map assetShape) ∧
    (∀ a ∈ db.assets, isPhotoOf E a = true →
      natStr a.id ∉ form.existing_photo_id →
      a ∈ (admin_edit tok today ts E form db fs).db.assets) := by
  by_cases hif : (db.entries.find? (fun e => decide (e.id = E))).isNone = true
  · have hdb : (admin_edit tok today ts E form db fs).db = db := by
      simp [admin_edit, hif]
    rw [hdb]
    exact ⟨rfl, rfl, fun _ => rfl, fun a ha _ _ => ha⟩
  · rcases hnd : normalized_entry_date today form.entry_date with u | ed
    · have hdb : (admin_edit tok today ts E form db fs).db = db := by
        simp [admin_edit, hif, hnd]
      rw [hdb]
      exact ⟨rfl, rfl, fun _ => rfl, fun a ha _ _ => ha⟩
    · rcases her : edit_attempt tok E ed (pyStrip form.title) (pyStrip form.body_markdown)
          (pyStrip form.notebook_caption) form.notebook_page (selectNotebook db E)
          (selectPhotos db E) form.existing_photo_delete form.existing_photo_id
          form.existing_photo_caption form.new_photos form.new_photo_caption ts db fs 0
        with ⟨err, db1, fs1, saved, toRemove, k1⟩
      obtain ⟨sA, sB, sC, sD, sE, sF⟩ := edit_attempt_spec tok E ed (pyStrip form.title)
        (pyStrip form.body_markdown) (pyStrip form.notebook_caption) form.notebook_page
        (selectPhotos db E) form.existing_photo_delete form.existing_photo_id
        form.existing_photo_caption form.new_photos form.new_photo_caption ts db fs 0 hwf
      rw [her] at sC sD sE sF
      dsimp only at sC sD sE sF
      cases err with
      | some pe =>
        have hdb : (admin_edit tok today ts E form db fs).db = db := by
          cases pe <;> simp [admin_edit, hif, hnd, her]
        rw [hdb]
        exact ⟨rfl, rfl, fun _ => rfl, fun a ha _ _ => ha⟩
      | none =>
        have hdb : (admin_edit tok today ts E form db fs).db = db1 := by
          simp [admin_edit, hif, hnd, her]
        rw [hdb]
        refine ⟨?_, sD, sE, fun a ha hp hn => sF a ha hp hn⟩
        rw [sC]
        refine filter_map_fixed_mem _ _ _ ?_ ?_
        · intro e _ hpe
          have : ¬ e.id = E := by
            simpa using hpe
          rw [if_neg this]
        · intro e _
          by_cases hid : e.id = E <;> simp [hid]

/-- Witness for C9: editing entry 1 while submitting entry 2's photo id "2"
(with a delete flag) leaves every asset row outside entry 1 — in particular
entry 2's photo — untouched, and entry 1's own photo, whose id was not
submitted, survives unchanged. -/
theorem admin_edit_foreign_frame_witness :
    ((admin_edit (fun n => natStr n) ⟨2026, 10, 12⟩ "T1" 1
        { entry_date := some "2024-03-05", title := "T", body_markdown := "B",
          notebook_caption := "", notebook_page := none,
          existing_photo_delete := ["2"], existing_photo_id := ["2"],
          existing_photo_caption := [], new_photos := [], new_photo_caption := [] }
        ⟨[⟨1, "2024-03-05", "T", "B", "c", "u"⟩, ⟨2, "2024-03-06", "S", "B2", "c", "u"⟩],
         [⟨1, 1, .photo, "2024/03/05/photo-a.jpg", "", 0, "c"⟩,
          ⟨2, 2, .photo, "2024/03/06/photo-b.jpg", "", 0, "c"⟩], 3, 3⟩
        ⟨["2024/03/05/photo-a.jpg", "2024/03/06/photo-b.jpg"],
         ["2024/03/05", "2024/03/06"]⟩).db.assets.filter
        (fun a => !decide (a.entry_id = 1))
      = [⟨2, 2, .photo, "2024/03/06/photo-b.jpg", "", 0, "c"⟩]) ∧
    (⟨1, 1, .photo, "2024/03/05/photo-a.jpg", "", 0, "c"⟩ : AssetRow) ∈
      (admin_edit (fun n => natStr n) ⟨2026, 10, 12⟩ "T1" 1
        { entry_date := some "2024-03-05", title := "T", body_markdown := "B",
          notebook_caption := "", notebook_page := none,
          existing_photo_delete := ["2"], existing_photo_id := ["2"],
          existing_photo_caption := [], new_photos := [], new_photo_caption := [] }
        ⟨[⟨1, "2024-03-05", "T", "B", "c", "u"⟩, ⟨2, "2024-03-06", "S", "B2", "c", "u"⟩],
         [⟨1, 1, .photo, "2024/03/05/photo-a.jpg", "", 0, "c"⟩,
          ⟨2, 2, .photo, "2024/03/06/photo-b.jpg", "", 0, "c"⟩], 3, 3⟩
        ⟨["2024/03/05/photo-a.jpg", "2024/03/06/photo-b.jpg"],
         ["2024/03/05", "2024/03/06"]⟩).db.assets := by
  obtain ⟨h1, h2, h3, h4⟩ := admin_edit_foreign_frame (fun n => natStr n) ⟨2026, 10, 12⟩
    "T1" 1
    { entry_date := some "2024-03-05", title := "T", body_markdown := "B",
      notebook_caption := "", notebook_page := none,
      existing_photo_delete := ["2"], existing_photo_id := ["2"],
      existing_photo_caption := [], new_photos := [], new_photo_caption := [] }
    ⟨[⟨1, "2024-03-05", "T", "B", "c", "u"⟩, ⟨2, "2024-03-06", "S", "B2", "c", "u"⟩],
     [⟨1, 1, .photo, "2024/03/05/photo-a.jpg", "", 0, "c"⟩,
      ⟨2, 2, .photo, "2024/03/06/photo-b.jpg", "", 0, "c"⟩], 3, 3⟩
    ⟨["2024/03/05/photo-a.jpg", "2024/03/06/photo-b.jpg"],
     ["2024/03/05", "2024/03/06"]⟩ (by decide)
  refine ⟨?_, ?_⟩
  · rw [h2]
    decide
  · exact h4 ⟨1, 1, .photo, "2024/03/05/photo-a.jpg", "", 0, "c"⟩ (by decide)
      (by decide) (by decide)

theorem filter_map_length {α : Type} (p : α → Bool) (f : α → α) (l : List α)
    (h2 : ∀ a ∈ l, p (f a) = p a) :
    ((l.map f).filter p).length = (l.filter p).length := by
  induction l with
  | nil => rfl
  | cons a l ih =>
    simp only [List.map_cons, List.filter_cons]
    rw [h2 a (List.mem_cons_self a l)]
    cases hpa : p a with
    | true => simp [ih (fun b hb => h2 b (List.mem_cons_of_mem a hb))]
    | false => exact ih fun b hb => h2 b (List.mem_cons_of_mem a hb)

theorem edit_attempt_nbcount (tok : Nat → String) (E : Nat) (ED T B NC : String)
    (nbFile : Option FileStorage) (snap : List AssetRow)
    (delIds raws exCaps : List String) (newPhotos : List FileStorage)
    (newCaps : List String) (ts : String) (db : DB) (fs : FS) (k : Nat) :
    ((edit_attempt tok E ED T B NC nbFile (selectNotebook db E) snap delIds raws
        exCaps newPhotos newCaps ts db fs k).2.1.assets.filter (fun a =>
          decide (a.entry_id = E ∧ a.kind = AssetKind.notebook_page))).length
      ≤ max 1 ((db.assets.filter (fun a =>
          decide (a.entry_id = E ∧ a.kind = AssetKind.notebook_page))).length) := by
  rcases edit_notebook_step_cases tok E ED NC nbFile (selectNotebook db E) ts
      (updateEntryRow db E ED T B ts) fs k with
    ⟨e, fs1, k1, hstep, hfiles⟩ | ⟨nb, hnb, hstep, hno⟩ | ⟨hnb, hstep, hno⟩ |
    ⟨nb, path, fs1, k1, f, hnb, hfarg, hfne, hstep, hfsiff, hpne⟩ |
    ⟨path, fs1, k1, f, hnb, hfarg, hfne, hstep, hfsiff, hpne⟩
  · unfold edit_attempt
    dsimp only
    rw [hstep]
    dsimp only
    exact le_max_right 1 _
  · unfold edit_attempt
    dsimp only
    rw [hstep]
    dsimp only
    obtain ⟨nP, t1, t2, t3, t4, t5, t6, t7⟩ :=
      edit_tail_spec tok E ED snap delIds raws exCaps newPhotos newCaps ts
        (updateAssetCaption (updateEntryRow db E ED T B ts) nb.id NC) fs [] [] k
    have hlen1 := congrArg List.length t3
    simp only [List.length_map] at hlen1
    rw [hlen1]
    have hlen2 : (((updateAssetCaption (updateEntryRow db E ED T B ts) nb.id
          NC).assets).filter (fun a =>
            decide (a.entry_id = E ∧ a.kind = AssetKind.notebook_page))).length
        = ((db.assets).filter (fun a =>
            decide (a.entry_id = E ∧ a.kind = AssetKind.notebook_page))).length := by
      refine filter_map_length _ _ _ ?_
      intro a _
      by_cases hid : a.id = nb.id <;> simp [hid]
    rw [hlen2]
    exact le_max_right 1 _
  · unfold edit_attempt
    dsimp only
    rw [hstep]
    dsimp only
    obtain ⟨nP, t1, t2, t3, t4, t5, t6, t7⟩ :=
      edit_tail_spec tok E ED snap delIds raws exCaps newPhotos newCaps ts
        (updateEntryRow db E ED T B ts) fs [] [] k
    have hlen1 := congrArg List.length t3
    simp only [List.length_map] at hlen1
    rw [hlen1]
    exact le_max_right 1 _
  · unfold edit_attempt
    dsimp only
    rw [hstep]
    dsimp only
    obtain ⟨nP, t1, t2, t3, t4, t5, t6, t7⟩ :=
      edit_tail_spec tok E ED snap delIds raws exCaps newPhotos newCaps ts
        (updateNotebookRow (updateEntryRow db E ED T B ts) nb.id path NC ts) fs1
        [path] [nb.file_path] k1
    have hlen1 := congrArg List.length t3
    simp only [List.length_map] at hlen1
    rw [hlen1]
    have hlen2 : (((updateNotebookRow (updateEntryRow db E ED T B ts) nb.id path NC
          ts).assets).filter (fun a =>
            decide (a.entry_id = E ∧ a.kind = AssetKind.notebook_page))).length
        = ((db.assets).filter (fun a =>
            decide (a.entry_id = E ∧ a.kind = AssetKind.notebook_page))).length := by
      refine filter_map_length _ _ _ ?_
      intro a _
      by_cases hid : a.id = nb.id <;> simp [hid]
    rw [hlen2]
    exact le_max_right 1 _
  · unfold edit_attempt
    dsimp only
    rw [hstep]
    dsimp only
    obtain ⟨nP, t1, t2, t3, t4, t5, t6, t7⟩ :=
      edit_tail_spec tok E ED snap delIds raws exCaps newPhotos newCaps ts
        (insertAssetRow (updateEntryRow db E ED T B ts) E .notebook_page path NC 0 ts)
        fs1 [path] [] k1
    have hlen1 := congrArg List.length t3
    simp only [List.length_map] at hlen1
    rw [hlen1]
    have hempty := selectNotebook_none db E hnb
    have hfilter : (((insertAssetRow (updateEntryRow db E ED T B ts) E .notebook_page
          path NC 0 ts).assets).filter (fun a =>
            decide (a.entry_id = E ∧ a.kind = AssetKind.notebook_page))).length
        = (db.assets.filter (fun a =>
            decide (a.entry_id = E ∧ a.kind = AssetKind.notebook_page))).length + 1 := by
      simp [insertAssetRow, updateEntryRow, List.filter_append]
    rw [hfilter, hempty]
    simp

/-- C4: all three write workflows preserve the data-model invariant that
every entry has at most one notebook_page asset row — creation inserts at
most one, an edit either updates the existing notebook row in place or
inserts one only when none exists, and deletion only removes rows —
assuming unique asset row ids and asset entry ids below the entry rowid
counter (both SQLite rowid facts). -/
theorem workflow_notebook_invariant (tok : Nat → String) (today : Date) (ts : String)
    (formC : CreateForm) (formE : EditForm) (E D : Nat) (db : DB) (fs : FS)
    (hinv : NotebookInvariant db)
    (hwfA : (db.assets.map (fun a => a.id)).Nodup)
    (hfresh : ∀ a ∈ db.assets, a.entry_id < db.nextEntryId) :
    NotebookInvariant (admin_new tok today ts formC db fs).db ∧
    NotebookInvariant (admin_edit tok today ts E formE db fs).db ∧
    NotebookInvariant (admin_delete D db fs).db := by
  have hcreate : ∀ ED : String, NotebookInvariant
      (create_attempt tok ED (pyStrip formC.title) (pyStrip formC.body_markdown)
        (pyStrip formC.notebook_caption) formC.notebook_page formC.photos
        formC.photo_caption ts db fs 0).2.2.1 := by
    intro ED
    obtain ⟨h1, h2, ⟨nbRows, photoRows, hA, hK, hL, hP, hS⟩, h4, h5⟩ :=
      create_attempt_spec tok ED (pyStrip formC.title) (pyStrip formC.body_markdown)
        (pyStrip formC.notebook_caption) formC.notebook_page formC.photos
        formC.photo_caption ts db fs 0
    intro eid
    unfold notebookCount
    rw [hA, List.filter_append, List.filter_append, List.length_append,
      List.length_append]
    have hphoto : (photoRows.filter (fun a =>
        decide (a.entry_id = eid ∧ a.kind = AssetKind.notebook_page))).length = 0 := by
      have hnil : photoRows.filter (fun a =>
          decide (a.entry_id = eid ∧ a.kind = AssetKind.notebook_page)) = [] := by
        refine List.filter_eq_nil_iff.mpr ?_
        intro a ha
        have hk := (hP a ha).2
        simp [hk]
      rw [hnil]
      rfl
    by_cases heq : eid = db.nextEntryId
    · subst heq
      have hdbzero : (db.assets.filter (fun a =>
          decide (a.entry_id = db.nextEntryId ∧ a.kind = AssetKind.notebook_page))) = [] := by
        refine List.filter_eq_nil_iff.mpr ?_
        intro a ha
        have hlt := hfresh a ha
        simp only [decide_eq_true_eq, not_and]
        intro h1
        omega
      have hnb : (nbRows.filter (fun a =>
          decide (a.entry_id = db.nextEntryId ∧ a.kind = AssetKind.notebook_page))).length
          ≤ 1 :=
        le_trans (List.length_filter_le _ _) hL
      rw [hdbzero]
      simp only [List.length_nil, Nat.zero_add, hphoto, Nat.add_zero]
      exact hnb
    · have hnbzero : (nbRows.filter (fun a =>
          decide (a.entry_id = eid ∧ a.kind = AssetKind.notebook_page))) = [] := by
        refine List.filter_eq_nil_iff.mpr ?_
        intro a ha
        have h1 := (hK a ha).1
        simp only [decide_eq_true_eq, not_and]
        intro h2
        exact absurd (h2 ▸ h1) heq
      rw [hnbzero]
      simp only [List.length_nil, Nat.add_zero, hphoto]
      exact hinv eid
  refine ⟨?_, ?_, ?_⟩
  · -- admin_new
    cases hnd : normalized_entry_date today formC.entry_date with
    | error u =>
      rcases hcr : create_attempt tok today.iso (pyStrip formC.title)
          (pyStrip formC.body_markdown) (pyStrip formC.notebook_caption)
          formC.notebook_page formC.photos formC.photo_caption ts db fs 0
        with ⟨err, eid0, db1, fs1, saved, k1⟩
      have hc := hcreate today.iso
      rw [hcr] at hc
      cases err with
      | none =>
        have hdb : (admin_new tok today ts formC db fs).db = db1 := by
          simp [admin_new, hnd, hcr]
        rw [hdb]
        exact hc
      | some pe =>
        have hdb : (admin_new tok today ts formC db fs).db = db := by
          cases pe <;> simp [admin_new, hnd, hcr]
        rw [hdb]
        exact hinv
    | ok d =>
      rcases hcr : create_attempt tok d (pyStrip formC.title)
          (pyStrip formC.body_markdown) (pyStrip formC.notebook_caption)
          formC.notebook_page formC.photos formC.photo_caption ts db fs 0
        with ⟨err, eid0, db1, fs1, saved, k1⟩
      have hc := hcreate d
      rw [hcr] at hc
      cases err with
      | none =>
        have hdb : (admin_new tok today ts formC db fs).db = db1 := by
          simp [admin_new, hnd, hcr]
        rw [hdb]
        exact hc
      | some pe =>
        have hdb : (admin_new tok today ts formC db fs).db = db := by
          cases pe <;> simp [admin_new, hnd, hcr]
        rw [hdb]
        exact hinv
  · -- admin_edit
    by_cases hif : (db.entries.find? (fun e => decide (e.id = E))).isNone = true
    · have hdb : (admin_edit tok today ts E formE db fs).db = db := by
        simp [admin_edit, hif]
      rw [hdb]
      exact hinv
    · rcases hnd : normalized_entry_date today formE.entry_date with u | ed
      · have hdb : (admin_edit tok today ts E formE db fs).db = db := by
          simp [admin_edit, hif, hnd]
        rw [hdb]
        exact hinv
      · rcases her : edit_attempt tok E ed (pyStrip formE.title)
            (pyStrip formE.body_markdown) (pyStrip formE.notebook_caption)
            formE.notebook_page (selectNotebook db E) (selectPhotos db E)
            formE.existing_photo_delete formE.existing_photo_id
            formE.existing_photo_caption formE.new_photos formE.new_photo_caption
            ts db fs 0
          with ⟨err, db1, fs1, saved, toRemove, k1⟩
        obtain ⟨sA, sB, sC, sD, sE, sF⟩ := edit_attempt_spec tok E ed
          (pyStrip formE.title) (pyStrip formE.body_markdown)
          (pyStrip formE.notebook_caption) formE.notebook_page (selectPhotos db E)
          formE.existing_photo_delete formE.existing_photo_id
          formE.existing_photo_caption formE.new_photos formE.new_photo_caption
          ts db fs 0 hwfA
        have hcount := edit_attempt_nbcount tok E ed (pyStrip formE.title)
          (pyStrip formE.body_markdown) (pyStrip formE.notebook_caption)
          formE.notebook_page (selectPhotos db E) formE.existing_photo_delete
          formE.existing_photo_id formE.existing_photo_caption formE.new_photos
          formE.new_photo_caption ts db fs 0
        rw [her] at sD hcount
        dsimp only at sD hcount
        cases err with
        | some pe =>
          have hdb : (admin_edit tok today ts E formE db fs).db = db := by
            cases pe <;> simp [admin_edit, hif, hnd, her]
          rw [hdb]
          exact hinv
        | none =>
          have hdb : (admin_edit tok today ts E formE db fs).db = db1 := by
            simp [admin_edit, hif, hnd, her]
          rw [hdb]
          intro eid
          unfold notebookCount
          by_cases heq : eid = E
          · subst heq
            exact le_trans hcount (max_le le_rfl (hinv eid))
          · have hpq : ∀ l : List AssetRow,
                l.filter (fun a =>
                  decide (a.entry_id = eid ∧ a.kind = AssetKind.notebook_page))
                = (l.filter (fun a => !decide (a.entry_id = E))).filter (fun a =>
                    decide (a.entry_id = eid ∧ a.kind = AssetKind.notebook_page)) := by
              intro l
              rw [List.filter_filter]
              refine (List.filter_congr ?_).symm
              intro a _
              by_cases h1 : a.entry_id = eid ∧ a.kind = AssetKind.notebook_page
              · have h2 : ¬ a.entry_id = E := by
                  rw [h1.1]
                  exact heq
                simp [h1, h2]
                exact heq
              · simp [h1]
            rw [hpq db1.assets, sD, ← hpq db.assets]
            exact hinv eid
  · -- admin_delete
    by_cases hif : (db.entries.find? (fun e => decide (e.id = D))).isNone = true
    · have hdb : (admin_delete D db fs).db = db := by
        simp [admin_delete, hif]
      rw [hdb]
      exact hinv
    · have hdb : (admin_delete D db fs).db.assets
          = db.assets.filter (fun a => decide (¬ a.entry_id = D)) := by
        simp [admin_delete, hif]
      intro eid
      unfold notebookCount
      rw [hdb]
      refine le_trans ?_ (hinv eid)
      exact ((List.filter_sublist db.assets).filter _).length_le

/-- Witness for C4: starting from an entry that already owns one notebook
page, creating a second entry with its own notebook upload, replacing the
first entry's notebook page, and deleting the first entry each leave every
entry with at most one notebook_page row. -/
theorem workflow_notebook_invariant_witness :
    NotebookInvariant (admin_new (fun n => natStr n) ⟨2026, 10, 12⟩ "T1"
      { entry_date := some "2024-03-06", title := "S", body_markdown := "B2",
        notebook_caption := "nc", notebook_page := some ⟨"nb.png", true⟩,
        photos := [], photo_caption := [] }
      ⟨[⟨1, "2024-03-05", "T", "B", "c", "u"⟩],
       [⟨1, 1, .notebook_page, "2024/03/05/notebook-a.jpg", "", 0, "c"⟩], 2, 2⟩
      ⟨["2024/03/05/notebook-a.jpg"], ["2024/03/05"]⟩).db ∧
    NotebookInvariant (admin_edit (fun n => natStr n) ⟨2026, 10, 12⟩ "T1" 1
      { entry_date := some "2024-03-05", title := "T", body_markdown := "B",
        notebook_caption := "nc2", notebook_page := some ⟨"new.png", true⟩,
        existing_photo_delete := [], existing_photo_id := [],
        existing_photo_caption := [], new_photos := [], new_photo_caption := [] }
      ⟨[⟨1, "2024-03-05", "T", "B", "c", "u"⟩],
       [⟨1, 1, .notebook_page, "2024/03/05/notebook-a.jpg", "", 0, "c"⟩], 2, 2⟩
      ⟨["2024/03/05/notebook-a.jpg"], ["2024/03/05"]⟩).db ∧
    NotebookInvariant (admin_delete 1
      ⟨[⟨1, "2024-03-05", "T", "B", "c", "u"⟩],
       [⟨1, 1, .notebook_page, "2024/03/05/notebook-a.jpg", "", 0, "c"⟩], 2, 2⟩
      ⟨["2024/03/05/notebook-a.jpg"], ["2024/03/05"]⟩).db := by
  refine workflow_notebook_invariant (fun n => natStr n) ⟨2026, 10, 12⟩ "T1"
    { entry_date := some "2024-03-06", title := "S", body_markdown := "B2",
      notebook_caption := "nc", notebook_page := some ⟨"nb.png", true⟩,
      photos := [], photo_caption := [] }
    { entry_date := some "2024-03-05", title := "T", body_markdown := "B",
      notebook_caption := "nc2", notebook_page := some ⟨"new.png", true⟩,
      existing_photo_delete := [], existing_photo_id := [],
      existing_photo_caption := [], new_photos := [], new_photo_caption := [] }
    1 1
    ⟨[⟨1, "2024-03-05", "T", "B", "c", "u"⟩],
     [⟨1, 1, .notebook_page, "2024/03/05/notebook-a.jpg", "", 0, "c"⟩], 2, 2⟩
    ⟨["2024/03/05/notebook-a.jpg"], ["2024/03/05"]⟩
    (fun eid => List.length_filter_le _ _) (by decide) (by decide)

theorem filter_map_comm {α : Type} (p : α → Bool) (f : α → α) (l : List α)
    (h : ∀ a, p (f a) = p a) :
    (l.map f).filter p = (l.filter p).map f := by
  induction l with
  | nil => rfl
  | cons a l ih =>
    simp only [List.map_cons, List.filter_cons]
    rw [h a]
    cases hpa : p a with
    | true => simp [ih]
    | false => exact ih

theorem find_snap_self (snap : List AssetRow)
    (hsnap : (snap.map (fun r => r.id)).Nodup) (r0 : AssetRow) (h : r0 ∈ snap) :
    snap.find? (fun r => decide (natStr r.id = natStr r0.id)) = some r0 := by
  induction snap with
  | nil => cases h
  | cons s rest ih =>
    simp only [List.map_cons, List.nodup_cons] at hsnap
    by_cases hd : natStr s.id = natStr r0.id
    · rw [List.find?_cons_of_pos _ (by simpa using hd)]
      have hid : s.id = r0.id := natStr_injective hd
      rcases List.mem_cons.mp h with rfl | hmem
      · rfl
      · exact absurd (hid ▸ List.mem_map_of_mem (fun r => r.id) hmem) hsnap.1
    · rw [List.find?_cons_of_neg _ (by simpa using hd)]
      rcases List.mem_cons.mp h with rfl | hmem
      · exact absurd rfl hd
      · exact ih hsnap.2 hmem


theorem map_fixed_eq {α : Type} (f : α → α) (l : List α) (h : ∀ a ∈ l, f a = a) :
    l.map f = l := by
  induction l with
  | nil => rfl
  | cons a l ih =>
    rw [List.map_cons, h a (List.mem_cons_self a l),
      ih (fun b hb => h b (List.mem_cons_of_mem a hb))]

theorem photo_loop_dense (E : Nat) (snap : List AssetRow) (delIds caps : List String)
    (hsnap : (snap.map (fun r => r.id)).Nodup) :
    ∀ (pend : List AssetRow) (idx si : Nat) (db : DB) (toRemove : List String)
      (done : List AssetRow),
      (∀ r ∈ pend, r ∈ snap) →
      ((db.assets.map (fun a => a.id)).Nodup) →
      (((done ++ pend).map (fun a => a.id)).Nodup) →
      ((db.assets.filter (isPhotoOf E)).Perm (done ++ pend)) →
      ((done.map (fun a => a.sort_index)).Perm (List.range si)) →
      ((((photo_loop E snap delIds caps (pend.map (fun r => natStr r.id)) idx si db
          toRemove).2.1).assets.filter (isPhotoOf E)).map (fun a => a.sort_index)).Perm
        (List.range (photo_loop E snap delIds caps (pend.map (fun r => natStr r.id))
          idx si db toRemove).1) := by
  intro pend
  induction pend with
  | nil =>
    intro idx si db toRemove done hsub hdb hdn hperm hsort
    simp only [List.map_nil, photo_loop]
    rw [List.append_nil] at hperm
    exact (hperm.map _).trans hsort
  | cons r0 prest ih =>
    intro idx si db toRemove done hsub hdb hdn hperm hsort
    have hfind := find_snap_self snap hsnap r0 (hsub r0 (List.mem_cons_self r0 prest))
    have hp0 : isPhotoOf E r0 = true := by
      have hmem : r0 ∈ done ++ r0 :: prest :=
        List.mem_append_right done (List.mem_cons_self r0 prest)
      have hin : r0 ∈ db.assets.filter (isPhotoOf E) := (hperm.mem_iff).mpr hmem
      exact (List.mem_filter.mp hin).2
    have hp0' : r0.entry_id = E ∧ r0.kind = AssetKind.photo := by
      simpa [isPhotoOf] using hp0
    have hdnmap : ((done.map fun a => a.id) ++
        (r0.id :: prest.map fun a => a.id)).Nodup := by
      simpa using hdn
    have hdisj := List.disjoint_of_nodup_append hdnmap
    have hconsnd : (r0.id :: prest.map fun a => a.id).Nodup :=
      hdnmap.of_append_right
    have hdone_ne : ∀ a ∈ done, a.id ≠ r0.id := by
      intro a ha hid
      exact hdisj (List.mem_map_of_mem (fun a => a.id) ha)
        (by rw [hid]; exact List.mem_cons_self _ _)
    have hprest_ne : ∀ a ∈ prest, a.id ≠ r0.id := by
      intro a ha hid
      exact (List.nodup_cons.mp hconsnd).1
        (hid ▸ List.mem_map_of_mem (fun a => a.id) ha)
    by_cases hdel : natStr r0.id ∈ delIds
    · have heq : photo_loop E snap delIds caps
          ((r0 :: prest).map fun r => natStr r.id) idx si db toRemove
          = photo_loop E snap delIds caps (prest.map fun r => natStr r.id) (idx + 1) si
              (deletePhotoRow db r0.id E) (toRemove ++ [r0.file_path]) := by
        simp [photo_loop, hfind, hdel]
      rw [heq]
      refine ih (idx + 1) si (deletePhotoRow db r0.id E) (toRemove ++ [r0.file_path])
        done (fun r hr => hsub r (List.mem_cons_of_mem r0 hr)) ?_ ?_ ?_ hsort
      · exact hdb.sublist ((List.filter_sublist _).map _)
      · exact hdn.sublist
          (((List.sublist_cons_self r0 prest).append_left done).map (fun a => a.id))
      · have hstep : (deletePhotoRow db r0.id E).assets.filter (isPhotoOf E)
            = (db.assets.filter (isPhotoOf E)).filter
                (fun a => decide (¬ a.id = r0.id)) := by
          show (db.assets.filter _).filter _ = _
          rw [List.filter_filter, List.filter_filter]
          refine List.filter_congr ?_
          intro a _
          by_cases hpa : a.entry_id = E ∧ a.kind = AssetKind.photo
          · by_cases hid : a.id = r0.id <;> simp [isPhotoOf, hpa, hid]
          · simp [isPhotoOf, hpa]
        rw [hstep]
        refine (hperm.filter _).trans ?_
        rw [List.filter_append, List.filter_cons]
        have hr0false : (decide (¬ r0.id = r0.id)) = false := by simp
        rw [hr0false]
        have hdonef : done.filter (fun a => decide (¬ a.id = r0.id)) = done := by
          refine List.filter_eq_self.mpr ?_
          intro a ha
          simpa using hdone_ne a ha
        have hprestf : prest.filter (fun a => decide (¬ a.id = r0.id)) = prest := by
          refine List.filter_eq_self.mpr ?_
          intro a ha
          simpa using hprest_ne a ha
        rw [hdonef, hprestf]
        simp
    · have heq : photo_loop E snap delIds caps
          ((r0 :: prest).map fun r => natStr r.id) idx si db toRemove
          = photo_loop E snap delIds caps (prest.map fun r => natStr r.id) (idx + 1)
              (si + 1)
              (updatePhotoRow db r0.id E (pyStrip (caps.getD idx "")) si) toRemove := by
        simp [photo_loop, hfind, hdel]
      rw [heq]
      have hfixdone : ∀ a ∈ done,
          (if a.id = r0.id ∧ a.entry_id = E ∧ a.kind = AssetKind.photo
            then { a with caption := pyStrip (caps.getD idx ""), sort_index := si }
            else a) = a := by
        intro a ha
        exact if_neg (fun hc => hdone_ne a ha hc.1)
      have hfixprest : ∀ a ∈ prest,
          (if a.id = r0.id ∧ a.entry_id = E ∧ a.kind = AssetKind.photo
            then { a with caption := pyStrip (caps.getD idx ""), sort_index := si }
            else a) = a := by
        intro a ha
        exact if_neg (fun hc => hprest_ne a ha hc.1)
      refine ih (idx + 1) (si + 1)
        (updatePhotoRow db r0.id E (pyStrip (caps.getD idx "")) si) toRemove
        (done ++ [{ r0 with caption := pyStrip (caps.getD idx ""), sort_index := si }])
        (fun r hr => hsub r (List.mem_cons_of_mem r0 hr)) ?_ ?_ ?_ ?_
      · show ((db.assets.map (fun a =>
            if a.id = r0.id ∧ a.entry_id = E ∧ a.kind = AssetKind.photo
              then { a with caption := pyStrip (caps.getD idx ""), sort_index := si }
              else a)).map (fun a => a.id)).Nodup
        rw [List.map_map]
        have hids : db.assets.map ((fun a => a.id) ∘ (fun a =>
            if a.id = r0.id ∧ a.entry_id = E ∧ a.kind = AssetKind.photo
              then { a with caption := pyStrip (caps.getD idx ""), sort_index := si }
              else a)) = db.assets.map (fun a => a.id) := by
          refine List.map_congr_left ?_
          intro a _
          show (if a.id = r0.id ∧ a.entry_id = E ∧ a.kind = AssetKind.photo
              then { a with caption := pyStrip (caps.getD idx ""), sort_index := si }
              else a).id = a.id
          by_cases hc : a.id = r0.id ∧ a.entry_id = E ∧ a.kind = AssetKind.photo <;>
            simp [hc]
        rw [hids]
        exact hdb
      · simpa using hdn
      · have hcm : (updatePhotoRow db r0.id E (pyStrip (caps.getD idx ""))
              si).assets.filter (isPhotoOf E)
            = (db.assets.filter (isPhotoOf E)).map (fun a =>
                if a.id = r0.id ∧ a.entry_id = E ∧ a.kind = AssetKind.photo
                  then { a with caption := pyStrip (caps.getD idx ""), sort_index := si }
                  else a) := by
          show (db.assets.map _).filter _ = _
          refine filter_map_comm _ _ _ ?_
          intro a
          by_cases hc : a.id = r0.id ∧ a.entry_id = E ∧ a.kind = AssetKind.photo <;>
            simp [isPhotoOf, hc]
        rw [hcm]
        refine (hperm.map _).trans ?_
        rw [List.map_append, List.map_cons, map_fixed_eq _ _ hfixdone,
          map_fixed_eq _ _ hfixprest,
          if_pos ⟨rfl, hp0'⟩, List.append_assoc, List.singleton_append]
      · rw [List.map_append, List.range_succ]
        exact hsort.append_right [si]

theorem loop_store_dense (tok : Nat → String) (E : Nat) (ED : String)
    (snap : List AssetRow) (delIds exCaps : List String)
    (newPhotos : List FileStorage) (newCaps : List String) (ts : String)
    (db2 : DB) (fs2 : FS) (saved toR0 : List String) (k2 : Nat)
    (hsnap : (snap.map (fun a => a.id)).Nodup)
    (hdb2 : (db2.assets.map (fun a => a.id)).Nodup)
    (hperm : (db2.assets.filter (isPhotoOf E)).Perm snap) :
    (((store_new_photos tok E ED newCaps ts newPhotos 0
        (photo_loop E snap delIds exCaps (snap.map (fun r => natStr r.id)) 0 0 db2
          toR0).1
        ⟨(photo_loop E snap delIds exCaps (snap.map (fun r => natStr r.id)) 0 0 db2
          toR0).2.1, fs2, saved, k2⟩).2.2.db.assets.filter (isPhotoOf E)).map
          (fun a => a.sort_index)).Perm
      (List.range ((store_new_photos tok E ED newCaps ts newPhotos 0
        (photo_loop E snap delIds exCaps (snap.map (fun r => natStr r.id)) 0 0 db2
          toR0).1
        ⟨(photo_loop E snap delIds exCaps (snap.map (fun r => natStr r.id)) 0 0 db2
          toR0).2.1, fs2, saved, k2⟩).2.2.db.assets.filter (isPhotoOf E)).length) := by
  have hloop := photo_loop_dense E snap delIds exCaps hsnap snap 0 0 db2 toR0 []
    (fun r hr => hr) hdb2 (by simpa using hsnap) (by simpa using hperm) (by simp)
  obtain ⟨s1, s2, newRows, sA, sK, sSort, sLe, sSaved, sFs, sNE⟩ :=
    store_new_photos_spec tok E ED newCaps ts newPhotos 0
      (photo_loop E snap delIds exCaps (snap.map (fun r => natStr r.id)) 0 0 db2 toR0).1
      ⟨(photo_loop E snap delIds exCaps (snap.map (fun r => natStr r.id)) 0 0 db2
        toR0).2.1, fs2, saved, k2⟩
  rw [sA, List.filter_append, List.map_append, List.length_append]
  have hnewf : newRows.filter (isPhotoOf E) = newRows := by
    refine List.filter_eq_self.mpr ?_
    intro r hr
    simp [isPhotoOf, (sK r hr).1, (sK r hr).2]
  rw [hnewf]
  have hlen1 : ((photo_loop E snap delIds exCaps (snap.map (fun r => natStr r.id)) 0 0
      db2 toR0).2.1.assets.filter (isPhotoOf E)).length
      = (photo_loop E snap delIds exCaps (snap.map (fun r => natStr r.id)) 0 0 db2
        toR0).1 := by
    have := hloop.length_eq
    simpa using this
  have hlen2 : newRows.length
      = (store_new_photos tok E ED newCaps ts newPhotos 0
        (photo_loop E snap delIds exCaps (snap.map (fun r => natStr r.id)) 0 0 db2
          toR0).1
        ⟨(photo_loop E snap delIds exCaps (snap.map (fun r => natStr r.id)) 0 0 db2
          toR0).2.1, fs2, saved, k2⟩).2.1
        - (photo_loop E snap delIds exCaps (snap.map (fun r => natStr r.id)) 0 0 db2
          toR0).1 := by
    have := congrArg List.length sSort
    simpa using this
  rw [hlen1, hlen2, sSort]
  have hsplit : List.range ((photo_loop E snap delIds exCaps
        (snap.map (fun r => natStr r.id)) 0 0 db2 toR0).1
      + ((store_new_photos tok E ED newCaps ts newPhotos 0
        (photo_loop E snap delIds exCaps (snap.map (fun r => natStr r.id)) 0 0 db2
          toR0).1
        ⟨(photo_loop E snap delIds exCaps (snap.map (fun r => natStr r.id)) 0 0 db2
          toR0).2.1, fs2, saved, k2⟩).2.1
        - (photo_loop E snap delIds exCaps (snap.map (fun r => natStr r.id)) 0 0 db2
          toR0).1))
      = List.range (photo_loop E snap delIds exCaps (snap.map (fun r => natStr r.id))
          0 0 db2 toR0).1
        ++ List.range' (photo_loop E snap delIds exCaps
            (snap.map (fun r => natStr r.id)) 0 0 db2 toR0).1
          ((store_new_photos tok E ED newCaps ts newPhotos 0
            (photo_loop E snap delIds exCaps (snap.map (fun r => natStr r.id)) 0 0 db2
              toR0).1
            ⟨(photo_loop E snap delIds exCaps (snap.map (fun r => natStr r.id)) 0 0
              db2 toR0).2.1, fs2, saved, k2⟩).2.1
            - (photo_loop E snap delIds exCaps (snap.map (fun r => natStr r.id)) 0 0
              db2 toR0).1) := by
    rw [Nat.add_comm, List.range_eq_range', List.range_eq_range']
    have := List.range'_append 0
      (photo_loop E snap delIds exCaps (snap.map (fun r => natStr r.id)) 0 0 db2
        toR0).1
      ((store_new_photos tok E ED newCaps ts newPhotos 0
        (photo_loop E snap delIds exCaps (snap.map (fun r => natStr r.id)) 0 0 db2
          toR0).1
        ⟨(photo_loop E snap delIds exCaps (snap.map (fun r => natStr r.id)) 0 0 db2
          toR0).2.1, fs2, saved, k2⟩).2.1
        - (photo_loop E snap delIds exCaps (snap.map (fun r => natStr r.id)) 0 0 db2
          toR0).1) 1
    simpa using this.symm
  rw [hsplit]
  exact hloop.append_right _

theorem edit_attempt_dense (tok : Nat → String) (E : Nat) (ED T B NC : String)
    (nbFile : Option FileStorage) (delIds exCaps : List String)
    (newPhotos : List FileStorage) (newCaps : List String) (ts : String)
    (db : DB) (fs : FS) (k : Nat)
    (hwfA : (db.assets.map (fun a => a.id)).Nodup)
    (hidlt : ∀ a ∈ db.assets, a.id < db.nextAssetId)
    (herr : (edit_attempt tok E ED T B NC nbFile (selectNotebook db E)
        (selectPhotos db E) delIds ((selectPhotos db E).map (fun r => natStr r.id))
        exCaps newPhotos newCaps ts db fs k).1 = none) :
    (((edit_attempt tok E ED T B NC nbFile (selectNotebook db E) (selectPhotos db E)
        delIds ((selectPhotos db E).map (fun r => natStr r.id)) exCaps newPhotos
        newCaps ts db fs k).2.1.assets.filter (isPhotoOf E)).map
          (fun a => a.sort_index)).Perm
      (List.range ((edit_attempt tok E ED T B NC nbFile (selectNotebook db E)
        (selectPhotos db E) delIds ((selectPhotos db E).map (fun r => natStr r.id))
        exCaps newPhotos newCaps ts db fs k).2.1.assets.filter
          (isPhotoOf E)).length) := by
  have hsnap : ((selectPhotos db E).map (fun a => a.id)).Nodup := by
    have hfil : ((db.assets.filter (isPhotoOf E)).map (fun a => a.id)).Nodup :=
      hwfA.sublist ((List.filter_sublist _).map _)
    have hp : (selectPhotos db E).Perm (db.assets.filter (isPhotoOf E)) :=
      List.perm_insertionSort photoLe _
    exact ((hp.map _).nodup_iff).mpr hfil
  have hpermBase : (db.assets.filter (isPhotoOf E)).Perm (selectPhotos db E) :=
    (List.perm_insertionSort photoLe _).symm
  rcases edit_notebook_step_cases tok E ED NC nbFile (selectNotebook db E) ts
      (updateEntryRow db E ED T B ts) fs k with
    ⟨e, fs1, k1, hstep, hfiles⟩ | ⟨nb, hnb, hstep, hno⟩ | ⟨hnb, hstep, hno⟩ |
    ⟨nb, path, fs1, k1, f, hnb, hfarg, hfne, hstep, hfsiff, hpne⟩ |
    ⟨path, fs1, k1, f, hnb, hfarg, hfne, hstep, hfsiff, hpne⟩
  · exfalso
    unfold edit_attempt at herr
    dsimp only at herr
    rw [hstep] at herr
    dsimp only at herr
    cases herr
  · obtain ⟨hnbm, hnbE, hnbK⟩ := selectNotebook_mem db E nb hnb
    unfold edit_attempt
    dsimp only
    rw [hstep]
    dsimp only
    have hdb2 : (((updateAssetCaption (updateEntryRow db E ED T B ts) nb.id
        NC).assets).map (fun a => a.id)).Nodup := by
      show ((db.assets.map (fun a =>
          if a.id = nb.id then { a with caption := NC } else a)).map
            (fun a => a.id)).Nodup
      rw [List.map_map]
      have hids : db.assets.map ((fun a => a.id) ∘ (fun a =>
          if a.id = nb.id then { a with caption := NC } else a))
          = db.assets.map (fun a => a.id) := by
        refine List.map_congr_left ?_
        intro a _
        show (if a.id = nb.id then { a with caption := NC } else a).id = a.id
        by_cases hc : a.id = nb.id <;> simp [hc]
      rw [hids]
      exact hwfA
    have hfilter : ((updateAssetCaption (updateEntryRow db E ED T B ts) nb.id
        NC).assets).filter (isPhotoOf E) = db.assets.filter (isPhotoOf E) := by
      show (db.assets.map _).filter _ = _
      refine filter_map_fixed_mem _ _ _ ?_ ?_
      · intro a ha hpa
        refine if_neg ?_
        intro hid
        have hane : a ≠ nb := by
          intro h
          rw [h] at hpa
          simp [isPhotoOf, hnbK] at hpa
        exact id_ne_of_nodup db.assets hwfA a nb ha hnbm hane hid
      · intro a _
        by_cases hid : a.id = nb.id <;> simp [isPhotoOf, hid]
    exact loop_store_dense tok E ED (selectPhotos db E) delIds exCaps newPhotos
      newCaps ts (updateAssetCaption (updateEntryRow db E ED T B ts) nb.id NC) fs
      [] [] k hsnap hdb2 (hfilter ▸ hpermBase)
  · unfold edit_attempt
    dsimp only
    rw [hstep]
    dsimp only
    exact loop_store_dense tok E ED (selectPhotos db E) delIds exCaps newPhotos
      newCaps ts (updateEntryRow db E ED T B ts) fs [] [] k hsnap hwfA hpermBase
  · obtain ⟨hnbm, hnbE, hnbK⟩ := selectNotebook_mem db E nb hnb
    unfold edit_attempt
    dsimp only
    rw [hstep]
    dsimp only
    have hdb2 : (((updateNotebookRow (updateEntryRow db E ED T B ts) nb.id path NC
        ts).assets).map (fun a => a.id)).Nodup := by
      show ((db.assets.map (fun a =>
          if a.id = nb.id then
            { a with file_path := path, caption := NC, created_at := ts }
          else a)).map (fun a => a.id)).Nodup
      rw [List.map_map]
      have hids : db.assets.map ((fun a => a.id) ∘ (fun a =>
          if a.id = nb.id then
            { a with file_path := path, caption := NC, created_at := ts }
          else a)) = db.assets.map (fun a => a.id) := by
        refine List.map_congr_left ?_
        intro a _
        show (if a.id = nb.id then
            { a with file_path := path, caption := NC, created_at := ts }
          else a).id = a.id
        by_cases hc : a.id = nb.id <;> simp [hc]
      rw [hids]
      exact hwfA
    have hfilter : ((updateNotebookRow (updateEntryRow db E ED T B ts) nb.id path NC
        ts).assets).filter (isPhotoOf E) = db.assets.filter (isPhotoOf E) := by
      show (db.assets.map _).filter _ = _
      refine filter_map_fixed_mem _ _ _ ?_ ?_
      · intro a ha hpa
        refine if_neg ?_
        intro hid
        have hane : a ≠ nb := by
          intro h
          rw [h] at hpa
          simp [isPhotoOf, hnbK] at hpa
        exact id_ne_of_nodup db.assets hwfA a nb ha hnbm hane hid
      · intro a _
        by_cases hid : a.id = nb.id <;> simp [isPhotoOf, hid]
    exact loop_store_dense tok E ED (selectPhotos db E) delIds exCaps newPhotos
      newCaps ts (updateNotebookRow (updateEntryRow db E ED T B ts) nb.id path NC ts)
      fs1 [path] [nb.file_path] k1 hsnap hdb2 (hfilter ▸ hpermBase)
  · unfold edit_attempt
    dsimp only
    rw [hstep]
    dsimp only
    have hdb2 : (((insertAssetRow (updateEntryRow db E ED T B ts) E .notebook_page
        path NC 0 ts).assets).map (fun a => a.id)).Nodup := by
      show ((db.assets ++
          [(⟨db.nextAssetId, E, AssetKind.notebook_page, path, NC, 0, ts⟩ :
            AssetRow)]).map (fun a => a.id)).Nodup
      rw [List.map_append, List.nodup_append]
      refine ⟨hwfA, List.nodup_singleton _, ?_⟩
      intro x hx hy
      rcases List.mem_map.mp hx with ⟨a, ha, rfl⟩
      have hlt := hidlt a ha
      have hxy := List.mem_singleton.mp hy
      simp only at hxy
      rw [hxy] at hlt
      exact absurd rfl (Nat.ne_of_lt hlt)
    have hfilter : ((insertAssetRow (updateEntryRow db E ED T B ts) E .notebook_page
        path NC 0 ts).assets).filter (isPhotoOf E) = db.assets.filter (isPhotoOf E) := by
      show (db.assets ++
          [(⟨db.nextAssetId, E, AssetKind.notebook_page, path, NC, 0, ts⟩ :
            AssetRow)]).filter (isPhotoOf E) = _
      rw [List.filter_append]
      have hone : ([(⟨db.nextAssetId, E, AssetKind.notebook_page, path, NC, 0, ts⟩ :
          AssetRow)].filter (isPhotoOf E)) = [] := by
        simp [isPhotoOf]
      rw [hone, List.append_nil]
    exact loop_store_dense tok E ED (selectPhotos db E) delIds exCaps newPhotos
      newCaps ts (insertAssetRow (updateEntryRow db E ED T B ts) E .notebook_page
        path NC 0 ts) fs1 [path] [] k1 hsnap hdb2 (hfilter ▸ hpermBase)

/-- C5 (amended): a successful create gives the new entry photo rows whose
sort_index sequence is exactly 0..n-1 in insertion order; a successful edit
leaves entry E's photo rows with sort_index values forming exactly the set
{0..n-1} provided the request submits each of E's current photo ids exactly
once, in the snapshot order the form renders (kept photos are renumbered
0,1,2,... in submission order and new photos continue the sequence) —
assuming unique asset ids below the asset rowid counter and asset entry ids
below the entry rowid counter. -/
theorem workflow_photo_dense (tok : Nat → String) (today : Date) (ts : String)
    (formC : CreateForm) (formE : EditForm) (E : Nat) (db : DB) (fs : FS)
    (hwfA : (db.assets.map (fun a => a.id)).Nodup)
    (hidlt : ∀ a ∈ db.assets, a.id < db.nextAssetId)
    (hfresh : ∀ a ∈ db.assets, a.entry_id < db.nextEntryId)
    (hraws : formE.existing_photo_id
      = (selectPhotos db E).map (fun r => natStr r.id)) :
    (∀ eid, (admin_new tok today ts formC db fs).result = .published eid →
      ((admin_new tok today ts formC db fs).db.assets.filter (isPhotoOf eid)).map
          (fun a => a.sort_index)
        = List.range (((admin_new tok today ts formC db fs).db.assets.filter
            (isPhotoOf eid)).length)) ∧
    ((admin_edit tok today ts E formE db fs).result = .updated →
      (((admin_edit tok today ts E formE db fs).db.assets.filter (isPhotoOf E)).map
          (fun a => a.sort_index)).Perm
        (List.range (((admin_edit tok today ts E formE db fs).db.assets.filter
            (isPhotoOf E)).length))) := by
  have hcreateD : ∀ ED : String,
      (((create_attempt tok ED (pyStrip formC.title) (pyStrip formC.body_markdown)
        (pyStrip formC.notebook_caption) formC.notebook_page formC.photos
        formC.photo_caption ts db fs 0).2.2.1.assets.filter
          (isPhotoOf db.nextEntryId)).map (fun a => a.sort_index))
        = List.range (((create_attempt tok ED (pyStrip formC.title)
            (pyStrip formC.body_markdown) (pyStrip formC.notebook_caption)
            formC.notebook_page formC.photos formC.photo_caption ts db fs
            0).2.2.1.assets.filter (isPhotoOf db.nextEntryId)).length) := by
    intro ED
    obtain ⟨h1, h2, ⟨nbRows, photoRows, hA, hK, hL, hP, hS⟩, h4, h5⟩ :=
      create_attempt_spec tok ED (pyStrip formC.title) (pyStrip formC.body_markdown)
        (pyStrip formC.notebook_caption) formC.notebook_page formC.photos
        formC.photo_caption ts db fs 0
    rw [hA, List.filter_append, List.filter_append]
    have hdbz : db.assets.filter (isPhotoOf db.nextEntryId) = [] := by
      refine List.filter_eq_nil_iff.mpr ?_
      intro a ha
      have := hfresh a ha
      simp only [isPhotoOf, decide_eq_true_eq, not_and]
      intro h
      omega
    have hnbz : nbRows.filter (isPhotoOf db.nextEntryId) = [] := by
      refine List.filter_eq_nil_iff.mpr ?_
      intro a ha
      have hk := (hK a ha).2.1
      simp [isPhotoOf, hk]
    have hpz : photoRows.filter (isPhotoOf db.nextEntryId) = photoRows := by
      refine List.filter_eq_self.mpr ?_
      intro a ha
      simp [isPhotoOf, (hP a ha).1, (hP a ha).2]
    rw [hdbz, hnbz, hpz, List.nil_append, List.nil_append]
    exact hS
  constructor
  · -- create side
    have main : ∀ ED : String,
        ∀ err eid0 db1 fs1 saved k1,
        create_attempt tok ED (pyStrip formC.title) (pyStrip formC.body_markdown)
            (pyStrip formC.notebook_caption) formC.notebook_page formC.photos
            formC.photo_caption ts db fs 0 = (err, eid0, db1, fs1, saved, k1) →
        err = none →
        eid0 = db.nextEntryId ∧
        ((db1.assets.filter (isPhotoOf db.nextEntryId)).map (fun a => a.sort_index)
          = List.range ((db1.assets.filter (isPhotoOf db.nextEntryId)).length)) := by
      intro ED err eid0 db1 fs1 saved k1 hcr herr0
      obtain ⟨h1, h2, h3, h4, h5⟩ :=
        create_attempt_spec tok ED (pyStrip formC.title) (pyStrip formC.body_markdown)
          (pyStrip formC.notebook_caption) formC.notebook_page formC.photos
          formC.photo_caption ts db fs 0
      have hd := hcreateD ED
      rw [hcr] at h1 hd
      dsimp only at h1 hd
      exact ⟨h1, hd⟩
    cases hnd : normalized_entry_date today formC.entry_date with
    | error u =>
      rcases hcr : create_attempt tok today.iso (pyStrip formC.title)
          (pyStrip formC.body_markdown) (pyStrip formC.notebook_caption)
          formC.notebook_page formC.photos formC.photo_caption ts db fs 0
        with ⟨err, eid0, db1, fs1, saved, k1⟩
      cases err with
      | none =>
        obtain ⟨heid, hdense⟩ := main today.iso none eid0 db1 fs1 saved k1 hcr rfl
        have hres : (admin_new tok today ts formC db fs).result = .published eid0 := by
          simp [admin_new, hnd, hcr]
        have hdb : (admin_new tok today ts formC db fs).db = db1 := by
          simp [admin_new, hnd, hcr]
        intro eid h
        rw [hres] at h
        have heq : eid0 = eid := by
          cases h
          rfl
        rw [hdb, ← heq, heid]
        exact hdense
      | some pe =>
        intro eid h
        have hres : (admin_new tok today ts formC db fs).result.isErr = true := by
          cases pe <;> simp [admin_new, hnd, hcr, RouteResult.isErr]
        rw [h] at hres
        simp [RouteResult.isErr] at hres
    | ok d =>
      rcases hcr : create_attempt tok d (pyStrip formC.title)
          (pyStrip formC.body_markdown) (pyStrip formC.notebook_caption)
          formC.notebook_page formC.photos formC.photo_caption ts db fs 0
        with ⟨err, eid0, db1, fs1, saved, k1⟩
      cases err with
      | none =>
        obtain ⟨heid, hdense⟩ := main d none eid0 db1 fs1 saved k1 hcr rfl
        have hres : (admin_new tok today ts formC db fs).result = .published eid0 := by
          simp [admin_new, hnd, hcr]
        have hdb : (admin_new tok today ts formC db fs).db = db1 := by
          simp [admin_new, hnd, hcr]
        intro eid h
        rw [hres] at h
        have heq : eid0 = eid := by
          cases h
          rfl
        rw [hdb, ← heq, heid]
        exact hdense
      | some pe =>
        intro eid h
        have hres : (admin_new tok today ts formC db fs).result.isErr = true := by
          cases pe <;> simp [admin_new, hnd, hcr, RouteResult.isErr]
        rw [h] at hres
        simp [RouteResult.isErr] at hres
  · -- edit side
    by_cases hif : (db.entries.find? (fun e => decide (e.id = E))).isNone = true
    · intro h
      have hres2 : (admin_edit tok today ts E formE db fs).result = .notFound := by
        simp [admin_edit, hif]
      rw [hres2] at h
      cases h
    · rcases hnd : normalized_entry_date today formE.entry_date with u | ed
      · intro h
        have hres2 : (admin_edit tok today ts E formE db fs).result
            = .validationError "Entry date must be in YYYY-MM-DD format." := by
          simp [admin_edit, hif, hnd]
        rw [hres2] at h
        cases h
      · rcases her : edit_attempt tok E ed (pyStrip formE.title)
            (pyStrip formE.body_markdown) (pyStrip formE.notebook_caption)
            formE.notebook_page (selectNotebook db E) (selectPhotos db E)
            formE.existing_photo_delete formE.existing_photo_id
            formE.existing_photo_caption formE.new_photos formE.new_photo_caption
            ts db fs 0
          with ⟨err, db1, fs1, saved, toRemove, k1⟩
        cases err with
        | some pe =>
          intro h
          have hres2 : (admin_edit tok today ts E formE db fs).result.isErr = true := by
            cases pe <;> simp [admin_edit, hif, hnd, her, RouteResult.isErr]
          rw [h] at hres2
          simp [RouteResult.isErr] at hres2
        | none =>
          intro h
          have hdb : (admin_edit tok today ts E formE db fs).db = db1 := by
            simp [admin_edit, hif, hnd, her]
          have her2 := her
          rw [hraws] at her2
          have hd := edit_attempt_dense tok E ed (pyStrip formE.title)
            (pyStrip formE.body_markdown) (pyStrip formE.notebook_caption)
            formE.notebook_page formE.existing_photo_delete
            formE.existing_photo_caption formE.new_photos formE.new_photo_caption
            ts db fs 0 hwfA hidlt (by rw [her2])
          rw [her2] at hd
          dsimp only at hd
          rw [hdb]
          exact hd

/-- Counterexample to C5 as stated: entry 1 has photos with ids 1 and 2
(sort_index 0 and 1); an update that submits only id "2" succeeds, yet the
surviving photo rows carry sort_index values [0, 0] — not the gap-free set
{0, 1}: the loop renumbers only the submitted ids and never touches omitted
rows. -/
theorem admin_edit_sort_counterexample :
    (admin_edit (fun n => natStr n) ⟨2026, 10, 12⟩ "T1" 1
        { entry_date := some "2024-03-05", title := "T", body_markdown := "B",
          notebook_caption := "", notebook_page := none,
          existing_photo_delete := [], existing_photo_id := ["2"],
          existing_photo_caption := ["x"], new_photos := [],
          new_photo_caption := [] }
        ⟨[⟨1, "2024-03-05", "T", "B", "c", "u"⟩],
         [⟨1, 1, .photo, "2024/03/05/photo-a.jpg", "", 0, "c"⟩,
          ⟨2, 1, .photo, "2024/03/05/photo-b.jpg", "", 1, "c"⟩], 2, 3⟩
        ⟨["2024/03/05/photo-a.jpg", "2024/03/05/photo-b.jpg"],
         ["2024/03/05"]⟩).result = .updated ∧
    (((admin_edit (fun n => natStr n) ⟨2026, 10, 12⟩ "T1" 1
        { entry_date := some "2024-03-05", title := "T", body_markdown := "B",
          notebook_caption := "", notebook_page := none,
          existing_photo_delete := [], existing_photo_id := ["2"],
          existing_photo_caption := ["x"], new_photos := [],
          new_photo_caption := [] }
        ⟨[⟨1, "2024-03-05", "T", "B", "c", "u"⟩],
         [⟨1, 1, .photo, "2024/03/05/photo-a.jpg", "", 0, "c"⟩,
          ⟨2, 1, .photo, "2024/03/05/photo-b.jpg", "", 1, "c"⟩], 2, 3⟩
        ⟨["2024/03/05/photo-a.jpg", "2024/03/05/photo-b.jpg"],
         ["2024/03/05"]⟩).db.assets.filter (isPhotoOf 1)).map
          (fun a => a.sort_index)) = [0, 0] ∧
    ¬ (([0, 0] : List Nat).Perm (List.range 2)) := by
  refine ⟨by decide, by decide, ?_⟩
  intro h
  have := h.length_eq
  have h0 : (0 : Nat) ∈ [0, 0] := by decide
  have h1 : (1 : Nat) ∈ List.range 2 := by decide
  rw [← h.mem_iff] at h1
  simp at h1

/-- Witness for C5 (amended): publishing a new entry with two photos yields
sort_index [0, 1]; editing entry 1 while submitting both its photo ids in
snapshot order — deleting the first and adding one new photo — leaves the
photo set densely renumbered. -/
theorem workflow_photo_dense_witness :
    ((((admin_edit (fun n => natStr n) ⟨2026, 10, 12⟩ "T1" 1
        { entry_date := some "2024-03-05", title := "T", body_markdown := "B",
          notebook_caption := "", notebook_page := none,
          existing_photo_delete := ["1"], existing_photo_id := ["1", "2"],
          existing_photo_caption := ["x", "y"], new_photos := [⟨"new.jpg", true⟩],
          new_photo_caption := ["z"] }
        ⟨[⟨1, "2024-03-05", "T", "B", "c", "u"⟩],
         [⟨1, 1, .photo, "2024/03/05/photo-a.jpg", "", 0, "c"⟩,
          ⟨2, 1, .photo, "2024/03/05/photo-b.jpg", "", 1, "c"⟩], 2, 3⟩
        ⟨["2024/03/05/photo-a.jpg", "2024/03/05/photo-b.jpg"],
         ["2024/03/05"]⟩).db.assets.filter (isPhotoOf 1)).map
          (fun a => a.sort_index)).Perm
      (List.range (((admin_edit (fun n => natStr n) ⟨2026, 10, 12⟩ "T1" 1
        { entry_date := some "2024-03-05", title := "T", body_markdown := "B",
          notebook_caption := "", notebook_page := none,
          existing_photo_delete := ["1"], existing_photo_id := ["1", "2"],
          existing_photo_caption := ["x", "y"], new_photos := [⟨"new.jpg", true⟩],
          new_photo_caption := ["z"] }
        ⟨[⟨1, "2024-03-05", "T", "B", "c", "u"⟩],
         [⟨1, 1, .photo, "2024/03/05/photo-a.jpg", "", 0, "c"⟩,
          ⟨2, 1, .photo, "2024/03/05/photo-b.jpg", "", 1, "c"⟩], 2, 3⟩
        ⟨["2024/03/05/photo-a.jpg", "2024/03/05/photo-b.jpg"],
         ["2024/03/05"]⟩).db.assets.filter (isPhotoOf 1)).length))) ∧
    (((admin_new (fun n => natStr n) ⟨2026, 10, 12⟩ "T1"
        { entry_date := some "2024-03-06", title := "S", body_markdown := "B2",
          notebook_caption := "", notebook_page := none,
          photos := [⟨"p1.jpg", true⟩, ⟨"p2.jpg", true⟩], photo_caption := [] }
        ⟨[⟨1, "2024-03-05", "T", "B", "c", "u"⟩],
         [⟨1, 1, .photo, "2024/03/05/photo-a.jpg", "", 0, "c"⟩,
          ⟨2, 1, .photo, "2024/03/05/photo-b.jpg", "", 1, "c"⟩], 2, 3⟩
        ⟨["2024/03/05/photo-a.jpg", "2024/03/05/photo-b.jpg"],
         ["2024/03/05"]⟩).db.assets.filter (isPhotoOf 2)).map
          (fun a => a.sort_index)
      = List.range (((admin_new (fun n => natStr n) ⟨2026, 10, 12⟩ "T1"
        { entry_date := some "2024-03-06", title := "S", body_markdown := "B2",
          notebook_caption := "", notebook_page := none,
          photos := [⟨"p1.jpg", true⟩, ⟨"p2.jpg", true⟩], photo_caption := [] }
        ⟨[⟨1, "2024-03-05", "T", "B", "c", "u"⟩],
         [⟨1, 1, .photo, "2024/03/05/photo-a.jpg", "", 0, "c"⟩,
          ⟨2, 1, .photo, "2024/03/05/photo-b.jpg", "", 1, "c"⟩], 2, 3⟩
        ⟨["2024/03/05/photo-a.jpg", "2024/03/05/photo-b.jpg"],
         ["2024/03/05"]⟩).db.assets.filter (isPhotoOf 2)).length)) := by
  obtain ⟨hC, hE⟩ := workflow_photo_dense (fun n => natStr n) ⟨2026, 10, 12⟩ "T1"
    { entry_date := some "2024-03-06", title := "S", body_markdown := "B2",
      notebook_caption := "", notebook_page := none,
      photos := [⟨"p1.jpg", true⟩, ⟨"p2.jpg", true⟩], photo_caption := [] }
    { entry_date := some "2024-03-05", title := "T", body_markdown := "B",
      notebook_caption := "", notebook_page := none,
      existing_photo_delete := ["1"], existing_photo_id := ["1", "2"],
      existing_photo_caption := ["x", "y"], new_photos := [⟨"new.jpg", true⟩],
      new_photo_caption := ["z"] }
    1
    ⟨[⟨1, "2024-03-05", "T", "B", "c", "u"⟩],
     [⟨1, 1, .photo, "2024/03/05/photo-a.jpg", "", 0, "c"⟩,
      ⟨2, 1, .photo, "2024/03/05/photo-b.jpg", "", 1, "c"⟩], 2, 3⟩
    ⟨["2024/03/05/photo-a.jpg", "2024/03/05/photo-b.jpg"], ["2024/03/05"]⟩
    (by decide) (by decide) (by decide) (by decide)
  exact ⟨hE (by decide), hC 2 (by decide)⟩
